import Mathlib

set_option linter.unusedVariables false

/-! Program ifcheckd: mirroring corosync ring status into node attributes.

A shallow embedding of `tools/ifcheckd.c`.  The process globals (`cmap_handle`,
`cmap_source`, `w_timer`) and the outside world (the attribute store, the answers the
corosync / attrd / GLib calls will give, and the log of calls made so far) are gathered in
one record `World`; every C function becomes a function that takes a `World` and returns
its result together with the new `World`.

C strings are `String`s (no embedded NUL), machine integers are `Nat` / `Int`.
Logging (`crm_debug`, `crm_err`, ...) and memory management (`malloc`, `free`,
`_corosync_cfg_ring_status_free`) have no effect on the modelled state and are left out.
-/

namespace Ifcheckd

/-! ## Constants -/

/-- Value of `#define CMAP_MAX_RETRIES 10`. -/
def CMAP_MAX_RETRIES : Nat := 10

/-- Value of `#define STATE_FAULTY "FAULTY"`. -/
def STATE_FAULTY : String := "FAULTY"

/-- Value of `#define STATE_UP "UP"`. -/
def STATE_UP : String := "UP"

/-- Value of `#define STATE_UNKOWN "UNKOWN"` (spelling of the source). -/
def STATE_UNKOWN : String := "UNKOWN"

/-- Value of `#define MAX_LENGTH 255`. -/
def MAX_LENGTH : Nat := 255

/-- Value of `#define DEFAULT_INTERVAL 1`. -/
def DEFAULT_INTERVAL : Nat := 1

/-- Value of `#define FAULTY_TRACE_KEY "runtime.totem.pg.mrp.rrp."`. -/
def FAULTY_TRACE_KEY : String := "runtime.totem.pg.mrp.rrp."

/-- Value of `#define CONNECTIONS_TRACE_KEY "runtime.connections."`. -/
def CONNECTIONS_TRACE_KEY : String := "runtime.connections."

/-- Value of `#define PACEMAKER_PNAME "pacemakerd"`. -/
def PACEMAKER_PNAME : String := "pacemakerd"

/-- Modelled from the spec: `CMAP_KEYNAME_MAXLEN` comes from corosync's `cmap.h`, which is
not part of the sources; the key buffer holds 255 bytes. -/
def CMAP_KEYNAME_MAXLEN : Nat := 255

/-- Largest `int`. -/
def INT_MAX : Int := 2147483647

/-- Number of values of an `unsigned int` / `uint32_t`. -/
def UINT_RANGE : Nat := 4294967296

/-- Number of values of an `unsigned long` (LP64). -/
def ULONG_RANGE : Nat := 18446744073709551616

/-- Return code `pcmk_ok`. -/
def pcmk_ok : Int := 0

/-! ## Formatting -/

/-- Conversion `%u` of `printf`, applied to an `unsigned int`. -/
def fmt_u (n : Nat) : String := toString (n % UINT_RANGE)

/-- Format `FAULTY_KEY_MAKE_FORMAT`, `FAULTY_TRACE_KEY "%u.faulty"`. -/
def FAULTY_KEY_MAKE_FORMAT (i : Nat) : String := FAULTY_TRACE_KEY ++ fmt_u i ++ ".faulty"

/-- Format `ATTR_NAME_FORMAT`, `"ringnumber_%u"`. -/
def ATTR_NAME_FORMAT (iface_no : Nat) : String := "ringnumber_" ++ fmt_u iface_no

/-- Format `ATTR_VALUE_FORMAT`, `"%s is %s"`. -/
def ATTR_VALUE_FORMAT (interface_name state : String) : String :=
  interface_name ++ " is " ++ state

/-- Return value of `snprintf`: the length of the whole formatted text, whatever the buffer
size, and a negative value when that length does not fit an `int`. -/
def snprintf_len (s : String) : Int :=
  if (s.length : Int) ≤ INT_MAX then (s.length : Int) else -1

/-- What `snprintf` leaves in a buffer of `size` bytes: at most `size - 1` characters. -/
def snprintf_buf (size : Nat) (s : String) : String := String.mk (s.data.take (size - 1))

/-- The test `-1 < len && len < size` that follows every `snprintf` (`len` is an `int`,
`size` a `size_t`; once `-1 < len` holds the conversion of `len` to `size_t` keeps its
value). -/
def len_ok (len : Int) (size : Nat) : Bool := decide (-1 < len) && decide (len < (size : Int))

/-! ## Scanning (`sscanf`) -/

/-- Predicate `isspace` of the C locale. -/
def isspace (c : Char) : Bool := c.toNat == 32 || (decide (9 ≤ c.toNat) && decide (c.toNat ≤ 13))

/-- Predicate `isdigit`. -/
def isdigit (c : Char) : Bool := decide (48 ≤ c.toNat) && decide (c.toNat ≤ 57)

/-- Outcome of matching the literal part of a format against the input. -/
inductive LitMatch where
  | ok (rest : List Char)
  | eof
  | mismatch
  deriving DecidableEq, Repr

/-- Ordinary characters of a format must be met one by one in the input. -/
def match_literal : List Char → List Char → LitMatch
  | [], input => LitMatch.ok input
  | _ :: _, [] => LitMatch.eof
  | c :: cs, d :: ds => if c = d then match_literal cs ds else LitMatch.mismatch

/-- Value of a run of decimal digits. -/
def digits_value (ds : List Char) : Nat :=
  ds.foldl (fun acc c => 10 * acc + (c.toNat - 48)) 0

/-- Conversion `%u` of `scanf` once white space has been skipped: an optional sign, then at
least one decimal digit.  The digits are converted as `strtoul` does (saturating at
`ULONG_MAX`, negating modulo `ULONG_MAX + 1` after a minus sign) and the result is stored in
an `unsigned int`.  Returns the stored value and the unread input. -/
def scan_u (input : List Char) : Option (Nat × List Char) :=
  let neg : Bool := input.head? == some '-'
  let body : List Char :=
    if input.head? == some '-' || input.head? == some '+' then input.tail else input
  let ds := body.takeWhile isdigit
  if ds = [] then none
  else
    let v := digits_value ds
    let ul : Nat :=
      if ULONG_RANGE ≤ v then ULONG_RANGE - 1
      else if neg then (ULONG_RANGE - v) % ULONG_RANGE else v
    some (ul % UINT_RANGE, body.dropWhile isdigit)

/-- Conversion `%s` of `scanf`: skip white space, then take the characters up to the next
white space; fails when nothing is left. -/
def scan_s (input : List Char) : Option String :=
  let body := input.dropWhile isspace
  let tok := body.takeWhile (fun c => !isspace c)
  if tok = [] then none else some (String.mk tok)

/-- What `sscanf` reports for the two-field key formats: its return value and the two
fields (a field that was not assigned is left at a default and is never read by the
callers, which test `result` first). -/
structure Scan (α : Type) where
  result : Int
  field1 : α
  tmp_key : String

/-- Call `sscanf(key_name, FAULTY_KEY_SCAN_FORMAT, &iface_no, tmp_key)` with the format
`FAULTY_TRACE_KEY "%u.%s"`. -/
def sscanf_FAULTY_KEY (key_name : String) : Scan Nat :=
  match match_literal FAULTY_TRACE_KEY.data key_name.data with
  | LitMatch.eof => ⟨-1, 0, ""⟩
  | LitMatch.mismatch => ⟨0, 0, ""⟩
  | LitMatch.ok rest =>
    let rest1 := rest.dropWhile isspace
    if rest1 = [] then ⟨-1, 0, ""⟩
    else
      match scan_u rest1 with
      | none => ⟨0, 0, ""⟩
      | some (n, rest2) =>
        match rest2 with
        | [] => ⟨1, n, ""⟩
        | c :: rest3 =>
          if c ≠ '.' then ⟨1, n, ""⟩
          else
            match scan_s rest3 with
            | none => ⟨1, n, ""⟩
            | some tok => ⟨2, n, tok⟩

/-- Call `sscanf(key_name, CONNECTIONS_KEY_SCAN_FORMAT, conn_str, tmp_key)` with the format
`CONNECTIONS_TRACE_KEY "%[^.].%s"`. -/
def sscanf_CONNECTIONS_KEY (key_name : String) : Scan String :=
  match match_literal CONNECTIONS_TRACE_KEY.data key_name.data with
  | LitMatch.eof => ⟨-1, "", ""⟩
  | LitMatch.mismatch => ⟨0, "", ""⟩
  | LitMatch.ok rest =>
    if rest = [] then ⟨-1, "", ""⟩
    else
      let conn := rest.takeWhile (fun c => c ≠ '.')
      if conn = [] then ⟨0, "", ""⟩
      else
        match rest.dropWhile (fun c => c ≠ '.') with
        | [] => ⟨1, String.mk conn, ""⟩
        | _ :: rest3 =>
          match scan_s rest3 with
          | none => ⟨1, String.mk conn, ""⟩
          | some tok => ⟨2, String.mk conn, tok⟩

/-! ## The world: process globals and the outside -/

/-- Result type `cs_error_t` of the corosync calls; only `CS_OK` and `CS_ERR_TRY_AGAIN`
are told apart by the program, every other code is `CS_ERR code`. -/
inductive cs_error_t where
  | CS_OK
  | CS_ERR_TRY_AGAIN
  | CS_ERR (code : Nat)
  deriving DecidableEq, Repr

/-- Kind of change a cmap notification reports (`CMAP_TRACK_ADD`, `CMAP_TRACK_DELETE`,
`CMAP_TRACK_MODIFY`). -/
inductive cmap_track_event where
  | CMAP_TRACK_ADD
  | CMAP_TRACK_DELETE
  | CMAP_TRACK_MODIFY
  deriving DecidableEq, Repr

/-- Type tag of a cmap value; only `CMAP_VALUETYPE_STRING` is told apart. -/
inductive cmap_value_types_t where
  | CMAP_VALUETYPE_STRING
  | CMAP_VALUETYPE_OTHER (tag : Nat)
  deriving DecidableEq, Repr

/-- Record `struct cmap_notify_value`; `data` is read as a C string. -/
structure cmap_notify_value where
  type : cmap_value_types_t
  data : String
  deriving DecidableEq, Repr

/-- Record `struct wait_time`. -/
structure wait_time where
  timer_id : Nat
  seconds : Nat
  deriving DecidableEq, Repr

/-- Calls the program makes to the outside, in the order it makes them. -/
inductive Call where
  | cfg_init
  | cfg_finalize
  | ring_status_get
  | cmap_init
  | cmap_finalize (handle : Nat)
  | cmap_get_uint8 (handle : Nat) (key : String)
  | sleep (seconds : Nat)
  | attrd_update_delegate (command : Char) (name : String) (value : Option String)
  | cmap_fd_get (handle : Nat)
  | mainloop_add_fd (fd : Int)
  | mainloop_del_fd
  | cmap_track_add (handle : Nat) (key : String)
  | g_timeout_add_seconds (interval : Nat)
  deriving DecidableEq, Repr

/-- The globals of `ifcheckd.c` and the outside world.  Each `ans_...` field is the
sequence of answers the corresponding outside call will give from now on (index 0 is the
answer to the next call); `attrs` is the content of the attribute store for the local
node; `trace` lists the outside calls made so far. -/
structure World where
  cmap_handle : Nat
  cmap_source : Option Nat
  w_timer : wait_time
  attrs : String → Option String
  trace : List Call
  ans_cfg_init : Nat → cs_error_t
  ans_ring_status_get : Nat → cs_error_t × List (String × String)
  ans_cmap_init : Nat → cs_error_t × Nat
  ans_cmap_get_uint8 : Nat → cs_error_t × Nat
  ans_attrd : Nat → Int
  ans_cmap_fd_get : Nat → cs_error_t × Int
  ans_mainloop_add_fd : Nat → Option Nat
  ans_cmap_track_add : Nat → cs_error_t
  ans_timeout_add : Nat → Nat
  ans_mainloop_del_fd : Nat → Bool
  undefined : Bool

/-- The answers left once the next one has been consumed. -/
def later {α : Type} (s : Nat → α) : Nat → α := fun i => s (i + 1)

/-! ## Outside calls -/

/-- Call `corosync_cfg_initialize(&handle, NULL)`. -/
def corosync_cfg_initialize (w : World) : cs_error_t × World :=
  (w.ans_cfg_init 0,
   { w with ans_cfg_init := later w.ans_cfg_init, trace := w.trace ++ [Call.cfg_init] })

/-- Call `corosync_cfg_finalize(handle)`; the result is discarded by every caller. -/
def corosync_cfg_finalize (w : World) : World :=
  { w with trace := w.trace ++ [Call.cfg_finalize] }

/-- Call `corosync_cfg_ring_status_get`: on `CS_OK` the list holds, for ring ids
0, 1, ... in order, the interface name and the status text; `interface_count` is its
length. -/
def corosync_cfg_ring_status_get (w : World) : (cs_error_t × List (String × String)) × World :=
  (w.ans_ring_status_get 0,
   { w with ans_ring_status_get := later w.ans_ring_status_get,
            trace := w.trace ++ [Call.ring_status_get] })

/-- Call `cmap_initialize(&handle)`: the result and the value the call leaves in `*handle`.
On `CS_OK` that is the new handle, which is never 0 (the program uses `cmap_handle != 0` for
"a handle is held").  On a failure it is whatever the library left there, which the sources do
not determine: the second component of the answer, any number. -/
def cmap_initialize (w : World) : (cs_error_t × Nat) × World :=
  (((w.ans_cmap_init 0).1,
    if (w.ans_cmap_init 0).1 = cs_error_t.CS_OK then (w.ans_cmap_init 0).2 + 1
    else (w.ans_cmap_init 0).2),
   { w with ans_cmap_init := later w.ans_cmap_init, trace := w.trace ++ [Call.cmap_init] })

/-- Call `cmap_finalize(handle)`; the result is discarded by every caller. -/
def cmap_finalize (handle : Nat) (w : World) : World :=
  { w with trace := w.trace ++ [Call.cmap_finalize handle] }

/-- Call `cmap_get_uint8(handle, key, &faulty)`: the result and, on `CS_OK`, the byte (a
`uint8_t`, which the program only compares with 0 and 1). -/
def cmap_get_uint8 (handle : Nat) (key : String) (w : World) : (cs_error_t × Nat) × World :=
  (w.ans_cmap_get_uint8 0,
   { w with ans_cmap_get_uint8 := later w.ans_cmap_get_uint8,
            trace := w.trace ++ [Call.cmap_get_uint8 handle key] })

/-- Call `sleep(seconds)`. -/
def sleep (seconds : Nat) (w : World) : World :=
  { w with trace := w.trace ++ [Call.sleep seconds] }

/-- Modelled from the spec: the attribute store is a service outside this repository
(`attrd_update_delegate` of Pacemaker).  Per sections 4.4 and 6 of the spec it offers
`update(name, value)` and `delete(name)` for the local node and each answers Ok or an
error; an accepted update (command `'U'`) binds `name` to `value`, an accepted delete
(command `'D'`) removes `name`, a refused request leaves the store as it is. -/
def attrd_update_delegate (command : Char) (name : String) (value : Option String)
    (w : World) : Int × World :=
  (w.ans_attrd 0,
   { w with ans_attrd := later w.ans_attrd,
            trace := w.trace ++ [Call.attrd_update_delegate command name value],
            attrs := if w.ans_attrd 0 = pcmk_ok then
                       (fun n => if n = name then (if command = 'D' then none else value)
                                 else w.attrs n)
                     else w.attrs })

/-- Call `cmap_fd_get(cmap_handle, &cmap_fd)`. -/
def cmap_fd_get (handle : Nat) (w : World) : (cs_error_t × Int) × World :=
  (w.ans_cmap_fd_get 0,
   { w with ans_cmap_fd_get := later w.ans_cmap_fd_get,
            trace := w.trace ++ [Call.cmap_fd_get handle] })

/-- Call `mainloop_add_fd(...)`: `none` is `NULL`. -/
def mainloop_add_fd (fd : Int) (w : World) : Option Nat × World :=
  (w.ans_mainloop_add_fd 0,
   { w with ans_mainloop_add_fd := later w.ans_mainloop_add_fd,
            trace := w.trace ++ [Call.mainloop_add_fd fd] })

/-- Call `mainloop_del_fd(cmap_source)`.  The main loop is not part of the sources.  The
source was registered by `mainloop_add_fd` together with its callbacks, one of which is
`destroy`; whether the main loop runs `destroy` while it removes the source, before the call
returns, is an answer of the outside (`true`: it does). -/
def mainloop_del_fd (destroy : World → World) (w : World) : World :=
  let v : World :=
    { w with ans_mainloop_del_fd := later w.ans_mainloop_del_fd,
             trace := w.trace ++ [Call.mainloop_del_fd] }
  if w.ans_mainloop_del_fd 0 = true then destroy v else v

/-- Call `cmap_track_add(cmap_handle, key, ...)`. -/
def cmap_track_add (handle : Nat) (key : String) (w : World) : cs_error_t × World :=
  (w.ans_cmap_track_add 0,
   { w with ans_cmap_track_add := later w.ans_cmap_track_add,
            trace := w.trace ++ [Call.cmap_track_add handle key] })

/-- Call `g_timeout_add_seconds(interval, _regular_attr_init, &w_timer)`: GLib returns the
id of the new event source, which is greater than 0. -/
def g_timeout_add_seconds (interval : Nat) (w : World) : Nat × World :=
  (w.ans_timeout_add 0 + 1,
   { w with ans_timeout_add := later w.ans_timeout_add,
            trace := w.trace ++ [Call.g_timeout_add_seconds interval] })

/-! ## The program -/

/-- The loop
`while ((result = cmap_get_uint8(h, key, &faulty)) == CS_ERR_TRY_AGAIN
        && no_retries++ < CMAP_MAX_RETRIES) sleep(1);`
of `_attr_iface_init` and `_cs_cmap_rrp_faulty_key_changed`.  `left` is
`CMAP_MAX_RETRIES - no_retries`, so the test `no_retries++ < CMAP_MAX_RETRIES` is
`0 < left`; the loop is entered with `no_retries = 0`, that is `left = CMAP_MAX_RETRIES`.
Returns the last `result` and `faulty`. -/
def cmap_get_uint8_retry (handle : Nat) (key : String) :
    Nat → World → (cs_error_t × Nat) × World
  | 0, w =>
    cmap_get_uint8 handle key w
  | left + 1, w =>
    if (cmap_get_uint8 handle key w).1.1 = cs_error_t.CS_ERR_TRY_AGAIN then
      cmap_get_uint8_retry handle key left (sleep 1 (cmap_get_uint8 handle key w).2)
    else cmap_get_uint8 handle key w

/-- Function `_corosync_cfg_ring_status_free`, called at every `out_free`.  `assigned` tells
whether `corosync_cfg_ring_status_get` answered `CS_OK` and so assigned `interface_count`,
`interface_names` and `interface_status`; the function then only releases memory.  Otherwise
it loops up to a never-assigned count and passes never-assigned pointers to `free`; what the
process does from there on is not determined by the sources, and the world records that in
`undefined`. -/
def _corosync_cfg_ring_status_free (assigned : Bool) (w : World) : World :=
  if assigned = true then w else { w with undefined := true }

/-- Function `_delete_attr_iface`. -/
def _delete_attr_iface (iface_no : Nat) (size : Nat) (w : World) : Bool × World :=
  let if_attr := ATTR_NAME_FORMAT iface_no
  if len_ok (snprintf_len if_attr) size = false then (false, w)
  else
    let r := attrd_update_delegate 'D' if_attr none w
    if r.1 ≠ pcmk_ok then (false, r.2) else (true, r.2)

/-- Function `_update_attr_iface`. -/
def _update_attr_iface (iface_no : Nat) (interface_name state : String) (size : Nat)
    (w : World) : Bool × World :=
  let if_attr := ATTR_NAME_FORMAT iface_no
  if len_ok (snprintf_len if_attr) size = false then (false, w)
  else
    let if_value := ATTR_VALUE_FORMAT interface_name state
    if len_ok (snprintf_len if_value) size = false then (false, w)
    else
      let r := attrd_update_delegate 'U' if_attr (some if_value) w
      if r.1 ≠ pcmk_ok then (false, r.2) else (true, r.2)

/-- The `for (i = 0; i < interface_count; i++)` loop of `_attr_iface_finalize`; the list
holds the rings `i, i+1, ...` still to visit.  Returns `rc`. -/
def _attr_iface_finalize_loop (size : Nat) : List (String × String) → Nat → World → Bool × World
  | [], _, w => (true, w)
  | _ :: rest, i, w =>
    if (_delete_attr_iface i size w).1 = false then (false, (_delete_attr_iface i size w).2)
    else _attr_iface_finalize_loop size rest (i + 1) (_delete_attr_iface i size w).2

/-- Function `_attr_iface_finalize`.  A failing `corosync_cfg_ring_status_get` is no early
return: the function goes on to `out_free` with its three locals never assigned. -/
def _attr_iface_finalize (w : World) : Bool × World :=
  let size := MAX_LENGTH
  let c := corosync_cfg_initialize w
  if c.1 ≠ cs_error_t.CS_OK then (false, c.2)
  else
    let s := corosync_cfg_ring_status_get c.2
    let l := if s.1.1 ≠ cs_error_t.CS_OK then (false, s.2)
             else _attr_iface_finalize_loop size s.1.2 0 s.2
    (l.1, corosync_cfg_finalize
            (_corosync_cfg_ring_status_free (decide (s.1.1 = cs_error_t.CS_OK)) l.2))

/-- The text chosen by `if (faulty == 0) ... else if (faulty == 1) ... else ...`. -/
def state_of_faulty (faulty : Nat) : String :=
  if faulty = 0 then STATE_UP else if faulty = 1 then STATE_FAULTY else STATE_UNKOWN

/-- The `for (i = 0; i < interface_count; i++)` loop of `_attr_iface_init`; the list holds
the rings `i, i+1, ...` still to visit, its head is `interface_names[i]`.  Returns `rc`. -/
def _attr_iface_init_loop (handle2 size : Nat) :
    List (String × String) → Nat → World → Bool × World
  | [], _, w => (true, w)
  | ring :: rest, i, w =>
    let tmp_key := FAULTY_KEY_MAKE_FORMAT i
    if len_ok (snprintf_len tmp_key) size = false then (false, w)
    else
      let r := cmap_get_uint8_retry handle2 (snprintf_buf CMAP_KEYNAME_MAXLEN tmp_key)
                 CMAP_MAX_RETRIES w
      if r.1.1 ≠ cs_error_t.CS_OK then (false, r.2)
      else
        let state := state_of_faulty r.1.2
        if len_ok (snprintf_len state) size = false then (false, r.2)
        else
          let u := _update_attr_iface i ring.1 state size r.2
          if u.1 = false then (false, u.2)
          else _attr_iface_init_loop handle2 size rest (i + 1) u.2

/-- Function `_attr_iface_init`.  A failing `corosync_cfg_ring_status_get` is no early
return: the function goes on to `out_free` with its three locals never assigned. -/
def _attr_iface_init (w : World) : Bool × World :=
  let size := MAX_LENGTH
  let c := corosync_cfg_initialize w
  if c.1 ≠ cs_error_t.CS_OK then (false, c.2)
  else
    let m := cmap_initialize c.2
    if m.1.1 ≠ cs_error_t.CS_OK then (false, corosync_cfg_finalize m.2)
    else
      let s := corosync_cfg_ring_status_get m.2
      let l := if s.1.1 ≠ cs_error_t.CS_OK then (false, s.2)
               else _attr_iface_init_loop m.1.2 size s.1.2 0 s.2
      (l.1, cmap_finalize m.1.2 (corosync_cfg_finalize
              (_corosync_cfg_ring_status_free (decide (s.1.1 = cs_error_t.CS_OK)) l.2)))

/-- Function `_get_interface_name`: `rc` and the content of the buffer `interface_name`
(which the caller reads only when `rc` is TRUE).  A failing `corosync_cfg_ring_status_get`
goes on to `out_free` with the three locals never assigned. -/
def _get_interface_name (ring_id : Nat) (size : Nat) (w : World) : (Bool × String) × World :=
  let c := corosync_cfg_initialize w
  if c.1 ≠ cs_error_t.CS_OK then ((false, ""), c.2)
  else
    let s := corosync_cfg_ring_status_get c.2
    let r : Bool × String :=
      if s.1.1 ≠ cs_error_t.CS_OK then (false, "")
      else if ring_id < s.1.2.length then
        let name := (s.1.2.getD ring_id ("", "")).1
        if len_ok (snprintf_len name) size then (true, name)
        else (false, snprintf_buf size name)
      else (false, "")
    (r, corosync_cfg_finalize
          (_corosync_cfg_ring_status_free (decide (s.1.1 = cs_error_t.CS_OK)) s.2))

/-- Function `_send_attr_iface`. -/
def _send_attr_iface (iface_no : Nat) (state : String) (size : Nat) (w : World) :
    Bool × World :=
  let g := _get_interface_name iface_no size w
  if g.1.1 = false then (false, g.2)
  else
    let u := _update_attr_iface iface_no g.1.2 state size g.2
    if u.1 = false then (false, u.2) else (true, u.2)

/-- Function `_cs_rrp_faulty_event` (its two branches differ in the log line only). -/
def _cs_rrp_faulty_event (iface_no : Nat) (state : String) (w : World) : World :=
  (_send_attr_iface iface_no state MAX_LENGTH w).2

/-- Function `ifcheckd_init`. -/
def ifcheckd_init (w : World) : World :=
  if w.w_timer.timer_id ≠ 0 then w
  else
    let t := g_timeout_add_seconds w.w_timer.seconds w
    { t.2 with w_timer := { t.2.w_timer with timer_id := t.1 } }

/-- Function `ifcheckd_finalize`. -/
def ifcheckd_finalize (w : World) : World :=
  let a := _attr_iface_finalize w
  let f := cmap_finalize a.2.cmap_handle a.2
  { f with cmap_handle := 0 }

/-- Function `_cs_cmap_destroy`. -/
def _cs_cmap_destroy (w : World) : World :=
  ifcheckd_init (ifcheckd_finalize w)

/-- Function `_cs_cmap_connections_key_changed`. -/
def _cs_cmap_connections_key_changed (cmap_handle_c cmap_track_handle : Nat)
    (event : cmap_track_event) (key_name : String)
    (new_value old_value : cmap_notify_value) (w : World) : World :=
  let s := sscanf_CONNECTIONS_KEY key_name
  if s.result ≠ 2 then w
  else if s.tmp_key ≠ "name" then w
  else if old_value.type ≠ cmap_value_types_t.CMAP_VALUETYPE_STRING then w
  else
    let value := old_value.data
    if value = PACEMAKER_PNAME then
      if event = cmap_track_event.CMAP_TRACK_DELETE then
        if w.w_timer.timer_id = 0 then ifcheckd_init w else w
      else w
    else w

/-- Function `_cs_cmap_rrp_faulty_key_changed`. -/
def _cs_cmap_rrp_faulty_key_changed (cmap_handle_c cmap_track_handle : Nat)
    (event : cmap_track_event) (key_name : String)
    (new_value old_value : cmap_notify_value) (w : World) : World :=
  let s := sscanf_FAULTY_KEY key_name
  if s.result ≠ 2 then w
  else if s.tmp_key ≠ "faulty" then w
  else
    let r := cmap_get_uint8_retry w.cmap_handle key_name CMAP_MAX_RETRIES w
    if r.1.1 ≠ cs_error_t.CS_OK then r.2
    else if r.1.2 = 0 then _cs_rrp_faulty_event s.field1 STATE_UP r.2
    else if r.1.2 = 1 then _cs_rrp_faulty_event s.field1 STATE_FAULTY r.2
    else _cs_rrp_faulty_event s.field1 STATE_UNKOWN r.2

/-- Function `_cs_cmap_init`.  The call `cmap_initialize(&cmap_handle)` writes through the
address of the global, so `cmap_handle` holds what the call left there also when the call
failed: that path returns FALSE without the `cmap_handle = 0` of `bail`.  The source is
registered with `cmap_fd_callbacks`, whose `.destroy` is `_cs_cmap_destroy`: that is the
callback `mainloop_del_fd` may run at `bail2`. -/
def _cs_cmap_init (w : World) : Bool × World :=
  let m := cmap_initialize w
  let w1 : World := { m.2 with cmap_handle := m.1.2 }
  if m.1.1 ≠ cs_error_t.CS_OK then (false, w1)
  else
    let bail : World → Bool × World := fun v =>
      (false, { cmap_finalize v.cmap_handle v with cmap_handle := 0 })
    let fd := cmap_fd_get w1.cmap_handle w1
    if fd.1.1 ≠ cs_error_t.CS_OK then bail fd.2
    else
      let src := mainloop_add_fd fd.1.2 fd.2
      let w2 : World := { src.2 with cmap_source := src.1 }
      if src.1 = none then bail w2
      else
        let t1 := cmap_track_add w2.cmap_handle FAULTY_TRACE_KEY w2
        if t1.1 ≠ cs_error_t.CS_OK then bail (mainloop_del_fd _cs_cmap_destroy t1.2)
        else
          let t2 := cmap_track_add t1.2.cmap_handle CONNECTIONS_TRACE_KEY t1.2
          if t2.1 ≠ cs_error_t.CS_OK then bail (mainloop_del_fd _cs_cmap_destroy t2.2)
          else (true, t2.2)

/-- Function `_regular_attr_init`, the timer callback: TRUE keeps the timer, FALSE lets
GLib remove it. -/
def _regular_attr_init (w : World) : Bool × World :=
  let a := _attr_iface_init w
  if a.1 = false then (true, a.2)
  else if a.2.cmap_handle ≠ 0 then
    (false, { a.2 with w_timer := { a.2.w_timer with timer_id := 0 } })
  else
    let c := _cs_cmap_init a.2
    if c.1 = true then
      (false, { c.2 with w_timer := { c.2.w_timer with timer_id := 0 } })
    else (true, c.2)

/-! ## Reading the log of calls -/

/-- The requests sent to the attribute store, in order. -/
def store_calls (trace : List Call) : List Call :=
  trace.filter (fun c => match c with
    | Call.attrd_update_delegate _ _ _ => true
    | _ => false)

/-- The calls of one bounded-retry read that makes `k` retries: a first
`cmap_get_uint8`, then `k` times a `sleep(1)` followed by another `cmap_get_uint8`. -/
def retry_calls (handle : Nat) (key : String) : Nat → List Call
  | 0 => [Call.cmap_get_uint8 handle key]
  | k + 1 => Call.cmap_get_uint8 handle key :: Call.sleep 1 :: retry_calls handle key k

/-- The world once `n` answers of `cmap_get_uint8` have been consumed and `calls` have been
logged, nothing else having changed. -/
def after_reads (n : Nat) (calls : List Call) (w : World) : World :=
  { w with ans_cmap_get_uint8 := fun i => w.ans_cmap_get_uint8 (i + n),
           trace := w.trace ++ calls }

/-- The request that publishes ring `i` with interface name `name` and fault byte `b`. -/
def update_call (i : Nat) (name : String) (b : Nat) : Call :=
  Call.attrd_update_delegate 'U' (ATTR_NAME_FORMAT i)
    (some (ATTR_VALUE_FORMAT name (state_of_faulty b)))

/-- The request that removes the attribute of ring `i`. -/
def delete_call (i : Nat) : Call :=
  Call.attrd_update_delegate 'D' (ATTR_NAME_FORMAT i) none

/-- Interface name of ring `j` in a snapshot. -/
def ring_name (rings : List (String × String)) (j : Nat) : String :=
  (rings.getD j ("", "")).1

/-- The world once `_get_interface_name` has run through a successful snapshot read: one
answer of `corosync_cfg_initialize` and one of `corosync_cfg_ring_status_get` consumed, three
calls logged, nothing else changed. -/
def after_name_lookup (w : World) : World :=
  { w with ans_cfg_init := later w.ans_cfg_init,
           ans_ring_status_get := later w.ans_ring_status_get,
           trace := w.trace ++ [Call.cfg_init, Call.ring_status_get, Call.cfg_finalize] }

/-- The text the program publishes for a fault byte, spelled out. -/
def state_text (b : Nat) : String :=
  if b = 0 then "UP" else if b = 1 then "FAULTY" else "UNKOWN"

/-! ## Concrete worlds -/

/-- A process that has just started (no handle, no timer, empty store, nothing logged) in
front of an outside where corosync and the main loop answer every call with success, the
snapshot is `rings`, and the fault-byte reads and the store answer as given; the main loop
does not run the destroy callback inside `mainloop_del_fd`. -/
def fresh (rings : List (String × String)) (reads : Nat → cs_error_t × Nat)
    (store : Nat → Int) : World :=
  { cmap_handle := 0
    cmap_source := none
    w_timer := { timer_id := 0, seconds := DEFAULT_INTERVAL }
    attrs := fun _ => none
    trace := []
    ans_cfg_init := fun _ => cs_error_t.CS_OK
    ans_ring_status_get := fun _ => (cs_error_t.CS_OK, rings)
    ans_cmap_init := fun _ => (cs_error_t.CS_OK, 0)
    ans_cmap_get_uint8 := reads
    ans_attrd := store
    ans_cmap_fd_get := fun _ => (cs_error_t.CS_OK, 3)
    ans_mainloop_add_fd := fun _ => some 1
    ans_cmap_track_add := fun _ => cs_error_t.CS_OK
    ans_timeout_add := fun _ => 0
    ans_mainloop_del_fd := fun _ => false
    undefined := false }

/-- The snapshot `0:(eth0, Up), 1:(eth1, Faulty), 2:(eth2, Unknown)` of the spec; the status
texts are what corosync prints for the rings. -/
def three_rings : List (String × String) :=
  [("eth0", "ring 0 active with no faults"), ("eth1", "Marking ringid 1 FAULTY"),
   ("eth2", "ring 2 active with no faults")]

/-- The fault bytes of `three_rings`: 0 (up), 1 (faulty), 2 (neither). -/
def three_bytes (i : Nat) : Nat := [0, 1, 2].getD i 0

/-- The world of the resync example: `three_rings` with `three_bytes`, every read and every
store request succeeding. -/
def w_three_rings : World :=
  fresh three_rings (fun i => (cs_error_t.CS_OK, three_bytes i)) (fun _ => pcmk_ok)

/-- A process in state Tracking (a channel handle is held, the timer is not armed), in
front of the same outside as `fresh`, with the given attributes published. -/
def tracking (rings : List (String × String)) (reads : Nat → cs_error_t × Nat)
    (store : Nat → Int) (attrs : String → Option String) : World :=
  { fresh rings reads store with
      cmap_handle := 1
      cmap_source := some 1
      attrs := attrs }

/-- An interface name of 249 characters: with it `<name> is UP` has 255 characters. -/
def long_name : String := String.mk (List.replicate 249 'a')

/-- A Tracking world whose only ring has the interface name `long_name`; the re-read of its
fault byte answers `CS_OK` with byte 0 and the store accepts every request. -/
def w_long_name : World :=
  tracking [(long_name, "ring 0 active with no faults")] (fun _ => (cs_error_t.CS_OK, 0))
    (fun _ => pcmk_ok) (fun _ => none)

/-- Some cmap value carried by a notification of a fault byte. -/
def byte_value : cmap_notify_value :=
  { type := cmap_value_types_t.CMAP_VALUETYPE_OTHER 0, data := "" }

/-- The attributes that a resync of `three_rings` with `three_bytes` publishes. -/
def three_attrs (name : String) : Option String :=
  if name = "ringnumber_0" then some "eth0 is UP"
  else if name = "ringnumber_1" then some "eth1 is FAULTY"
  else if name = "ringnumber_2" then some "eth2 is UNKOWN"
  else none

/-- A Tracking world with the attributes of `three_rings` published, at the moment corosync
has gone away: `corosync_cfg_initialize` answers an error. -/
def w_corosync_down : World :=
  { tracking three_rings (fun _ => (cs_error_t.CS_ERR 2, 0)) (fun _ => pcmk_ok) three_attrs with
      ans_cfg_init := fun _ => cs_error_t.CS_ERR 2 }

/-- A Tracking world with the attributes of `three_rings` published and everything outside
answering with success. -/
def w_tracking_three : World :=
  tracking three_rings (fun i => (cs_error_t.CS_OK, three_bytes i)) (fun _ => pcmk_ok)
    three_attrs

/-- The old value of a deleted key `runtime.connections.<id>.name` of Pacemaker. -/
def pacemakerd_name : cmap_notify_value :=
  { type := cmap_value_types_t.CMAP_VALUETYPE_STRING, data := "pacemakerd" }

/-- The new value of a delete notification (nothing). -/
def no_value : cmap_notify_value :=
  { type := cmap_value_types_t.CMAP_VALUETYPE_OTHER 0, data := "" }

/-- Two rings, both up. -/
def two_rings : List (String × String) :=
  [("eth0", "ring 0 active with no faults"), ("eth1", "ring 1 active with no faults")]

/-- A freshly started process facing `two_rings`, both up, where the store refuses the first
request it gets (error -107) and accepts the later ones. -/
def w_store_refuses_first : World :=
  fresh two_rings (fun _ => (cs_error_t.CS_OK, 0)) (fun i => if i = 0 then -107 else pcmk_ok)

/-- One fault-byte transition of a ring as the program meets it: the change event that is
delivered, the number of `CS_ERR_TRY_AGAIN` answers the re-read gets before it succeeds, and
the byte it then reads. -/
structure Transition where
  event : cmap_track_event
  new_value : cmap_notify_value
  old_value : cmap_notify_value
  retries : Nat
  byte : Nat

/-- The answers of `cmap_get_uint8` follow the transitions: for each transition in turn,
`retries` (at most `CMAP_MAX_RETRIES`) answers `CS_ERR_TRY_AGAIN`, then `CS_OK` with `byte`. -/
def reads_follow : List Transition → (Nat → cs_error_t × Nat) → Prop
  | [], _ => True
  | tr :: rest, s =>
    tr.retries ≤ CMAP_MAX_RETRIES ∧
    (∀ j, j < tr.retries → (s j).1 = cs_error_t.CS_ERR_TRY_AGAIN) ∧
    s tr.retries = (cs_error_t.CS_OK, tr.byte) ∧
    reads_follow rest (fun i => s (i + (tr.retries + 1)))

/-- Delivery of the change events of a list of transitions of one key, one call of
`_cs_cmap_rrp_faulty_key_changed` per transition, in order. -/
def deliver (c t : Nat) (key_name : String) : List Transition → World → World
  | [], w => w
  | tr :: rest, w =>
    deliver c t key_name rest
      (_cs_cmap_rrp_faulty_key_changed c t tr.event key_name tr.new_value tr.old_value w)

/-- An interface name of 245 characters: `<name> is UP` has 251 characters and
`<name> is FAULTY` has 255. -/
def name245 : String := String.mk (List.replicate 245 'a')

/-- A Tracking world whose only ring has the interface name `name245`; every read and every
store request succeeds at once, the first re-read gives byte 0 and the later ones byte 1. -/
def w_name245 : World :=
  tracking [(name245, "ring 0 active with no faults")]
    (fun i => (cs_error_t.CS_OK, if i = 0 then 0 else 1)) (fun _ => pcmk_ok) (fun _ => none)

/-- A transition delivered as a modify event, re-read after `retries` transient failures as
`byte`. -/
def modify_to (retries byte : Nat) : Transition :=
  { event := cmap_track_event.CMAP_TRACK_MODIFY, new_value := byte_value,
    old_value := byte_value, retries := retries, byte := byte }

/-- A Tracking world with `three_rings`, the store accepting every request, whose re-reads
answer: two transient failures then byte 1, then at once byte 0, then ten transient failures
and byte 2. -/
def w_flapping : World :=
  tracking three_rings
    (fun i => if i < 2 then (cs_error_t.CS_ERR_TRY_AGAIN, 0)
              else if i = 2 then (cs_error_t.CS_OK, 1)
              else if i = 3 then (cs_error_t.CS_OK, 0)
              else if i < 14 then (cs_error_t.CS_ERR_TRY_AGAIN, 0)
              else (cs_error_t.CS_OK, 2))
    (fun _ => pcmk_ok) (fun _ => none)

/-! ## Events, start and shutdown -/

/-- The delete requests sent to the attribute store, in order. -/
def delete_calls (trace : List Call) : List Call :=
  trace.filter (fun c => match c with
    | Call.attrd_update_delegate command _ _ => command == 'D'
    | _ => false)

/-- The calls that build or dismantle the notification channel of the engine: the ones
`_cs_cmap_init` makes after `cmap_initialize`. -/
def channel_calls (trace : List Call) : List Call :=
  trace.filter (fun c => match c with
    | Call.cmap_fd_get _ => true
    | Call.mainloop_add_fd _ => true
    | Call.mainloop_del_fd => true
    | Call.cmap_track_add _ _ => true
    | _ => false)

/-- From `w` to `w1` the globals of the program (`cmap_handle`, `cmap_source`, `w_timer`) are
the same and no delete request has been sent to the store. -/
def untouched (w w1 : World) : Prop :=
  w1.cmap_handle = w.cmap_handle ∧ w1.cmap_source = w.cmap_source ∧
  w1.w_timer = w.w_timer ∧ delete_calls w1.trace = delete_calls w.trace

/-- No answer of `corosync_cfg_ring_status_get` is a failure, so that the program never
reaches an `out_free` with the count and the two arrays unassigned. -/
def never_unassigned (w : World) : Prop :=
  ∀ k, (w.ans_ring_status_get k).1 = cs_error_t.CS_OK

/-- From `w` to `w1` no snapshot has been read and the program has stayed where the sources
determine what it does. -/
def calm (w w1 : World) : Prop :=
  w1.undefined = w.undefined ∧ w1.ans_ring_status_get = w.ans_ring_status_get

/-- If no snapshot read fails from `w` on, none fails from `w1` on and the program has stayed
where the sources determine what it does. -/
def stays_defined (w w1 : World) : Prop :=
  never_unassigned w → never_unassigned w1 ∧ w1.undefined = w.undefined

/-- What the main loop can dispatch to the program (a shutdown request apart): a firing of
the periodic timer, a notification on one of the two traced key texts, the destruction of the
cmap connection. -/
inductive Event where
  | timer_fired
  | ring_fault (c t : Nat) (event : cmap_track_event) (key_name : String)
      (new_value old_value : cmap_notify_value)
  | peer_connection (c t : Nat) (event : cmap_track_event) (key_name : String)
      (new_value old_value : cmap_notify_value)
  | channel_lost

/-- Dispatch of one event: the timer callback `_regular_attr_init` runs only while the timer
exists (GLib removes it when the callback returns FALSE, where the program has set
`w_timer.timer_id` to 0); the other callbacks are run in whatever state they arrive. -/
def dispatch (e : Event) (w : World) : World :=
  match e with
  | Event.timer_fired => if w.w_timer.timer_id = 0 then w else (_regular_attr_init w).2
  | Event.ring_fault c t event key_name nv ov =>
    _cs_cmap_rrp_faulty_key_changed c t event key_name nv ov w
  | Event.peer_connection c t event key_name nv ov =>
    _cs_cmap_connections_key_changed c t event key_name nv ov w
  | Event.channel_lost => _cs_cmap_destroy w

/-- Dispatch of a list of events, in order. -/
def run_events : List Event → World → World
  | [], w => w
  | e :: rest, w => run_events rest (dispatch e w)

/-- The start of `main`: `w_timer.seconds = DEFAULT_INTERVAL; w_timer.timer_id = 0;
cmap_source = NULL; cmap_handle = 0;` and, once the options are read, `ifcheckd_init()`. -/
def main_start (w : World) : World :=
  ifcheckd_init
    { w with cmap_handle := 0
             cmap_source := none
             w_timer := { timer_id := 0, seconds := DEFAULT_INTERVAL } }

/-- The process: running in its main loop, or gone after `crm_exit`. -/
inductive Proc where
  | running (w : World)
  | exited (w : World)

/-- The end of `main`, reached when `g_main_loop_run` returns:
`ifcheckd_finalize(); unlink(pid_file); free(pid_file); crm_exit(EX_OK)`. -/
def main_end (w : World) : Proc := Proc.exited (ifcheckd_finalize w)

/-- Function `_ifcheckd_shutdown`, followed to the end of the process.  When the main loop
is running it calls `g_main_loop_quit` and returns, which makes `g_main_loop_run` return in
`main` (`main_end`); otherwise it finalizes and exits itself. -/
def _ifcheckd_shutdown (nsig : Int) (loop_running : Bool) (w : World) : Proc :=
  if loop_running then main_end w
  else Proc.exited (ifcheckd_finalize w)

/-- Dispatch of an event to the process: a process that has exited runs nothing. -/
def proc_dispatch (e : Event) : Proc → Proc
  | Proc.running w => Proc.running (dispatch e w)
  | Proc.exited w => Proc.exited w

/-- The world a process is in, or was in when it exited. -/
def proc_world : Proc → World
  | Proc.running w => w
  | Proc.exited w => w

/-- A process just started by `main` in front of `three_rings`: Disconnected, timer armed. -/
def w_started : World :=
  main_start (fresh three_rings (fun i => (cs_error_t.CS_OK, three_bytes i)) (fun _ => pcmk_ok))

/-- A process just started in front of `three_rings`, where corosync answers every call with
success except `cmap_track_add`, which is refused. -/
def w_track_refused : World :=
  { w_started with ans_cmap_track_add := fun _ => cs_error_t.CS_ERR 2 }

/-- The world `w_track_refused` in front of a main loop that runs the destroy callback of a
source while `mainloop_del_fd` removes it. -/
def w_track_refused_destroy : World :=
  { w_track_refused with ans_mainloop_del_fd := fun _ => true }

/-- A process just started in front of `three_rings`, where the `cmap_initialize` of the
snapshot reader succeeds and the one of `_cs_cmap_init` fails, leaving 0 in `cmap_handle`. -/
def w_connect_refused : World :=
  { w_started with
      ans_cmap_init := fun i => if i = 0 then (cs_error_t.CS_OK, 0) else (cs_error_t.CS_ERR 2, 0) }

/-- A process just started in front of `three_rings`, where corosync answers
`corosync_cfg_initialize` and `cmap_initialize` with success and
`corosync_cfg_ring_status_get` with an error. -/
def w_snapshot_refused : World :=
  { w_started with ans_ring_status_get := fun _ => (cs_error_t.CS_ERR 2, []) }

/-- A process just started while corosync is away: `corosync_cfg_initialize` fails. -/
def w_started_down : World := main_start w_corosync_down

/-- A world in front of `three_rings` where corosync answers the first
`corosync_cfg_initialize` with success and every later one with an error: corosync goes away
after the first resync. -/
def w_corosync_dies : World :=
  { w_three_rings with
      ans_cfg_init := fun i => if i = 0 then cs_error_t.CS_OK else cs_error_t.CS_ERR 2 }

/-- The process started in front of `w_corosync_dies`, after the timer fired (resync and
connect) and the channel was then lost. -/
def w_after_loss : World :=
  run_events [Event.timer_fired, Event.channel_lost] (main_start w_corosync_dies)

/-! ## Facts about the bounded-retry read -/

theorem store_calls_append (a b : List Call) :
    store_calls (a ++ b) = store_calls a ++ store_calls b := by
  simp [store_calls]

theorem store_calls_retry_calls (handle : Nat) (key : String) (k : Nat) :
    store_calls (retry_calls handle key k) = [] := by
  induction k with
  | zero => simp [retry_calls, store_calls]
  | succ k ih =>
    have h : retry_calls handle key (k + 1)
        = [Call.cmap_get_uint8 handle key, Call.sleep 1] ++ retry_calls handle key k := rfl
    rw [h, store_calls_append, ih]
    simp [store_calls]

theorem retry_calls_length (handle : Nat) (key : String) (k : Nat) :
    (retry_calls handle key k).length = 2 * k + 1 := by
  induction k with
  | zero => rfl
  | succ k ih => simp [retry_calls, ih]; omega

theorem retry_calls_count (handle : Nat) (key : String) (k : Nat) :
    (retry_calls handle key k).count (Call.sleep 1) = k ∧
    (retry_calls handle key k).count (Call.cmap_get_uint8 handle key) = k + 1 := by
  induction k with
  | zero => simp [retry_calls]
  | succ k ih => simp [retry_calls, ih.1, ih.2]

/-- The retry loop stops at the first answer that is not `CS_ERR_TRY_AGAIN`, or at the
answer number `left` when all the answers before it are `CS_ERR_TRY_AGAIN`. -/
theorem retry_stops (handle : Nat) (key : String) :
    ∀ (k left : Nat) (w : World), k ≤ left →
      (∀ j, j < k → (w.ans_cmap_get_uint8 j).1 = cs_error_t.CS_ERR_TRY_AGAIN) →
      (k = left ∨ (w.ans_cmap_get_uint8 k).1 ≠ cs_error_t.CS_ERR_TRY_AGAIN) →
      cmap_get_uint8_retry handle key left w
        = (w.ans_cmap_get_uint8 k, after_reads (k + 1) (retry_calls handle key k) w) := by
  intro k
  induction k with
  | zero =>
    intro left w _ _ hstop
    cases left with
    | zero => rfl
    | succ left =>
      have h0 : (w.ans_cmap_get_uint8 0).1 ≠ cs_error_t.CS_ERR_TRY_AGAIN := by
        rcases hstop with h | h
        · omega
        · exact h
      simp only [cmap_get_uint8_retry, cmap_get_uint8, h0, if_false]
      rfl
  | succ k ih =>
    intro left w hle hbefore hstop
    cases left with
    | zero => omega
    | succ left =>
      have h0 : (w.ans_cmap_get_uint8 0).1 = cs_error_t.CS_ERR_TRY_AGAIN :=
        hbefore 0 (by omega)
      have hrec := ih left (sleep 1 (cmap_get_uint8 handle key w).2) (by omega)
        (by
          intro j hj
          simpa [sleep, cmap_get_uint8, later] using hbefore (j + 1) (by omega))
        (by
          rcases hstop with h | h
          · left; omega
          · right; simpa [sleep, cmap_get_uint8, later] using h)
      rw [cmap_get_uint8_retry]
      simp only [cmap_get_uint8, h0, if_true]
      simp only [cmap_get_uint8] at hrec
      rw [hrec]
      simp only [sleep, after_reads, retry_calls, later, List.append_assoc, List.singleton_append,
        Nat.add_assoc, Nat.add_comm 1]
      rfl

/-- The retry loop always returns: for every sequence of answers there is a number
`k ≤ left` of retries after which it stops. -/
theorem retry_total (handle : Nat) (key : String) :
    ∀ (left : Nat) (w : World), ∃ k, k ≤ left ∧
      (∀ j, j < k → (w.ans_cmap_get_uint8 j).1 = cs_error_t.CS_ERR_TRY_AGAIN) ∧
      (k = left ∨ (w.ans_cmap_get_uint8 k).1 ≠ cs_error_t.CS_ERR_TRY_AGAIN) ∧
      cmap_get_uint8_retry handle key left w
        = (w.ans_cmap_get_uint8 k, after_reads (k + 1) (retry_calls handle key k) w) := by
  intro left w
  by_cases hall : ∀ j, j < left → (w.ans_cmap_get_uint8 j).1 = cs_error_t.CS_ERR_TRY_AGAIN
  · exact ⟨left, le_refl _, hall, Or.inl rfl,
      retry_stops handle key left left w (le_refl _) hall (Or.inl rfl)⟩
  · have hex : ∃ j, j < left ∧ (w.ans_cmap_get_uint8 j).1 ≠ cs_error_t.CS_ERR_TRY_AGAIN := by
      by_contra hne
      apply hall
      intro j hj
      by_contra hj2
      exact hne ⟨j, hj, hj2⟩
    classical
    let k := Nat.find hex
    have hk : k < left ∧ (w.ans_cmap_get_uint8 k).1 ≠ cs_error_t.CS_ERR_TRY_AGAIN :=
      Nat.find_spec hex
    have hmin : ∀ j, j < k → (w.ans_cmap_get_uint8 j).1 = cs_error_t.CS_ERR_TRY_AGAIN := by
      intro j hj
      by_contra hj2
      exact Nat.find_min hex hj ⟨by omega, hj2⟩
    exact ⟨k, by omega, hmin, Or.inr hk.2,
      retry_stops handle key k left w (by omega) hmin (Or.inr hk.2)⟩

/-! ## Facts about formatting -/

theorem len_ok_iff (s : String) (size : Nat) (hsize : (size : Int) ≤ INT_MAX) :
    len_ok (snprintf_len s) size = true ↔ s.length < size := by
  unfold len_ok snprintf_len
  unfold INT_MAX at *
  split <;> simp <;> omega

theorem len_ok_false_iff (s : String) (size : Nat) (hsize : (size : Int) ≤ INT_MAX) :
    len_ok (snprintf_len s) size = false ↔ ¬ s.length < size := by
  rw [← len_ok_iff s size hsize]
  cases len_ok (snprintf_len s) size <;> simp

theorem MAX_LENGTH_le : (MAX_LENGTH : Int) ≤ INT_MAX := by decide

theorem fmt_u_length (n : Nat) : (fmt_u n).length ≤ 10 := by
  have h : n % UINT_RANGE < 10 ^ 10 := by
    have := Nat.mod_lt n (show UINT_RANGE > 0 by decide)
    unfold UINT_RANGE at *
    omega
  exact Nat.repr_length (n % UINT_RANGE) 10 (by decide) h

theorem fmt_u_eq (n : Nat) (h : n < UINT_RANGE) : fmt_u n = toString n := by
  unfold fmt_u
  rw [Nat.mod_eq_of_lt h]

theorem ATTR_NAME_FORMAT_length (n : Nat) : (ATTR_NAME_FORMAT n).length < MAX_LENGTH := by
  have h := fmt_u_length n
  have h2 : (ATTR_NAME_FORMAT n).length = 11 + (fmt_u n).length := by
    unfold ATTR_NAME_FORMAT
    rw [String.length_append]
    rfl
  unfold MAX_LENGTH
  omega

theorem FAULTY_KEY_MAKE_FORMAT_length (n : Nat) :
    (FAULTY_KEY_MAKE_FORMAT n).length < MAX_LENGTH := by
  have h := fmt_u_length n
  have h2 : (FAULTY_KEY_MAKE_FORMAT n).length = 25 + (fmt_u n).length + 7 := by
    unfold FAULTY_KEY_MAKE_FORMAT
    rw [String.length_append, String.length_append]
    rfl
  unfold MAX_LENGTH
  omega

theorem snprintf_buf_eq (size : Nat) (s : String) (h : s.length < size) :
    snprintf_buf size s = s := by
  unfold snprintf_buf
  have h2 : s.data.length ≤ size - 1 := by
    have : s.data.length = s.length := rfl
    omega
  rw [List.take_of_length_le h2]

theorem state_of_faulty_length (b : Nat) : (state_of_faulty b).length < MAX_LENGTH := by
  unfold state_of_faulty
  split
  · decide
  · split <;> decide

/-- What `_update_attr_iface` does when the value fits the buffer: one `'U'` request, and
TRUE exactly when the store accepts it. -/
theorem update_attr_iface_fits (iface_no : Nat) (interface_name state : String) (w : World)
    (hfit : (ATTR_VALUE_FORMAT interface_name state).length < MAX_LENGTH) :
    _update_attr_iface iface_no interface_name state MAX_LENGTH w
      = (decide (w.ans_attrd 0 = pcmk_ok),
         (attrd_update_delegate 'U' (ATTR_NAME_FORMAT iface_no)
            (some (ATTR_VALUE_FORMAT interface_name state)) w).2) := by
  have h1 : ¬ len_ok (snprintf_len (ATTR_NAME_FORMAT iface_no)) MAX_LENGTH = false := by
    rw [len_ok_false_iff _ _ MAX_LENGTH_le]
    exact not_not.mpr (ATTR_NAME_FORMAT_length iface_no)
  have h2 : ¬ len_ok (snprintf_len (ATTR_VALUE_FORMAT interface_name state)) MAX_LENGTH
      = false := by
    rw [len_ok_false_iff _ _ MAX_LENGTH_le]
    exact not_not.mpr hfit
  unfold _update_attr_iface
  simp only [h1, h2, if_false]
  by_cases hrc : w.ans_attrd 0 = pcmk_ok
  · simp [attrd_update_delegate, hrc]
  · simp [attrd_update_delegate, hrc]

/-- What `_update_attr_iface` does when the value does not fit the buffer: nothing. -/
theorem update_attr_iface_too_long (iface_no : Nat) (interface_name state : String)
    (w : World) (hlong : ¬ (ATTR_VALUE_FORMAT interface_name state).length < MAX_LENGTH) :
    _update_attr_iface iface_no interface_name state MAX_LENGTH w = (false, w) := by
  have h1 : ¬ len_ok (snprintf_len (ATTR_NAME_FORMAT iface_no)) MAX_LENGTH = false := by
    rw [len_ok_false_iff _ _ MAX_LENGTH_le]
    exact not_not.mpr (ATTR_NAME_FORMAT_length iface_no)
  have h2 : len_ok (snprintf_len (ATTR_VALUE_FORMAT interface_name state)) MAX_LENGTH
      = false := by
    rw [len_ok_false_iff _ _ MAX_LENGTH_le]
    exact hlong
  unfold _update_attr_iface
  simp [h1, h2]

/-! ## Facts about the resync loop -/

/-- One turn of the loop of `_attr_iface_init` for a ring whose read succeeds at once, whose
value fits and whose update is accepted. -/
theorem init_loop_step (handle2 : Nat) (ring : String × String) (rest : List (String × String))
    (i : Nat) (w : World)
    (hread : (w.ans_cmap_get_uint8 0).1 = cs_error_t.CS_OK)
    (hfit : (ATTR_VALUE_FORMAT ring.1 (state_of_faulty (w.ans_cmap_get_uint8 0).2)).length
              < MAX_LENGTH)
    (hstore : w.ans_attrd 0 = pcmk_ok) :
    _attr_iface_init_loop handle2 MAX_LENGTH (ring :: rest) i w
      = _attr_iface_init_loop handle2 MAX_LENGTH rest (i + 1)
          (attrd_update_delegate 'U' (ATTR_NAME_FORMAT i)
            (some (ATTR_VALUE_FORMAT ring.1 (state_of_faulty (w.ans_cmap_get_uint8 0).2)))
            (after_reads 1 (retry_calls handle2 (FAULTY_KEY_MAKE_FORMAT i) 0) w)).2 := by
  have hkey : ¬ len_ok (snprintf_len (FAULTY_KEY_MAKE_FORMAT i)) MAX_LENGTH = false := by
    rw [len_ok_false_iff _ _ MAX_LENGTH_le]
    exact not_not.mpr (FAULTY_KEY_MAKE_FORMAT_length i)
  have hbuf : snprintf_buf CMAP_KEYNAME_MAXLEN (FAULTY_KEY_MAKE_FORMAT i)
      = FAULTY_KEY_MAKE_FORMAT i :=
    snprintf_buf_eq _ _ (FAULTY_KEY_MAKE_FORMAT_length i)
  have hretry := retry_stops handle2 (FAULTY_KEY_MAKE_FORMAT i) 0 CMAP_MAX_RETRIES w
    (Nat.zero_le _) (fun j hj => absurd hj (Nat.not_lt_zero j))
    (Or.inr (by rw [hread]; decide))
  have hstate : ∀ b, ¬ len_ok (snprintf_len (state_of_faulty b)) MAX_LENGTH = false := by
    intro b
    rw [len_ok_false_iff _ _ MAX_LENGTH_le]
    exact not_not.mpr (state_of_faulty_length b)
  have hupd := update_attr_iface_fits i ring.1 (state_of_faulty (w.ans_cmap_get_uint8 0).2)
    (after_reads 1 (retry_calls handle2 (FAULTY_KEY_MAKE_FORMAT i) 0) w) hfit
  rw [_attr_iface_init_loop]
  simp only [hkey, hbuf, hretry, hread, hstate, hupd, if_false, ne_eq, not_true_eq_false]
  have hst : (after_reads 1 (retry_calls handle2 (FAULTY_KEY_MAKE_FORMAT i) 0) w).ans_attrd 0
      = pcmk_ok := hstore
  simp [hst]

/-- The first `k` rings of the loop of `_attr_iface_init`, when their reads succeed at once,
their values fit and their updates are accepted: the loop goes on with the rings that are
left, having sent exactly the `k` updates. -/
theorem init_loop_prefix (handle2 : Nat) :
    ∀ (k : Nat) (rings : List (String × String)) (i : Nat) (w : World),
      k ≤ rings.length →
      (∀ j, j < k → (w.ans_cmap_get_uint8 j).1 = cs_error_t.CS_OK) →
      (∀ j, j < k → w.ans_attrd j = pcmk_ok) →
      (∀ j, j < k → (ATTR_VALUE_FORMAT (ring_name rings j)
          (state_of_faulty (w.ans_cmap_get_uint8 j).2)).length < MAX_LENGTH) →
      ∃ wk : World,
        _attr_iface_init_loop handle2 MAX_LENGTH rings i w
          = _attr_iface_init_loop handle2 MAX_LENGTH (rings.drop k) (i + k) wk ∧
        store_calls wk.trace = store_calls w.trace ++
          (List.range k).map
            (fun j => update_call (i + j) (ring_name rings j) (w.ans_cmap_get_uint8 j).2) ∧
        (∀ j, wk.ans_cmap_get_uint8 j = w.ans_cmap_get_uint8 (j + k)) ∧
        (∀ j, wk.ans_attrd j = w.ans_attrd (j + k)) ∧
        wk.cmap_handle = w.cmap_handle ∧ wk.cmap_source = w.cmap_source ∧
        wk.w_timer = w.w_timer := by
  intro k
  induction k with
  | zero =>
    intro rings i w _ _ _ _
    exact ⟨w, by simp, by simp, by simp, by simp, rfl, rfl, rfl⟩
  | succ k ih =>
    intro rings i w hk hread hstore hfit
    cases rings with
    | nil => simp at hk
    | cons ring rest =>
      have hstep := init_loop_step handle2 ring rest i w (hread 0 (by omega))
        (by simpa [ring_name] using hfit 0 (by omega)) (hstore 0 (by omega))
      obtain ⟨wk, h1, h2, h3, h4, h5, h6, h7⟩ := ih rest (i + 1)
        (attrd_update_delegate 'U' (ATTR_NAME_FORMAT i)
            (some (ATTR_VALUE_FORMAT ring.1 (state_of_faulty (w.ans_cmap_get_uint8 0).2)))
            (after_reads 1 (retry_calls handle2 (FAULTY_KEY_MAKE_FORMAT i) 0) w)).2
        (by simpa using hk)
        (by
          intro j hj
          simpa [attrd_update_delegate, after_reads] using hread (j + 1) (by omega))
        (by
          intro j hj
          simpa [attrd_update_delegate, after_reads, later] using hstore (j + 1) (by omega))
        (by
          intro j hj
          simpa [attrd_update_delegate, after_reads, ring_name] using hfit (j + 1) (by omega))
      refine ⟨wk, ?_, ?_, ?_, ?_, ?_, ?_, ?_⟩
      · rw [hstep, h1]
        simp [Nat.add_assoc, Nat.add_comm 1]
      · rw [h2]
        simp only [attrd_update_delegate, after_reads, store_calls_append,
          store_calls_retry_calls, List.append_nil, List.append_assoc]
        rw [List.range_succ_eq_map]
        simp [store_calls, update_call, ring_name, Nat.add_assoc, Nat.add_comm 1,
          Function.comp_def]
      · intro j
        rw [h3]
        simp [attrd_update_delegate, after_reads, Nat.add_assoc, Nat.add_comm 1]
      · intro j
        rw [h4]
        simp [attrd_update_delegate, after_reads, later, Nat.add_assoc, Nat.add_comm 1]
      · rw [h5]; rfl
      · rw [h6]; rfl
      · rw [h7]; rfl

/-- The world in which the loop of `_attr_iface_init` starts: the three opening calls have
been made. -/
theorem init_opening (w : World) :
    (corosync_cfg_ring_status_get ( cmap_initialize ( corosync_cfg_initialize w).2).2).2
      = { w with
            ans_cfg_init := later w.ans_cfg_init,
            ans_cmap_init := later w.ans_cmap_init,
            ans_ring_status_get := later w.ans_ring_status_get,
            trace := w.trace ++ [Call.cfg_init, Call.cmap_init, Call.ring_status_get] } := by
  simp [corosync_cfg_ring_status_get, cmap_initialize, corosync_cfg_initialize]

/-- Unfolding of `_attr_iface_init` when the three opening calls succeed. -/
theorem attr_iface_init_opened (w : World) (rings : List (String × String))
    (hcfg : w.ans_cfg_init 0 = cs_error_t.CS_OK)
    (hcmap : (w.ans_cmap_init 0).1 = cs_error_t.CS_OK)
    (hsnap : w.ans_ring_status_get 0 = (cs_error_t.CS_OK, rings)) :
    _attr_iface_init w
      = ((_attr_iface_init_loop ((w.ans_cmap_init 0).2 + 1) MAX_LENGTH rings 0
            (corosync_cfg_ring_status_get
              ( cmap_initialize ( corosync_cfg_initialize w).2).2).2).1,
         cmap_finalize ((w.ans_cmap_init 0).2 + 1) (corosync_cfg_finalize
           (_attr_iface_init_loop ((w.ans_cmap_init 0).2 + 1) MAX_LENGTH rings 0
            (corosync_cfg_ring_status_get
              ( cmap_initialize ( corosync_cfg_initialize w).2).2).2).2)) := by
  unfold _attr_iface_init
  simp [corosync_cfg_ring_status_get, cmap_initialize, corosync_cfg_initialize, hcfg, hcmap,
    hsnap, _corosync_cfg_ring_status_free]

/-- Claim C1.  Resync completeness: when the snapshot read, every fault-byte read and every
store update succeed and every formatted value is shorter than 255 characters, one run of
`_attr_iface_init` over a snapshot of `n` rings returns TRUE and sends exactly `n` requests to
the store, one update per ring id `i` in increasing order, named `ringnumber_<i>` with value
`<name_i> is UP` for byte 0, `<name_i> is FAULTY` for byte 1 and `<name_i> is UNKOWN` for
every other byte. -/
theorem C1_resync_completeness (w : World) (rings : List (String × String)) (b : Nat → Nat)
    (hcfg : w.ans_cfg_init 0 = cs_error_t.CS_OK)
    (hcmap : (w.ans_cmap_init 0).1 = cs_error_t.CS_OK)
    (hsnap : w.ans_ring_status_get 0 = (cs_error_t.CS_OK, rings))
    (hcount : rings.length ≤ UINT_RANGE)
    (hread : ∀ i, i < rings.length → w.ans_cmap_get_uint8 i = (cs_error_t.CS_OK, b i))
    (hstore : ∀ i, i < rings.length → w.ans_attrd i = pcmk_ok)
    (hfit : ∀ i, i < rings.length →
      (ring_name rings i ++ " is " ++
        (if b i = 0 then "UP" else if b i = 1 then "FAULTY" else "UNKOWN")).length < 255) :
    (_attr_iface_init w).1 = true ∧
    store_calls (_attr_iface_init w).2.trace = store_calls w.trace ++
      (List.range rings.length).map (fun i =>
        Call.attrd_update_delegate 'U' ("ringnumber_" ++ toString i)
          (some (ring_name rings i ++ " is " ++
            (if b i = 0 then "UP" else if b i = 1 then "FAULTY" else "UNKOWN")))) := by
  rw [attr_iface_init_opened w rings hcfg hcmap hsnap, init_opening]
  obtain ⟨wk, h1, h2, -⟩ := init_loop_prefix ((w.ans_cmap_init 0).2 + 1) rings.length rings 0
    { w with
        ans_cfg_init := later w.ans_cfg_init,
        ans_cmap_init := later w.ans_cmap_init,
        ans_ring_status_get := later w.ans_ring_status_get,
        trace := w.trace ++ [Call.cfg_init, Call.cmap_init, Call.ring_status_get] }
    (le_refl _)
    (fun j hj => by simp [hread j hj])
    (fun j hj => hstore j hj)
    (fun j hj => by
      have := hfit j hj
      simpa [hread j hj, ATTR_VALUE_FORMAT, state_of_faulty, STATE_UP, STATE_FAULTY,
        STATE_UNKOWN, MAX_LENGTH] using this)
  rw [h1]
  simp only [List.drop_length, _attr_iface_init_loop, cmap_finalize, corosync_cfg_finalize,
    store_calls_append, h2, true_and]
  have hnone : store_calls [Call.cfg_init, Call.cmap_init, Call.ring_status_get] = [] := rfl
  have hnone2 : store_calls [Call.cfg_finalize] = [] := rfl
  have hnone3 : store_calls [Call.cmap_finalize ((w.ans_cmap_init 0).2 + 1)] = [] := rfl
  rw [hnone, hnone2, hnone3]
  simp only [List.append_nil, List.append_cancel_left_eq]
  apply List.map_congr_left
  intro i hi
  have hi2 : i < rings.length := List.mem_range.mp hi
  have hi3 : i < UINT_RANGE := by omega
  simp [update_call, hread i hi2, ATTR_NAME_FORMAT, ATTR_VALUE_FORMAT, state_of_faulty,
    STATE_UP, STATE_FAULTY, STATE_UNKOWN, fmt_u_eq i hi3]

/-- Claim C1 on the snapshot of the spec: `0:(eth0, Up), 1:(eth1, Faulty), 2:(eth2, Unknown)`
yields exactly `ringnumber_0 = "eth0 is UP"`, `ringnumber_1 = "eth1 is FAULTY"`,
`ringnumber_2 = "eth2 is UNKOWN"`. -/
theorem C1_resync_completeness_witness :
    (_attr_iface_init w_three_rings).1 = true ∧
    store_calls (_attr_iface_init w_three_rings).2.trace =
      [Call.attrd_update_delegate 'U' "ringnumber_0" (some "eth0 is UP"),
       Call.attrd_update_delegate 'U' "ringnumber_1" (some "eth1 is FAULTY"),
       Call.attrd_update_delegate 'U' "ringnumber_2" (some "eth2 is UNKOWN")] := by
  have h := C1_resync_completeness w_three_rings three_rings three_bytes rfl rfl rfl
    (by decide) (fun _ _ => rfl) (fun _ _ => rfl) (by decide)
  refine ⟨h.1, ?_⟩
  rw [h.2]
  decide

/-! ## The bounded-retry read at its two call sites -/

theorem after_reads_trace (n : Nat) (calls : List Call) (w : World) :
    (after_reads n calls w).trace = w.trace ++ calls := rfl

theorem after_reads_attrs (n : Nat) (calls : List Call) (w : World) :
    (after_reads n calls w).attrs = w.attrs := rfl

/-- When the bounded-retry read of a ring does not end in `CS_OK`, the loop of
`_attr_iface_init` stops at that ring without any request to the store. -/
theorem init_loop_read_fails (handle2 : Nat) (ring : String × String)
    (rest : List (String × String)) (i k : Nat) (w : World) (hk : k ≤ CMAP_MAX_RETRIES)
    (hbefore : ∀ j, j < k → (w.ans_cmap_get_uint8 j).1 = cs_error_t.CS_ERR_TRY_AGAIN)
    (hstop : k = CMAP_MAX_RETRIES ∨ (w.ans_cmap_get_uint8 k).1 ≠ cs_error_t.CS_ERR_TRY_AGAIN)
    (hbad : (w.ans_cmap_get_uint8 k).1 ≠ cs_error_t.CS_OK) :
    _attr_iface_init_loop handle2 MAX_LENGTH (ring :: rest) i w
      = (false, after_reads (k + 1) (retry_calls handle2 (FAULTY_KEY_MAKE_FORMAT i) k) w) := by
  have hkey : ¬ len_ok (snprintf_len (FAULTY_KEY_MAKE_FORMAT i)) MAX_LENGTH = false := by
    rw [len_ok_false_iff _ _ MAX_LENGTH_le]
    exact not_not.mpr (FAULTY_KEY_MAKE_FORMAT_length i)
  have hbuf : snprintf_buf CMAP_KEYNAME_MAXLEN (FAULTY_KEY_MAKE_FORMAT i)
      = FAULTY_KEY_MAKE_FORMAT i :=
    snprintf_buf_eq _ _ (FAULTY_KEY_MAKE_FORMAT_length i)
  have hretry := retry_stops handle2 (FAULTY_KEY_MAKE_FORMAT i) k CMAP_MAX_RETRIES w hk
    hbefore hstop
  rw [_attr_iface_init_loop]
  simp only [hkey, hbuf, hretry, if_false]
  simp [hbad]

/-- When the bounded-retry read does not end in `CS_OK`, the ring-fault handler returns
without any request to the store. -/
theorem faulty_handler_read_fails (c t : Nat) (event : cmap_track_event) (key_name : String)
    (nv ov : cmap_notify_value) (k : Nat) (w : World) (hk : k ≤ CMAP_MAX_RETRIES)
    (hbefore : ∀ j, j < k → (w.ans_cmap_get_uint8 j).1 = cs_error_t.CS_ERR_TRY_AGAIN)
    (hstop : k = CMAP_MAX_RETRIES ∨ (w.ans_cmap_get_uint8 k).1 ≠ cs_error_t.CS_ERR_TRY_AGAIN)
    (hbad : (w.ans_cmap_get_uint8 k).1 ≠ cs_error_t.CS_OK) :
    _cs_cmap_rrp_faulty_key_changed c t event key_name nv ov w = w ∨
    _cs_cmap_rrp_faulty_key_changed c t event key_name nv ov w
      = after_reads (k + 1) (retry_calls w.cmap_handle key_name k) w := by
  have hretry := retry_stops w.cmap_handle key_name k CMAP_MAX_RETRIES w hk hbefore hstop
  unfold _cs_cmap_rrp_faulty_key_changed
  simp only [hretry]
  by_cases h1 : (sscanf_FAULTY_KEY key_name).result ≠ 2
  · left; simp [h1]
  · by_cases h2 : (sscanf_FAULTY_KEY key_name).tmp_key ≠ "faulty"
    · left; simp [h1, h2]
    · right; simp [h1, h2, hbad]

/-- Claim C3.  The bounded-retry byte read (`CMAP_MAX_RETRIES` = 10) always returns, after at
most 10 retries, each retry coming after one `sleep(1)`: its calls are a first
`cmap_get_uint8` followed by `k ≤ 10` pairs `sleep(1)`, `cmap_get_uint8` (`k` sleeps and
`k + 1` reads in all).  If every attempt
answers `CS_ERR_TRY_AGAIN` the read ends in that error after exactly 10 retries and neither
the resync loop nor the ring-fault handler sends anything to the store (nor changes it); if
the first attempt answers another error, that error is returned after this one attempt with
no sleep; if an attempt within the bound answers `CS_OK`, its byte is the one returned. -/
theorem C3_bounded_retry (handle : Nat) (key : String) (w : World) :
    (∃ k, k ≤ CMAP_MAX_RETRIES ∧
      (cmap_get_uint8_retry handle key CMAP_MAX_RETRIES w).2.trace
        = w.trace ++ retry_calls handle key k ∧
      (retry_calls handle key k).count (Call.sleep 1) = k ∧
      (retry_calls handle key k).count (Call.cmap_get_uint8 handle key) = k + 1) ∧
    ((∀ j, j ≤ CMAP_MAX_RETRIES →
        (w.ans_cmap_get_uint8 j).1 = cs_error_t.CS_ERR_TRY_AGAIN) →
      (cmap_get_uint8_retry handle key CMAP_MAX_RETRIES w).1.1 = cs_error_t.CS_ERR_TRY_AGAIN ∧
      (cmap_get_uint8_retry handle key CMAP_MAX_RETRIES w).2.trace
        = w.trace ++ retry_calls handle key CMAP_MAX_RETRIES ∧
      (∀ ring rest i,
        (_attr_iface_init_loop handle MAX_LENGTH (ring :: rest) i w).1 = false ∧
        store_calls (_attr_iface_init_loop handle MAX_LENGTH (ring :: rest) i w).2.trace
          = store_calls w.trace ∧
        (_attr_iface_init_loop handle MAX_LENGTH (ring :: rest) i w).2.attrs = w.attrs) ∧
      (∀ c t event key_name nv ov,
        store_calls (_cs_cmap_rrp_faulty_key_changed c t event key_name nv ov w).trace
          = store_calls w.trace ∧
        (_cs_cmap_rrp_faulty_key_changed c t event key_name nv ov w).attrs = w.attrs)) ∧
    (∀ code, (w.ans_cmap_get_uint8 0).1 = cs_error_t.CS_ERR code →
      (cmap_get_uint8_retry handle key CMAP_MAX_RETRIES w).1.1 = cs_error_t.CS_ERR code ∧
      (cmap_get_uint8_retry handle key CMAP_MAX_RETRIES w).2.trace
        = w.trace ++ [Call.cmap_get_uint8 handle key]) ∧
    (∀ k b, k ≤ CMAP_MAX_RETRIES →
      (∀ j, j < k → (w.ans_cmap_get_uint8 j).1 = cs_error_t.CS_ERR_TRY_AGAIN) →
      w.ans_cmap_get_uint8 k = (cs_error_t.CS_OK, b) →
      (cmap_get_uint8_retry handle key CMAP_MAX_RETRIES w).1 = (cs_error_t.CS_OK, b) ∧
      (cmap_get_uint8_retry handle key CMAP_MAX_RETRIES w).2.trace
        = w.trace ++ retry_calls handle key k) := by
  refine ⟨?_, ?_, ?_, ?_⟩
  · obtain ⟨k, hk, -, -, heq⟩ := retry_total handle key CMAP_MAX_RETRIES w
    exact ⟨k, hk, by rw [heq]; rfl, retry_calls_count handle key k⟩
  · intro hall
    have hbefore : ∀ j, j < CMAP_MAX_RETRIES →
        (w.ans_cmap_get_uint8 j).1 = cs_error_t.CS_ERR_TRY_AGAIN :=
      fun j hj => hall j (Nat.le_of_lt hj)
    have hlast := hall CMAP_MAX_RETRIES (le_refl _)
    have hbad : (w.ans_cmap_get_uint8 CMAP_MAX_RETRIES).1 ≠ cs_error_t.CS_OK := by
      rw [hlast]; decide
    have heq := retry_stops handle key CMAP_MAX_RETRIES CMAP_MAX_RETRIES w (le_refl _)
      hbefore (Or.inl rfl)
    refine ⟨by rw [heq]; exact hlast, by rw [heq]; rfl, ?_, ?_⟩
    · intro ring rest i
      rw [init_loop_read_fails handle ring rest i CMAP_MAX_RETRIES w (le_refl _) hbefore
        (Or.inl rfl) hbad]
      refine ⟨rfl, ?_, rfl⟩
      rw [after_reads_trace, store_calls_append, store_calls_retry_calls, List.append_nil]
    · intro c t event key_name nv ov
      rcases faulty_handler_read_fails c t event key_name nv ov CMAP_MAX_RETRIES w (le_refl _)
        hbefore (Or.inl rfl) hbad with h | h
      · rw [h]; exact ⟨rfl, rfl⟩
      · rw [h]
        refine ⟨?_, rfl⟩
        rw [after_reads_trace, store_calls_append, store_calls_retry_calls, List.append_nil]
  · intro code hcode
    have heq := retry_stops handle key 0 CMAP_MAX_RETRIES w (Nat.zero_le _)
      (fun j hj => absurd hj (Nat.not_lt_zero j)) (Or.inr (by rw [hcode]; exact fun h => by cases h))
    exact ⟨by rw [heq]; exact hcode, by rw [heq]; rfl⟩
  · intro k b hk hbefore hok
    have heq := retry_stops handle key k CMAP_MAX_RETRIES w hk hbefore
      (Or.inr (by rw [hok]; exact fun h => by cases h))
    exact ⟨by rw [heq]; exact hok, by rw [heq]; rfl⟩

/-- Claim C3 at concrete answers: ten `CS_ERR_TRY_AGAIN` in a row and then `CS_OK` with byte 1
give byte 1 after ten sleeps; eleven `CS_ERR_TRY_AGAIN` surface the error and leave the store
untouched; a first answer `CS_ERR 2` is returned at once. -/
theorem C3_bounded_retry_witness :
    (cmap_get_uint8_retry 1 "k" CMAP_MAX_RETRIES
        (fresh three_rings (fun i => if i < 10 then (cs_error_t.CS_ERR_TRY_AGAIN, 0)
                                     else (cs_error_t.CS_OK, 1)) (fun _ => pcmk_ok))).1
      = (cs_error_t.CS_OK, 1) ∧
    (cmap_get_uint8_retry 1 "k" CMAP_MAX_RETRIES
        (fresh three_rings (fun _ => (cs_error_t.CS_ERR_TRY_AGAIN, 0)) (fun _ => pcmk_ok))).1.1
      = cs_error_t.CS_ERR_TRY_AGAIN ∧
    (cmap_get_uint8_retry 1 "k" CMAP_MAX_RETRIES
        (fresh three_rings (fun _ => (cs_error_t.CS_ERR 2, 0)) (fun _ => pcmk_ok))).2.trace
      = [Call.cmap_get_uint8 1 "k"] :=
  ⟨((C3_bounded_retry 1 "k" (fresh three_rings
        (fun i => if i < 10 then (cs_error_t.CS_ERR_TRY_AGAIN, 0) else (cs_error_t.CS_OK, 1))
        (fun _ => pcmk_ok))).2.2.2 10 1 (by decide) (by decide) (by decide)).1,
   ((C3_bounded_retry 1 "k" (fresh three_rings (fun _ => (cs_error_t.CS_ERR_TRY_AGAIN, 0))
        (fun _ => pcmk_ok))).2.1 (fun _ _ => rfl)).1,
   ((C3_bounded_retry 1 "k" (fresh three_rings (fun _ => (cs_error_t.CS_ERR 2, 0))
        (fun _ => pcmk_ok))).2.2.1 2 rfl).2⟩

/-! ## Facts about scanning a formatted key -/

theorem digitChar_spec (d : Nat) (h : d < 10) :
    isdigit (Nat.digitChar d) = true ∧ (Nat.digitChar d).toNat - 48 = d := by
  interval_cases d <;> exact ⟨by decide, by decide⟩

theorem digits_value_snoc (ds : List Char) (c : Char) :
    digits_value (ds ++ [c]) = 10 * digits_value ds + (c.toNat - 48) := by
  simp [digits_value, List.foldl_append]

theorem toDigitsCore_acc (fuel : Nat) :
    ∀ (n : Nat) (ds : List Char),
      Nat.toDigitsCore 10 fuel n ds = Nat.toDigitsCore 10 fuel n [] ++ ds := by
  induction fuel with
  | zero => intro n ds; simp [Nat.toDigitsCore]
  | succ fuel ih =>
    intro n ds
    simp only [Nat.toDigitsCore]
    split
    · simp
    · rw [ih (n / 10) (Nat.digitChar (n % 10) :: ds), ih (n / 10) [Nat.digitChar (n % 10)]]
      simp

/-- The decimal digits printed for `n` are digits, there is at least one, and they read
back as `n`. -/
theorem toDigitsCore_spec (fuel : Nat) :
    ∀ (n : Nat), n < fuel →
      (∀ c, c ∈ Nat.toDigitsCore 10 fuel n [] → isdigit c = true) ∧
      Nat.toDigitsCore 10 fuel n [] ≠ [] ∧
      digits_value (Nat.toDigitsCore 10 fuel n []) = n := by
  induction fuel with
  | zero => intro n hn; omega
  | succ fuel ih =>
    intro n hn
    have hd := digitChar_spec (n % 10) (Nat.mod_lt n (by decide))
    simp only [Nat.toDigitsCore]
    split
    · rename_i hq
      refine ⟨?_, by simp, ?_⟩
      · intro c hc
        simp only [List.mem_singleton] at hc
        rw [hc]; exact hd.1
      · have : digits_value [Nat.digitChar (n % 10)] = (Nat.digitChar (n % 10)).toNat - 48 := by
          simp [digits_value]
        rw [this, hd.2]
        omega
    · rename_i hq
      have hlt : n / 10 < fuel := by omega
      obtain ⟨h1, h2, h3⟩ := ih (n / 10) hlt
      rw [toDigitsCore_acc fuel (n / 10) [Nat.digitChar (n % 10)]]
      refine ⟨?_, by simp, ?_⟩
      · intro c hc
        rcases List.mem_append.mp hc with h | h
        · exact h1 c h
        · simp only [List.mem_singleton] at h
          rw [h]; exact hd.1
      · rw [digits_value_snoc, h3, hd.2]
        omega

theorem toDigits_spec (n : Nat) :
    (∀ c, c ∈ Nat.toDigits 10 n → isdigit c = true) ∧
    Nat.toDigits 10 n ≠ [] ∧ digits_value (Nat.toDigits 10 n) = n :=
  toDigitsCore_spec (n + 1) n (Nat.lt_succ_self n)

theorem takeWhile_run (p : Char → Bool) (x : Char) (rest : List Char) (hx : p x = false) :
    ∀ (l : List Char), (∀ c, c ∈ l → p c = true) →
      (l ++ x :: rest).takeWhile p = l ∧ (l ++ x :: rest).dropWhile p = x :: rest := by
  intro l
  induction l with
  | nil => intro _; simp [List.takeWhile, List.dropWhile, hx]
  | cons c l ih =>
    intro h
    have hc : p c = true := h c (List.mem_cons_self c l)
    have := ih (fun d hd => h d (List.mem_cons_of_mem c hd))
    simp [List.takeWhile, List.dropWhile, hc, this.1, this.2]

theorem match_literal_self (lit rest : List Char) :
    match_literal lit (lit ++ rest) = LitMatch.ok rest := by
  induction lit with
  | nil => rfl
  | cons c lit ih => simp [match_literal, ih]

theorem isdigit_not_space (c : Char) (h : isdigit c = true) : isspace c = false := by
  unfold isdigit at h
  unfold isspace
  simp only [Bool.and_eq_true, decide_eq_true_eq] at h
  simp only [Bool.or_eq_false_iff, beq_eq_false_iff_ne, Bool.and_eq_false_iff,
    decide_eq_false_iff_not]
  omega

theorem isdigit_not_sign (c : Char) (h : isdigit c = true) : c ≠ '-' ∧ c ≠ '+' := by
  constructor
  · intro hc; rw [hc] at h; exact absurd h (by decide)
  · intro hc; rw [hc] at h; exact absurd h (by decide)

/-- Scanning `%u` on the digits printed for `n`, followed by a dot, reads `n` back and
stops at the dot. -/
theorem scan_u_printed (n : Nat) (hn : n < UINT_RANGE) (rest : List Char) :
    (Nat.toDigits 10 n ++ '.' :: rest).dropWhile isspace = Nat.toDigits 10 n ++ '.' :: rest ∧
    scan_u (Nat.toDigits 10 n ++ '.' :: rest) = some (n, '.' :: rest) := by
  obtain ⟨hdig, hne, hval⟩ := toDigits_spec n
  obtain ⟨c, l, hl⟩ := List.exists_cons_of_ne_nil hne
  have hc : isdigit c = true := hdig c (by rw [hl]; exact List.mem_cons_self c l)
  have hrun := takeWhile_run isdigit '.' rest (by decide) (Nat.toDigits 10 n) hdig
  constructor
  · rw [hl]
    simp [List.dropWhile, isdigit_not_space c hc]
  · have hsign := isdigit_not_sign c hc
    have hhead : (Nat.toDigits 10 n ++ '.' :: rest).head? = some c := by rw [hl]; rfl
    unfold scan_u
    have h1 : ((some c == some '-') = false) := by simp [hsign.1]
    have h2 : ((some c == some '+') = false) := by simp [hsign.2]
    simp only [hhead, h1, h2, Bool.or_self, Bool.false_eq_true, if_false, hrun.1, hrun.2, hne,
      hval]
    have hlt : ¬ ULONG_RANGE ≤ n := by unfold ULONG_RANGE; unfold UINT_RANGE at hn; omega
    simp [hlt, Nat.mod_eq_of_lt hn]

theorem FAULTY_KEY_MAKE_FORMAT_data (r : Nat) :
    (FAULTY_KEY_MAKE_FORMAT r).data
      = FAULTY_TRACE_KEY.data ++ (Nat.toDigits 10 (r % UINT_RANGE) ++ '.' :: "faulty".data) := by
  simp [FAULTY_KEY_MAKE_FORMAT, fmt_u, String.data_append, toString, Nat.repr, List.asString]

/-- The key made for ring `r` by `FAULTY_KEY_MAKE_FORMAT` is read by
`FAULTY_KEY_SCAN_FORMAT` as two fields, the ring id and the text `faulty`. -/
theorem sscanf_FAULTY_KEY_made (r : Nat) :
    (sscanf_FAULTY_KEY (FAULTY_KEY_MAKE_FORMAT r)).result = 2 ∧
    (sscanf_FAULTY_KEY (FAULTY_KEY_MAKE_FORMAT r)).field1 = r % UINT_RANGE ∧
    (sscanf_FAULTY_KEY (FAULTY_KEY_MAKE_FORMAT r)).tmp_key = "faulty" := by
  have hn : r % UINT_RANGE < UINT_RANGE := Nat.mod_lt r (by decide)
  obtain ⟨hskip, hscan⟩ := scan_u_printed (r % UINT_RANGE) hn "faulty".data
  have hne : Nat.toDigits 10 (r % UINT_RANGE) ++ '.' :: "faulty".data ≠ [] := by
    intro h
    have := congrArg List.length h
    simp at this
  have hs : scan_s "faulty".data = some "faulty" := by decide
  unfold sscanf_FAULTY_KEY
  rw [FAULTY_KEY_MAKE_FORMAT_data, match_literal_self]
  simp only [hskip, hne, if_false, hscan, hs, ne_eq, not_true_eq_false, and_self]

/-! ## Facts about the ring-fault handler -/

theorem state_of_faulty_eq (b : Nat) : state_of_faulty b = state_text b := rfl

/-- Function `_get_interface_name` on a ring of the snapshot whose name fits the buffer. -/
theorem get_interface_name_found (r : Nat) (w : World) (rings : List (String × String))
    (hcfg : w.ans_cfg_init 0 = cs_error_t.CS_OK)
    (hsnap : w.ans_ring_status_get 0 = (cs_error_t.CS_OK, rings))
    (hr : r < rings.length) (hfit : (ring_name rings r).length < MAX_LENGTH) :
    _get_interface_name r MAX_LENGTH w = ((true, ring_name rings r), after_name_lookup w) := by
  have hlen : len_ok (snprintf_len (ring_name rings r)) MAX_LENGTH = true :=
    (len_ok_iff _ _ MAX_LENGTH_le).mpr hfit
  unfold _get_interface_name
  simp only [ corosync_cfg_initialize, hcfg, corosync_cfg_ring_status_get, hsnap, ne_eq,
    not_true_eq_false, if_false, hr, if_true]
  unfold ring_name at hlen
  simp only [hlen, if_true]
  simp [after_name_lookup, corosync_cfg_finalize, ring_name, _corosync_cfg_ring_status_free]

/-- Function `_get_interface_name` on a ring of the snapshot whose name does not fit. -/
theorem get_interface_name_too_long (r : Nat) (w : World) (rings : List (String × String))
    (hcfg : w.ans_cfg_init 0 = cs_error_t.CS_OK)
    (hsnap : w.ans_ring_status_get 0 = (cs_error_t.CS_OK, rings))
    (hr : r < rings.length) (hlong : ¬ (ring_name rings r).length < MAX_LENGTH) :
    (_get_interface_name r MAX_LENGTH w).1.1 = false ∧
    (_get_interface_name r MAX_LENGTH w).2 = after_name_lookup w := by
  have hlen : len_ok (snprintf_len (ring_name rings r)) MAX_LENGTH = false :=
    (len_ok_false_iff _ _ MAX_LENGTH_le).mpr hlong
  unfold _get_interface_name
  simp only [ corosync_cfg_initialize, hcfg, corosync_cfg_ring_status_get, hsnap, ne_eq,
    not_true_eq_false, if_false, hr, if_true]
  unfold ring_name at hlen
  simp only [hlen]
  simp [after_name_lookup, corosync_cfg_finalize, _corosync_cfg_ring_status_free]

theorem value_fit_name_fit (name state : String)
    (h : (ATTR_VALUE_FORMAT name state).length < MAX_LENGTH) : name.length < MAX_LENGTH := by
  unfold ATTR_VALUE_FORMAT at h
  rw [String.length_append, String.length_append] at h
  omega

/-- The three branches of the ring-fault handler are one call with the text chosen by the
byte. -/
theorem faulty_handler_unfold (c t : Nat) (event : cmap_track_event) (key_name : String)
    (nv ov : cmap_notify_value) (w : World)
    (h1 : (sscanf_FAULTY_KEY key_name).result = 2)
    (h2 : (sscanf_FAULTY_KEY key_name).tmp_key = "faulty")
    (hok : (cmap_get_uint8_retry w.cmap_handle key_name CMAP_MAX_RETRIES w).1.1
      = cs_error_t.CS_OK) :
    _cs_cmap_rrp_faulty_key_changed c t event key_name nv ov w
      = (_send_attr_iface (sscanf_FAULTY_KEY key_name).field1
          (state_of_faulty (cmap_get_uint8_retry w.cmap_handle key_name CMAP_MAX_RETRIES w).1.2)
          MAX_LENGTH (cmap_get_uint8_retry w.cmap_handle key_name CMAP_MAX_RETRIES w).2).2 := by
  unfold _cs_cmap_rrp_faulty_key_changed
  simp only [h1, h2, hok, ne_eq, not_true_eq_false, if_false, _cs_rrp_faulty_event,
    state_of_faulty]
  split
  · rfl
  · split <;> rfl

/-- The ring-fault handler on the key of a ring `r` of the snapshot, when the re-read
succeeds with byte `b` after `k ≤ 10` retries and the value fits the buffer: the world after
the event is the world after the read and the name lookup, with one update sent. -/
theorem faulty_handler_publishes (c t : Nat) (event : cmap_track_event)
    (nv ov : cmap_notify_value) (w : World) (rings : List (String × String)) (r k b : Nat)
    (hcfg : w.ans_cfg_init 0 = cs_error_t.CS_OK)
    (hsnap : w.ans_ring_status_get 0 = (cs_error_t.CS_OK, rings))
    (hr : r < rings.length) (hcount : rings.length ≤ UINT_RANGE)
    (hk : k ≤ CMAP_MAX_RETRIES)
    (hbefore : ∀ j, j < k → (w.ans_cmap_get_uint8 j).1 = cs_error_t.CS_ERR_TRY_AGAIN)
    (hread : w.ans_cmap_get_uint8 k = (cs_error_t.CS_OK, b))
    (hfit : (ATTR_VALUE_FORMAT (ring_name rings r) (state_of_faulty b)).length < MAX_LENGTH) :
    _cs_cmap_rrp_faulty_key_changed c t event (FAULTY_KEY_MAKE_FORMAT r) nv ov w
      = (attrd_update_delegate 'U' (ATTR_NAME_FORMAT r)
          (some (ATTR_VALUE_FORMAT (ring_name rings r) (state_of_faulty b)))
          (after_name_lookup
            (after_reads (k + 1) (retry_calls w.cmap_handle (FAULTY_KEY_MAKE_FORMAT r) k) w))).2 := by
  obtain ⟨p1, p2, p3⟩ := sscanf_FAULTY_KEY_made r
  have hr2 : r % UINT_RANGE = r := Nat.mod_eq_of_lt (by omega)
  have hretry := retry_stops w.cmap_handle (FAULTY_KEY_MAKE_FORMAT r) k CMAP_MAX_RETRIES w hk
    hbefore (Or.inr (by rw [hread]; exact fun h => by cases h))
  rw [faulty_handler_unfold c t event _ nv ov w p1 p3 (by rw [hretry, hread])]
  rw [hretry, hread, p2, hr2]
  unfold _send_attr_iface
  dsimp only
  rw [get_interface_name_found r
    (after_reads (k + 1) (retry_calls w.cmap_handle (FAULTY_KEY_MAKE_FORMAT r) k) w) rings
    hcfg hsnap hr (value_fit_name_fit _ _ hfit)]
  simp only [Bool.true_eq_false, if_false]
  rw [update_attr_iface_fits r _ _ _ hfit]
  split <;> rfl

set_option maxRecDepth 100000 in
/-- Claim C2 as stated fails: ring 0 is in the snapshot, the re-read succeeds with byte 0 and
the store accepts every request, yet the handler sends no update, because the value
`<name> is UP` of the 249-character interface name does not fit the 255-byte buffer. -/
theorem C2_counterexample :
    w_long_name.cmap_handle ≠ 0 ∧ w_long_name.w_timer.timer_id = 0 ∧
    w_long_name.ans_cfg_init 0 = cs_error_t.CS_OK ∧
    (w_long_name.ans_ring_status_get 0).1 = cs_error_t.CS_OK ∧
    0 < (w_long_name.ans_ring_status_get 0).2.length ∧
    w_long_name.ans_cmap_get_uint8 0 = (cs_error_t.CS_OK, 0) ∧
    w_long_name.ans_attrd 0 = pcmk_ok ∧
    store_calls (_cs_cmap_rrp_faulty_key_changed 1 1 cmap_track_event.CMAP_TRACK_MODIFY
      "runtime.totem.pg.mrp.rrp.0.faulty" byte_value byte_value w_long_name).trace = [] := by
  refine ⟨by decide, rfl, rfl, rfl, by decide, rfl, rfl, ?_⟩
  decide

/-- Claim C2, amended.  In any state (in particular while Tracking), for a ring-fault change
event on the key `runtime.totem.pg.mrp.rrp.<r>.faulty` of a ring `r` of the current snapshot,
if the re-read succeeds with byte `b` (after at most 10 retries), the store accepts the update
and the value `<name> is <state>` is shorter than 255 characters, the handler sends exactly
one request to the store, the update of `ringnumber_<r>` to `<interface name of r> is UP`
(b = 0), `... is FAULTY` (b = 1) or `... is UNKOWN` (any other b); that attribute then holds
this value and no other attribute is changed. -/
theorem C2_single_update (c t : Nat) (event : cmap_track_event) (nv ov : cmap_notify_value)
    (w : World) (rings : List (String × String)) (r k b : Nat)
    (hcfg : w.ans_cfg_init 0 = cs_error_t.CS_OK)
    (hsnap : w.ans_ring_status_get 0 = (cs_error_t.CS_OK, rings))
    (hr : r < rings.length) (hcount : rings.length ≤ UINT_RANGE)
    (hk : k ≤ CMAP_MAX_RETRIES)
    (hbefore : ∀ j, j < k → (w.ans_cmap_get_uint8 j).1 = cs_error_t.CS_ERR_TRY_AGAIN)
    (hread : w.ans_cmap_get_uint8 k = (cs_error_t.CS_OK, b))
    (hstore : w.ans_attrd 0 = pcmk_ok)
    (hfit : (ring_name rings r ++ " is " ++ state_text b).length < 255) :
    store_calls (_cs_cmap_rrp_faulty_key_changed c t event
        ("runtime.totem.pg.mrp.rrp." ++ toString r ++ ".faulty") nv ov w).trace
      = store_calls w.trace ++
          [Call.attrd_update_delegate 'U' ("ringnumber_" ++ toString r)
            (some (ring_name rings r ++ " is " ++ state_text b))] ∧
    (_cs_cmap_rrp_faulty_key_changed c t event
        ("runtime.totem.pg.mrp.rrp." ++ toString r ++ ".faulty") nv ov w).attrs
        ("ringnumber_" ++ toString r) = some (ring_name rings r ++ " is " ++ state_text b) ∧
    (∀ name, name ≠ "ringnumber_" ++ toString r →
      (_cs_cmap_rrp_faulty_key_changed c t event
        ("runtime.totem.pg.mrp.rrp." ++ toString r ++ ".faulty") nv ov w).attrs name
        = w.attrs name) := by
  have hr2 : r < UINT_RANGE := by omega
  have hkey : "runtime.totem.pg.mrp.rrp." ++ toString r ++ ".faulty" = FAULTY_KEY_MAKE_FORMAT r := by
    unfold FAULTY_KEY_MAKE_FORMAT FAULTY_TRACE_KEY
    rw [fmt_u_eq r hr2]
  have hname : "ringnumber_" ++ toString r = ATTR_NAME_FORMAT r := by
    unfold ATTR_NAME_FORMAT
    rw [fmt_u_eq r hr2]
  have hval : ring_name rings r ++ " is " ++ state_text b
      = ATTR_VALUE_FORMAT (ring_name rings r) (state_of_faulty b) := rfl
  rw [hkey, hname, hval]
  rw [faulty_handler_publishes c t event nv ov w rings r k b hcfg hsnap hr hcount hk hbefore
    hread (by rw [← hval]; exact hfit)]
  have hst : (after_name_lookup
      (after_reads (k + 1) (retry_calls w.cmap_handle (FAULTY_KEY_MAKE_FORMAT r) k) w)).ans_attrd 0
      = pcmk_ok := hstore
  refine ⟨?_, ?_, ?_⟩
  · simp only [attrd_update_delegate, after_name_lookup, after_reads, store_calls_append,
      store_calls_retry_calls, List.append_nil]
    simp [store_calls]
  · simp [attrd_update_delegate, hst]
  · intro name hne
    simp [attrd_update_delegate, hstore, hne, after_name_lookup, after_reads]

/-- Claim C2, amended, at a concrete event: while Tracking with `three_rings`, a change of
ring 1 re-read as byte 1 after two transient failures publishes `ringnumber_1` as
`eth1 is FAULTY`, and nothing else. -/
theorem C2_single_update_witness :
    store_calls (_cs_cmap_rrp_faulty_key_changed 1 1 cmap_track_event.CMAP_TRACK_MODIFY
        "runtime.totem.pg.mrp.rrp.1.faulty" byte_value byte_value
        (tracking three_rings
          (fun i => if i < 2 then (cs_error_t.CS_ERR_TRY_AGAIN, 0) else (cs_error_t.CS_OK, 1))
          (fun _ => pcmk_ok) (fun _ => none))).trace
      = [Call.attrd_update_delegate 'U' "ringnumber_1" (some "eth1 is FAULTY")] :=
  (C2_single_update 1 1 cmap_track_event.CMAP_TRACK_MODIFY byte_value byte_value
    (tracking three_rings
      (fun i => if i < 2 then (cs_error_t.CS_ERR_TRY_AGAIN, 0) else (cs_error_t.CS_OK, 1))
      (fun _ => pcmk_ok) (fun _ => none))
    three_rings 1 2 1 rfl rfl (by decide) (by decide) (by decide) (by decide) rfl rfl
    (by decide)).1

/-! ## Facts about the removal of the attributes -/

/-- Function `_delete_attr_iface` sends one `'D'` request and is TRUE exactly when the store
accepts it. -/
theorem delete_attr_iface_eq (i : Nat) (w : World) :
    _delete_attr_iface i MAX_LENGTH w
      = (decide (w.ans_attrd 0 = pcmk_ok),
         (attrd_update_delegate 'D' (ATTR_NAME_FORMAT i) none w).2) := by
  have h1 : ¬ len_ok (snprintf_len (ATTR_NAME_FORMAT i)) MAX_LENGTH = false := by
    rw [len_ok_false_iff _ _ MAX_LENGTH_le]
    exact not_not.mpr (ATTR_NAME_FORMAT_length i)
  unfold _delete_attr_iface
  simp only [h1, if_false]
  by_cases hrc : w.ans_attrd 0 = pcmk_ok
  · simp [attrd_update_delegate, hrc]
  · simp [attrd_update_delegate, hrc]

/-- The loop of `_attr_iface_finalize` touches neither the process globals nor the timer
answers, and logs store requests only. -/
theorem finalize_loop_frame :
    ∀ (rings : List (String × String)) (i : Nat) (w : World),
      (_attr_iface_finalize_loop MAX_LENGTH rings i w).2.cmap_handle = w.cmap_handle ∧
      (_attr_iface_finalize_loop MAX_LENGTH rings i w).2.cmap_source = w.cmap_source ∧
      (_attr_iface_finalize_loop MAX_LENGTH rings i w).2.w_timer = w.w_timer ∧
      (_attr_iface_finalize_loop MAX_LENGTH rings i w).2.ans_timeout_add = w.ans_timeout_add := by
  intro rings
  induction rings with
  | nil => intro i w; exact ⟨rfl, rfl, rfl, rfl⟩
  | cons ring rest ih =>
    intro i w
    rw [_attr_iface_finalize_loop, delete_attr_iface_eq]
    by_cases hrc : w.ans_attrd 0 = pcmk_ok
    · simp only [hrc, decide_True, Bool.true_eq_false, if_false]
      obtain ⟨h1, h2, h3, h4⟩ := ih (i + 1) (attrd_update_delegate 'D' (ATTR_NAME_FORMAT i) none w).2
      exact ⟨h1, h2, h3, h4⟩
    · simp only [hrc, decide_False, if_true]
      exact ⟨rfl, rfl, rfl, rfl⟩

/-- The loop of `_attr_iface_finalize` when the store accepts every delete: it sends the
deletes of the rings `i, i+1, ...` in order, after which none of them is published. -/
theorem finalize_loop_all :
    ∀ (rings : List (String × String)) (i : Nat) (w : World),
      (∀ j, j < rings.length → w.ans_attrd j = pcmk_ok) →
      (_attr_iface_finalize_loop MAX_LENGTH rings i w).1 = true ∧
      (_attr_iface_finalize_loop MAX_LENGTH rings i w).2.trace
        = w.trace ++ (List.range rings.length).map (fun j => delete_call (i + j)) ∧
      (∀ name, w.attrs name = none →
        (_attr_iface_finalize_loop MAX_LENGTH rings i w).2.attrs name = none) ∧
      (∀ j, j < rings.length →
        (_attr_iface_finalize_loop MAX_LENGTH rings i w).2.attrs (ATTR_NAME_FORMAT (i + j))
          = none) := by
  intro rings
  induction rings with
  | nil =>
    intro i w _
    exact ⟨rfl, by simp [_attr_iface_finalize_loop], fun _ h => h,
      fun j hj => absurd hj (Nat.not_lt_zero j)⟩
  | cons ring rest ih =>
    intro i w hstore
    have h0 : w.ans_attrd 0 = pcmk_ok := hstore 0 (by simp)
    obtain ⟨h1, h2, h3, h4⟩ := ih (i + 1)
      (attrd_update_delegate 'D' (ATTR_NAME_FORMAT i) none w).2
      (by
        intro j hj
        simpa [attrd_update_delegate, later] using hstore (j + 1) (by simpa using hj))
    rw [_attr_iface_finalize_loop, delete_attr_iface_eq]
    simp only [h0, decide_True, Bool.true_eq_false, if_false]
    refine ⟨h1, ?_, ?_, ?_⟩
    · rw [h2, List.length_cons, List.range_succ_eq_map]
      simp [attrd_update_delegate, delete_call, Nat.add_assoc, Nat.add_comm 1,
        Function.comp_def]
    · intro name hname
      apply h3
      simp only [attrd_update_delegate, h0, if_true]
      split
      · rfl
      · exact hname
    · intro j hj
      cases j with
      | zero =>
        apply h3
        simp [attrd_update_delegate, h0]
      | succ j =>
        have := h4 j (by simpa using hj)
        simpa [Nat.add_assoc, Nat.add_comm 1] using this

/-- Function `_attr_iface_finalize` touches neither the process globals nor the timer
answers. -/
theorem attr_iface_finalize_frame (w : World) :
    (_attr_iface_finalize w).2.cmap_handle = w.cmap_handle ∧
    (_attr_iface_finalize w).2.cmap_source = w.cmap_source ∧
    (_attr_iface_finalize w).2.w_timer = w.w_timer ∧
    (_attr_iface_finalize w).2.ans_timeout_add = w.ans_timeout_add := by
  unfold _attr_iface_finalize
  by_cases hcfg : w.ans_cfg_init 0 = cs_error_t.CS_OK
  · by_cases hsnap : (w.ans_ring_status_get 0).1 = cs_error_t.CS_OK
    · simp only [ corosync_cfg_initialize, hcfg, corosync_cfg_ring_status_get, hsnap, ne_eq,
        not_true_eq_false, if_false, corosync_cfg_finalize, _corosync_cfg_ring_status_free,
        decide_True, if_true]
      exact finalize_loop_frame _ _ _
    · simp [ corosync_cfg_initialize, hcfg, corosync_cfg_ring_status_get, hsnap,
        corosync_cfg_finalize, _corosync_cfg_ring_status_free]
  · simp [ corosync_cfg_initialize, hcfg]

/-- The loop of `_attr_iface_finalize` reads no snapshot and frees nothing. -/
theorem finalize_loop_calm :
    ∀ (rings : List (String × String)) (i : Nat) (w : World),
      calm w (_attr_iface_finalize_loop MAX_LENGTH rings i w).2 := by
  intro rings
  induction rings with
  | nil => intro i w; exact ⟨rfl, rfl⟩
  | cons ring rest ih =>
    intro i w
    rw [_attr_iface_finalize_loop, delete_attr_iface_eq]
    by_cases hrc : w.ans_attrd 0 = pcmk_ok
    · simp only [hrc, decide_True, Bool.true_eq_false, if_false]
      obtain ⟨h1, h2⟩ := ih (i + 1) (attrd_update_delegate 'D' (ATTR_NAME_FORMAT i) none w).2
      exact ⟨h1, h2⟩
    · simp only [hrc, decide_False, if_true]
      exact ⟨rfl, rfl⟩

/-- Unless `corosync_cfg_ring_status_get` fails after `corosync_cfg_initialize` succeeded,
`_attr_iface_finalize` frees only what was assigned. -/
theorem attr_iface_finalize_defined (w : World)
    (hsafe : w.ans_cfg_init 0 = cs_error_t.CS_OK →
      (w.ans_ring_status_get 0).1 = cs_error_t.CS_OK) :
    (_attr_iface_finalize w).2.undefined = w.undefined := by
  unfold _attr_iface_finalize
  by_cases hcfg : w.ans_cfg_init 0 = cs_error_t.CS_OK
  · have hsnap := hsafe hcfg
    simp only [ corosync_cfg_initialize, hcfg, corosync_cfg_ring_status_get, hsnap, ne_eq,
      not_true_eq_false, if_false, corosync_cfg_finalize, _corosync_cfg_ring_status_free,
      decide_True, if_true]
    exact (finalize_loop_calm _ _ _).1
  · simp [ corosync_cfg_initialize, hcfg]

theorem ifcheckd_init_undefined (w : World) :
    (ifcheckd_init w).undefined = w.undefined := by
  unfold ifcheckd_init
  split <;> rfl

/-- Function `ifcheckd_init` leaves the timer armed and sends nothing to the store. -/
theorem ifcheckd_init_armed (w : World) :
    (ifcheckd_init w).w_timer.timer_id ≠ 0 ∧
    (ifcheckd_init w).cmap_handle = w.cmap_handle ∧
    (ifcheckd_init w).attrs = w.attrs ∧
    (ifcheckd_init w).trace = w.trace ++
      (if w.w_timer.timer_id = 0 then [Call.g_timeout_add_seconds w.w_timer.seconds] else []) := by
  unfold ifcheckd_init
  by_cases h : w.w_timer.timer_id = 0
  · simp [h, g_timeout_add_seconds]
  · simp [h]

/-- Claim C4, amended.  Unless `corosync_cfg_ring_status_get` fails after
`corosync_cfg_initialize` succeeded (then `_attr_iface_finalize` goes to `out_free` with its
locals never assigned, and nothing is stated), the channel-loss callback `_cs_cmap_destroy`
attempts the removal strictly before it re-enters Disconnected: every request it sends to the
store is sent by `_attr_iface_finalize`, which leaves the channel handle and the timer
untouched; only then is the handle cleared and the timer armed; and it frees only what was
assigned.  When the snapshot can be read and the store accepts every delete, it deletes
`ringnumber_<i>` for every ring `i` of the current snapshot, in increasing order and before
`cmap_finalize` and `g_timeout_add_seconds`, so that none of these attributes remains
published. -/
theorem C4_cleanup_before_disconnect (w : World)
    (hsafe : w.ans_cfg_init 0 = cs_error_t.CS_OK →
      (w.ans_ring_status_get 0).1 = cs_error_t.CS_OK) :
    (store_calls (_cs_cmap_destroy w).trace = store_calls (_attr_iface_finalize w).2.trace ∧
     (_attr_iface_finalize w).2.cmap_handle = w.cmap_handle ∧
     (_attr_iface_finalize w).2.w_timer = w.w_timer ∧
     (_cs_cmap_destroy w).cmap_handle = 0 ∧
     (_cs_cmap_destroy w).w_timer.timer_id ≠ 0 ∧
     (_cs_cmap_destroy w).undefined = w.undefined) ∧
    (∀ rings : List (String × String),
      w.ans_cfg_init 0 = cs_error_t.CS_OK →
      w.ans_ring_status_get 0 = (cs_error_t.CS_OK, rings) →
      rings.length ≤ UINT_RANGE →
      (∀ j, j < rings.length → w.ans_attrd j = pcmk_ok) →
      (_cs_cmap_destroy w).trace
        = w.trace ++ [Call.cfg_init, Call.ring_status_get] ++
          (List.range rings.length).map
            (fun i => Call.attrd_update_delegate 'D' ("ringnumber_" ++ toString i) none) ++
          [Call.cfg_finalize, Call.cmap_finalize w.cmap_handle] ++
          (if w.w_timer.timer_id = 0 then [Call.g_timeout_add_seconds w.w_timer.seconds]
           else []) ∧
      (∀ i, i < rings.length →
        (_cs_cmap_destroy w).attrs ("ringnumber_" ++ toString i) = none)) := by
  obtain ⟨f1, f2, f3, f4⟩ := attr_iface_finalize_frame w
  have hinit := ifcheckd_init_armed (ifcheckd_finalize w)
  constructor
  · refine ⟨?_, f1, f3, ?_, ?_, ?_⟩
    · unfold _cs_cmap_destroy
      rw [hinit.2.2.2]
      simp only [ifcheckd_finalize, cmap_finalize, store_calls_append]
      split <;> simp [store_calls]
    · unfold _cs_cmap_destroy
      rw [hinit.2.1]
      rfl
    · exact hinit.1
    · unfold _cs_cmap_destroy
      rw [ifcheckd_init_undefined]
      simp only [ifcheckd_finalize, cmap_finalize]
      exact attr_iface_finalize_defined w hsafe
  · intro rings hcfg hsnap hcount hstore
    have hfin : _attr_iface_finalize w
        = ((_attr_iface_finalize_loop MAX_LENGTH rings 0
              (corosync_cfg_ring_status_get ( corosync_cfg_initialize w).2).2).1,
           corosync_cfg_finalize (_attr_iface_finalize_loop MAX_LENGTH rings 0
              (corosync_cfg_ring_status_get ( corosync_cfg_initialize w).2).2).2) := by
      unfold _attr_iface_finalize
      simp [ corosync_cfg_initialize, corosync_cfg_ring_status_get, hcfg, hsnap,
        _corosync_cfg_ring_status_free]
    obtain ⟨l1, l2, l3, l4⟩ := finalize_loop_all rings 0
      (corosync_cfg_ring_status_get ( corosync_cfg_initialize w).2).2
      (fun j hj => hstore j hj)
    have hmap : (List.range rings.length).map (fun j => delete_call (0 + j))
        = (List.range rings.length).map
            (fun i => Call.attrd_update_delegate 'D' ("ringnumber_" ++ toString i) none) := by
      apply List.map_congr_left
      intro i hi
      have hi2 : i < UINT_RANGE := by
        have := List.mem_range.mp hi
        omega
      simp [delete_call, ATTR_NAME_FORMAT, fmt_u_eq i hi2]
    constructor
    · unfold _cs_cmap_destroy
      rw [hinit.2.2.2]
      have ht : (ifcheckd_finalize w).w_timer = w.w_timer := by
        simp only [ifcheckd_finalize, cmap_finalize]
        exact f3
      have htr : (ifcheckd_finalize w).trace
          = w.trace ++ [Call.cfg_init, Call.ring_status_get] ++
            (List.range rings.length).map
              (fun i => Call.attrd_update_delegate 'D' ("ringnumber_" ++ toString i) none) ++
            [Call.cfg_finalize, Call.cmap_finalize w.cmap_handle] := by
        simp only [ifcheckd_finalize, cmap_finalize]
        rw [f1, hfin]
        simp only [corosync_cfg_finalize, l2, hmap]
        simp [ corosync_cfg_initialize, corosync_cfg_ring_status_get]
      rw [ht, htr]
    · intro i hi
      have hi2 : i < UINT_RANGE := by omega
      unfold _cs_cmap_destroy
      rw [hinit.2.2.1]
      simp only [ifcheckd_finalize, cmap_finalize]
      rw [hfin]
      simp only [corosync_cfg_finalize]
      have := l4 i hi
      simpa [ATTR_NAME_FORMAT, fmt_u_eq i hi2] using this

/-- Claim C4, amended, at a concrete world: while Tracking with the three attributes
published and corosync still answering, the callback deletes the three attributes, then
releases the handle, then arms the timer. -/
theorem C4_cleanup_before_disconnect_witness :
    (_cs_cmap_destroy w_tracking_three).trace
      = [Call.cfg_init, Call.ring_status_get,
         Call.attrd_update_delegate 'D' "ringnumber_0" none,
         Call.attrd_update_delegate 'D' "ringnumber_1" none,
         Call.attrd_update_delegate 'D' "ringnumber_2" none,
         Call.cfg_finalize, Call.cmap_finalize 1, Call.g_timeout_add_seconds 1] ∧
    (_cs_cmap_destroy w_tracking_three).attrs "ringnumber_1" = none := by
  have h := (C4_cleanup_before_disconnect w_tracking_three (fun _ => rfl)).2 three_rings rfl
    rfl (by decide) (fun _ _ => rfl)
  exact ⟨by rw [h.1]; decide, h.2 1 (by decide)⟩

/-- Claim C4 as stated fails: the three attributes are published, corosync has gone away (the
usual reason for the loss of the channel), and the callback re-enters Disconnected (handle
cleared, timer armed) without a single request to the store, so that every attribute survives
the lost connection. -/
theorem C4_counterexample :
    w_corosync_down.attrs "ringnumber_0" = some "eth0 is UP" ∧
    store_calls (_cs_cmap_destroy w_corosync_down).trace = [] ∧
    (_cs_cmap_destroy w_corosync_down).attrs "ringnumber_0" = some "eth0 is UP" ∧
    (_cs_cmap_destroy w_corosync_down).attrs "ringnumber_1" = some "eth1 is FAULTY" ∧
    (_cs_cmap_destroy w_corosync_down).attrs "ringnumber_2" = some "eth2 is UNKOWN" ∧
    (_cs_cmap_destroy w_corosync_down).cmap_handle = 0 ∧
    (_cs_cmap_destroy w_corosync_down).w_timer.timer_id ≠ 0 := by
  decide

/-! ## Facts about the peer-connection handler -/

/-- A key `runtime.connections.<id>.name`, for a non-empty `id` without a dot, is read by
`CONNECTIONS_KEY_SCAN_FORMAT` as two fields, the second being `name`. -/
theorem sscanf_CONNECTIONS_KEY_name (id : String) (hne : id.data ≠ [])
    (hdot : ∀ ch, ch ∈ id.data → ch ≠ '.') :
    (sscanf_CONNECTIONS_KEY ("runtime.connections." ++ id ++ ".name")).result = 2 ∧
    (sscanf_CONNECTIONS_KEY ("runtime.connections." ++ id ++ ".name")).tmp_key = "name" := by
  have hdata : ("runtime.connections." ++ id ++ ".name").data
      = CONNECTIONS_TRACE_KEY.data ++ (id.data ++ '.' :: "name".data) := by
    simp [String.data_append, CONNECTIONS_TRACE_KEY]
  have hrun := takeWhile_run (fun ch => decide (ch ≠ '.')) '.' "name".data (by decide) id.data
    (by intro ch hch; simpa using hdot ch hch)
  have hrest : id.data ++ '.' :: "name".data ≠ [] := by
    intro h
    have := congrArg List.length h
    simp at this
  have hs : scan_s "name".data = some "name" := by decide
  unfold sscanf_CONNECTIONS_KEY
  rw [hdata, match_literal_self]
  simp only [hrest, if_false, hrun.1, hrun.2, hne, hs, and_self]

/-- The peer-connection handler on the departure of Pacemaker: it is `ifcheckd_init`. -/
theorem connections_handler_departure (c t : Nat) (id : String) (nv : cmap_notify_value)
    (w : World) (hne : id.data ≠ []) (hdot : ∀ ch, ch ∈ id.data → ch ≠ '.') :
    _cs_cmap_connections_key_changed c t cmap_track_event.CMAP_TRACK_DELETE
        ("runtime.connections." ++ id ++ ".name") nv pacemakerd_name w
      = ifcheckd_init w := by
  obtain ⟨p1, p2⟩ := sscanf_CONNECTIONS_KEY_name id hne hdot
  unfold _cs_cmap_connections_key_changed
  simp only [p1, p2, pacemakerd_name, PACEMAKER_PNAME, ne_eq, not_true_eq_false, if_false,
    if_true]
  by_cases h : w.w_timer.timer_id = 0
  · simp [h]
  · simp [h, ifcheckd_init]

/-- Claim C5 as stated fails: while Tracking with three attributes published, the delete of
`runtime.connections.7.name` with old value `pacemakerd` sends no request to the store and the
three attributes stay published. -/
theorem C5_counterexample :
    w_tracking_three.cmap_handle ≠ 0 ∧ w_tracking_three.w_timer.timer_id = 0 ∧
    store_calls (_cs_cmap_connections_key_changed 1 2 cmap_track_event.CMAP_TRACK_DELETE
      "runtime.connections.7.name" no_value pacemakerd_name w_tracking_three).trace = [] ∧
    (_cs_cmap_connections_key_changed 1 2 cmap_track_event.CMAP_TRACK_DELETE
      "runtime.connections.7.name" no_value pacemakerd_name w_tracking_three).attrs
        "ringnumber_0" = some "eth0 is UP" ∧
    (_cs_cmap_connections_key_changed 1 2 cmap_track_event.CMAP_TRACK_DELETE
      "runtime.connections.7.name" no_value pacemakerd_name w_tracking_three).attrs
        "ringnumber_1" = some "eth1 is FAULTY" ∧
    (_cs_cmap_connections_key_changed 1 2 cmap_track_event.CMAP_TRACK_DELETE
      "runtime.connections.7.name" no_value pacemakerd_name w_tracking_three).attrs
        "ringnumber_2" = some "eth2 is UNKOWN" := by
  decide

/-- Claim C5, amended.  A delete event on a key `runtime.connections.<id>.name` whose old
value is the string `pacemakerd` is treated as peer departure by arming the periodic timer
only: in any state (in particular while Tracking) the handler sends no request to the store
and leaves every published attribute as it was; its only call to the outside is
`g_timeout_add_seconds`, made when the timer is not armed yet. -/
theorem C5_departure_keeps_attributes (c t : Nat) (id : String) (nv : cmap_notify_value)
    (w : World) (hne : id.data ≠ []) (hdot : ∀ ch, ch ∈ id.data → ch ≠ '.') :
    store_calls (_cs_cmap_connections_key_changed c t cmap_track_event.CMAP_TRACK_DELETE
        ("runtime.connections." ++ id ++ ".name") nv pacemakerd_name w).trace
      = store_calls w.trace ∧
    (_cs_cmap_connections_key_changed c t cmap_track_event.CMAP_TRACK_DELETE
        ("runtime.connections." ++ id ++ ".name") nv pacemakerd_name w).attrs = w.attrs ∧
    (_cs_cmap_connections_key_changed c t cmap_track_event.CMAP_TRACK_DELETE
        ("runtime.connections." ++ id ++ ".name") nv pacemakerd_name w).trace
      = w.trace ++ (if w.w_timer.timer_id = 0
                    then [Call.g_timeout_add_seconds w.w_timer.seconds] else []) := by
  rw [connections_handler_departure c t id nv w hne hdot]
  obtain ⟨-, -, h3, h4⟩ := ifcheckd_init_armed w
  refine ⟨?_, h3, h4⟩
  rw [h4, store_calls_append]
  split <;> simp [store_calls]

/-- Claim C5, amended, at the key `runtime.connections.7.name` while Tracking: the only call
is the arming of the timer. -/
theorem C5_departure_keeps_attributes_witness :
    (_cs_cmap_connections_key_changed 1 2 cmap_track_event.CMAP_TRACK_DELETE
        "runtime.connections.7.name" no_value pacemakerd_name w_tracking_three).trace
      = [Call.g_timeout_add_seconds 1] :=
  (C5_departure_keeps_attributes 1 2 "7" no_value w_tracking_three (by decide)
    (by decide)).2.2

/-- Claim C6 as stated fails: while Tracking, after the delete of
`runtime.connections.7.name` with old value `pacemakerd` the timer is armed but the channel
handle is still held. -/
theorem C6_counterexample :
    w_tracking_three.cmap_handle = 1 ∧ w_tracking_three.w_timer.timer_id = 0 ∧
    (_cs_cmap_connections_key_changed 1 2 cmap_track_event.CMAP_TRACK_DELETE
      "runtime.connections.7.name" no_value pacemakerd_name w_tracking_three).cmap_handle = 1 ∧
    (_cs_cmap_connections_key_changed 1 2 cmap_track_event.CMAP_TRACK_DELETE
      "runtime.connections.7.name" no_value pacemakerd_name w_tracking_three).w_timer.timer_id
        ≠ 0 := by
  decide

/-- Claim C6, amended.  While Tracking, a delete event on a key `runtime.connections.<id>.name`
whose old value is `pacemakerd` arms the periodic timer at once, without any channel-loss
callback, and keeps the channel: after the handler returns the timer is armed, the handle and
the event source are the ones held before (so `cmap_handle` is not 0) and `cmap_finalize` has
not been called. -/
theorem C6_departure_arms_timer (c t : Nat) (id : String) (nv : cmap_notify_value)
    (w : World) (hne : id.data ≠ []) (hdot : ∀ ch, ch ∈ id.data → ch ≠ '.')
    (hhandle : w.cmap_handle ≠ 0) (htimer : w.w_timer.timer_id = 0) :
    (_cs_cmap_connections_key_changed c t cmap_track_event.CMAP_TRACK_DELETE
        ("runtime.connections." ++ id ++ ".name") nv pacemakerd_name w).w_timer.timer_id ≠ 0 ∧
    (_cs_cmap_connections_key_changed c t cmap_track_event.CMAP_TRACK_DELETE
        ("runtime.connections." ++ id ++ ".name") nv pacemakerd_name w).cmap_handle
      = w.cmap_handle ∧
    (_cs_cmap_connections_key_changed c t cmap_track_event.CMAP_TRACK_DELETE
        ("runtime.connections." ++ id ++ ".name") nv pacemakerd_name w).cmap_handle ≠ 0 ∧
    (_cs_cmap_connections_key_changed c t cmap_track_event.CMAP_TRACK_DELETE
        ("runtime.connections." ++ id ++ ".name") nv pacemakerd_name w).cmap_source
      = w.cmap_source ∧
    (_cs_cmap_connections_key_changed c t cmap_track_event.CMAP_TRACK_DELETE
        ("runtime.connections." ++ id ++ ".name") nv pacemakerd_name w).trace
      = w.trace ++ [Call.g_timeout_add_seconds w.w_timer.seconds] := by
  rw [connections_handler_departure c t id nv w hne hdot]
  obtain ⟨h1, h2, -, h4⟩ := ifcheckd_init_armed w
  refine ⟨h1, h2, by rw [h2]; exact hhandle, ?_, ?_⟩
  · unfold ifcheckd_init
    simp [htimer, g_timeout_add_seconds]
  · rw [h4]
    simp [htimer]

/-- Claim C6, amended, at the key `runtime.connections.7.name` while Tracking with handle 1:
afterwards the timer is armed and the handle is still 1. -/
theorem C6_departure_arms_timer_witness :
    (_cs_cmap_connections_key_changed 1 2 cmap_track_event.CMAP_TRACK_DELETE
        "runtime.connections.7.name" no_value pacemakerd_name w_tracking_three).w_timer.timer_id
      ≠ 0 ∧
    (_cs_cmap_connections_key_changed 1 2 cmap_track_event.CMAP_TRACK_DELETE
        "runtime.connections.7.name" no_value pacemakerd_name w_tracking_three).cmap_handle
      = 1 :=
  ⟨(C6_departure_arms_timer 1 2 "7" no_value w_tracking_three (by decide) (by decide)
      (by decide) rfl).1,
   (C6_departure_arms_timer 1 2 "7" no_value w_tracking_three (by decide) (by decide)
      (by decide) rfl).2.1⟩

/-! ## A failing ring in the resync loop -/

/-- One turn of the loop of `_attr_iface_init` for a ring whose read succeeds at once but
whose update fails, either because the value does not fit (nothing is sent) or because the
store refuses the request: the loop stops there. -/
theorem init_loop_step_fails (handle2 : Nat) (ring : String × String)
    (rest : List (String × String)) (i : Nat) (w : World)
    (hread : (w.ans_cmap_get_uint8 0).1 = cs_error_t.CS_OK)
    (hfail : ¬ (ATTR_VALUE_FORMAT ring.1 (state_of_faulty (w.ans_cmap_get_uint8 0).2)).length
                < MAX_LENGTH ∨ w.ans_attrd 0 ≠ pcmk_ok) :
    (_attr_iface_init_loop handle2 MAX_LENGTH (ring :: rest) i w).1 = false ∧
    store_calls (_attr_iface_init_loop handle2 MAX_LENGTH (ring :: rest) i w).2.trace
      = store_calls w.trace ++
        (if (ATTR_VALUE_FORMAT ring.1 (state_of_faulty (w.ans_cmap_get_uint8 0).2)).length
              < MAX_LENGTH
         then [update_call i ring.1 (w.ans_cmap_get_uint8 0).2] else []) := by
  have hkey : ¬ len_ok (snprintf_len (FAULTY_KEY_MAKE_FORMAT i)) MAX_LENGTH = false := by
    rw [len_ok_false_iff _ _ MAX_LENGTH_le]
    exact not_not.mpr (FAULTY_KEY_MAKE_FORMAT_length i)
  have hbuf : snprintf_buf CMAP_KEYNAME_MAXLEN (FAULTY_KEY_MAKE_FORMAT i)
      = FAULTY_KEY_MAKE_FORMAT i :=
    snprintf_buf_eq _ _ (FAULTY_KEY_MAKE_FORMAT_length i)
  have hretry := retry_stops handle2 (FAULTY_KEY_MAKE_FORMAT i) 0 CMAP_MAX_RETRIES w
    (Nat.zero_le _) (fun j hj => absurd hj (Nat.not_lt_zero j))
    (Or.inr (by rw [hread]; decide))
  have hstate : ∀ b, ¬ len_ok (snprintf_len (state_of_faulty b)) MAX_LENGTH = false := by
    intro b
    rw [len_ok_false_iff _ _ MAX_LENGTH_le]
    exact not_not.mpr (state_of_faulty_length b)
  have hloop : _attr_iface_init_loop handle2 MAX_LENGTH (ring :: rest) i w
      = if (_update_attr_iface i ring.1 (state_of_faulty (w.ans_cmap_get_uint8 0).2) MAX_LENGTH
              (after_reads 1 (retry_calls handle2 (FAULTY_KEY_MAKE_FORMAT i) 0) w)).1 = false
        then (false, (_update_attr_iface i ring.1 (state_of_faulty (w.ans_cmap_get_uint8 0).2)
                MAX_LENGTH (after_reads 1 (retry_calls handle2 (FAULTY_KEY_MAKE_FORMAT i) 0) w)).2)
        else _attr_iface_init_loop handle2 MAX_LENGTH rest (i + 1)
              (_update_attr_iface i ring.1 (state_of_faulty (w.ans_cmap_get_uint8 0).2)
                MAX_LENGTH (after_reads 1 (retry_calls handle2 (FAULTY_KEY_MAKE_FORMAT i) 0) w)).2 := by
    rw [_attr_iface_init_loop]
    simp only [hkey, hbuf, hretry, hread, hstate, if_false, ne_eq, not_true_eq_false,
      Bool.true_eq_false, Nat.zero_add]
  rw [hloop]
  by_cases hfit : (ATTR_VALUE_FORMAT ring.1 (state_of_faulty (w.ans_cmap_get_uint8 0).2)).length
      < MAX_LENGTH
  · have hrc : w.ans_attrd 0 ≠ pcmk_ok := by
      rcases hfail with h | h
      · exact absurd hfit h
      · exact h
    have hrc2 : (after_reads 1 (retry_calls handle2 (FAULTY_KEY_MAKE_FORMAT i) 0) w).ans_attrd 0
        ≠ pcmk_ok := hrc
    rw [update_attr_iface_fits i _ _ _ hfit]
    simp only [hrc2, decide_False, if_true, hfit, true_and]
    simp only [attrd_update_delegate, after_reads, store_calls_append, store_calls_retry_calls,
      List.append_nil]
    simp [store_calls, update_call]
  · rw [update_attr_iface_too_long i _ _ _ hfit]
    simp only [if_true, hfit, if_false, true_and, List.append_nil]
    rw [after_reads_trace, store_calls_append, store_calls_retry_calls, List.append_nil]

/-- Claim C7 as stated fails: with two rings and a store that refuses the update of ring 0,
the resync attempt returns FALSE after that one request; no update is attempted for ring 1. -/
theorem C7_counterexample :
    (w_store_refuses_first.ans_ring_status_get 0).2.length = 2 ∧
    w_store_refuses_first.ans_attrd 0 ≠ pcmk_ok ∧
    (_attr_iface_init w_store_refuses_first).1 = false ∧
    store_calls (_attr_iface_init w_store_refuses_first).2.trace
      = [Call.attrd_update_delegate 'U' "ringnumber_0" (some "eth0 is UP")] := by
  decide

/-- Claim C7, amended.  A resync attempt (`_attr_iface_init`) over a snapshot of `n` rings
pushes the rings in increasing order and stops at the first ring `k` whose update fails: when
the reads of the rings up to `k` succeed, the updates of the rings before `k` are accepted and
the update of ring `k` is refused by the store or cannot be formatted, the attempt returns
FALSE having sent exactly the updates of the rings `0 .. k-1`, followed by the refused update
of ring `k` when its value could be formatted; no update is attempted for any ring after
`k`, and the updates of the rings before `k` are not undone. -/
theorem C7_first_failure_aborts (w : World) (rings : List (String × String)) (b : Nat → Nat)
    (k : Nat)
    (hcfg : w.ans_cfg_init 0 = cs_error_t.CS_OK)
    (hcmap : (w.ans_cmap_init 0).1 = cs_error_t.CS_OK)
    (hsnap : w.ans_ring_status_get 0 = (cs_error_t.CS_OK, rings))
    (hcount : rings.length ≤ UINT_RANGE)
    (hk : k < rings.length)
    (hread : ∀ i, i ≤ k → w.ans_cmap_get_uint8 i = (cs_error_t.CS_OK, b i))
    (hstore : ∀ i, i < k → w.ans_attrd i = pcmk_ok)
    (hfit : ∀ i, i < k → (ring_name rings i ++ " is " ++ state_text (b i)).length < 255)
    (hfail : ¬ (ring_name rings k ++ " is " ++ state_text (b k)).length < 255 ∨
      w.ans_attrd k ≠ pcmk_ok) :
    (_attr_iface_init w).1 = false ∧
    store_calls (_attr_iface_init w).2.trace = store_calls w.trace ++
      (List.range k).map (fun i =>
        Call.attrd_update_delegate 'U' ("ringnumber_" ++ toString i)
          (some (ring_name rings i ++ " is " ++ state_text (b i)))) ++
      (if (ring_name rings k ++ " is " ++ state_text (b k)).length < 255
       then [Call.attrd_update_delegate 'U' ("ringnumber_" ++ toString k)
               (some (ring_name rings k ++ " is " ++ state_text (b k)))]
       else []) := by
  have ho := attr_iface_init_opened w rings hcfg hcmap hsnap
  rw [init_opening] at ho
  have e1 : (_attr_iface_init w).1 = (_attr_iface_init_loop ((w.ans_cmap_init 0).2 + 1)
      MAX_LENGTH rings 0
      { w with
        ans_cfg_init := later w.ans_cfg_init,
        ans_cmap_init := later w.ans_cmap_init,
        ans_ring_status_get := later w.ans_ring_status_get,
        trace := w.trace ++ [Call.cfg_init, Call.cmap_init, Call.ring_status_get] }).1 := by
    rw [ho]
  have e2 : (_attr_iface_init w).2.trace = (_attr_iface_init_loop ((w.ans_cmap_init 0).2 + 1)
      MAX_LENGTH rings 0
      { w with
        ans_cfg_init := later w.ans_cfg_init,
        ans_cmap_init := later w.ans_cmap_init,
        ans_ring_status_get := later w.ans_ring_status_get,
        trace := w.trace ++ [Call.cfg_init, Call.cmap_init, Call.ring_status_get] }).2.trace
      ++ [Call.cfg_finalize, Call.cmap_finalize ((w.ans_cmap_init 0).2 + 1)] := by
    rw [ho]
    simp [cmap_finalize, corosync_cfg_finalize]
  rw [e1, e2]
  obtain ⟨wk, h1, h2, h3, h4, -⟩ := init_loop_prefix ((w.ans_cmap_init 0).2 + 1) k rings 0
    { w with
        ans_cfg_init := later w.ans_cfg_init,
        ans_cmap_init := later w.ans_cmap_init,
        ans_ring_status_get := later w.ans_ring_status_get,
        trace := w.trace ++ [Call.cfg_init, Call.cmap_init, Call.ring_status_get] }
    (Nat.le_of_lt hk)
    (fun j hj => by simp [hread j (Nat.le_of_lt hj)])
    (fun j hj => hstore j hj)
    (fun j hj => by
      have := hfit j hj
      simpa [hread j (Nat.le_of_lt hj), ATTR_VALUE_FORMAT, state_of_faulty_eq, MAX_LENGTH]
        using this)
  have hdrop : rings.drop k = rings[k] :: rings.drop (k + 1) := List.drop_eq_getElem_cons hk
  have hname : rings[k].1 = ring_name rings k := by
    simp [ring_name, List.getElem?_eq_getElem hk]
  have hrk : wk.ans_cmap_get_uint8 0 = (cs_error_t.CS_OK, b k) := by
    rw [h3 0]
    simpa using hread k (le_refl _)
  have hsk : wk.ans_attrd 0 = w.ans_attrd k := by
    rw [h4 0]
    simp
  obtain ⟨s1, s2⟩ := init_loop_step_fails ((w.ans_cmap_init 0).2 + 1) rings[k]
    (rings.drop (k + 1)) (0 + k) wk (by rw [hrk])
    (by
      rw [hrk, hsk, hname]
      simp only [ATTR_VALUE_FORMAT, state_of_faulty_eq, MAX_LENGTH]
      exact hfail)
  rw [h1, hdrop]
  refine ⟨s1, ?_⟩
  simp only [store_calls_append, s2, h2, hrk, hname]
  have hnone : store_calls [Call.cfg_init, Call.cmap_init, Call.ring_status_get] = [] := rfl
  have hnone2 : store_calls [Call.cfg_finalize,
      Call.cmap_finalize ((w.ans_cmap_init 0).2 + 1)] = [] := rfl
  rw [hnone, hnone2]
  have hk2 : k < UINT_RANGE := by omega
  have hmap : (List.range k).map (fun j => update_call (0 + j) (ring_name rings j)
        (w.ans_cmap_get_uint8 j).2)
      = (List.range k).map (fun i =>
          Call.attrd_update_delegate 'U' ("ringnumber_" ++ toString i)
            (some (ring_name rings i ++ " is " ++ state_text (b i)))) := by
    apply List.map_congr_left
    intro i hi
    have hi2 : i < k := List.mem_range.mp hi
    have hi3 : i < UINT_RANGE := by omega
    simp [update_call, hread i (Nat.le_of_lt hi2), ATTR_NAME_FORMAT, ATTR_VALUE_FORMAT,
      state_of_faulty_eq, fmt_u_eq i hi3]
  simp only [List.append_nil, hmap]
  simp [update_call, ATTR_NAME_FORMAT, ATTR_VALUE_FORMAT, state_of_faulty_eq, fmt_u_eq k hk2,
    MAX_LENGTH]

/-- Claim C7, amended, at `three_rings` when the store accepts the update of ring 0 and
refuses that of ring 1: ring 0 and ring 1 are sent, ring 2 is not. -/
theorem C7_first_failure_aborts_witness :
    (_attr_iface_init (fresh three_rings (fun i => (cs_error_t.CS_OK, three_bytes i))
        (fun i => if i = 1 then -107 else pcmk_ok))).1 = false ∧
    store_calls (_attr_iface_init (fresh three_rings
        (fun i => (cs_error_t.CS_OK, three_bytes i))
        (fun i => if i = 1 then -107 else pcmk_ok))).2.trace
      = [Call.attrd_update_delegate 'U' "ringnumber_0" (some "eth0 is UP"),
         Call.attrd_update_delegate 'U' "ringnumber_1" (some "eth1 is FAULTY")] := by
  have h := C7_first_failure_aborts
    (fresh three_rings (fun i => (cs_error_t.CS_OK, three_bytes i))
      (fun i => if i = 1 then -107 else pcmk_ok))
    three_rings three_bytes 1 rfl rfl rfl (by decide) (by decide) (fun _ _ => rfl)
    (by decide) (by decide) (Or.inr (by decide))
  refine ⟨h.1, ?_⟩
  rw [h.2]
  decide

/-! ## Malformed keys -/

theorem match_literal_ok (lit : List Char) :
    ∀ (input rest : List Char), match_literal lit input = LitMatch.ok rest →
      input = lit ++ rest := by
  induction lit with
  | nil =>
    intro input rest h
    simp only [match_literal, LitMatch.ok.injEq] at h
    simp [h]
  | cons ch lit ih =>
    intro input rest h
    cases input with
    | nil => simp [match_literal] at h
    | cons d ds =>
      simp only [match_literal] at h
      by_cases hcd : ch = d
      · simp only [hcd, if_true] at h
        rw [hcd, ih ds rest h]
        rfl
      · simp [hcd] at h

/-- A key that does not begin with `runtime.totem.pg.mrp.rrp.` is not read as two fields,
and neither is a key whose ring id field begins with a character that is not a digit, a sign
or white space. -/
theorem sscanf_FAULTY_KEY_rejects (key_name : String) :
    ((∀ rest, key_name.data ≠ FAULTY_TRACE_KEY.data ++ rest) →
      (sscanf_FAULTY_KEY key_name).result ≠ 2) ∧
    (∀ ch rest, key_name.data = FAULTY_TRACE_KEY.data ++ ch :: rest →
      isspace ch = false → isdigit ch = false → ch ≠ '-' → ch ≠ '+' →
      (sscanf_FAULTY_KEY key_name).result = 0) := by
  constructor
  · intro h
    unfold sscanf_FAULTY_KEY
    cases hm : match_literal FAULTY_TRACE_KEY.data key_name.data with
    | eof => simp
    | mismatch => simp
    | ok rest => exact absurd (match_literal_ok _ _ _ hm) (h rest)
  · intro ch rest hkey hsp hdg hminus hplus
    have h1 : ((some ch == some '-') = false) := by simp [hminus]
    have h2 : ((some ch == some '+') = false) := by simp [hplus]
    have hscan : scan_u (ch :: rest) = none := by
      unfold scan_u
      simp [h1, h2, List.takeWhile, hdg]
    unfold sscanf_FAULTY_KEY
    rw [hkey, match_literal_self]
    simp [List.dropWhile, hsp, hscan]

/-- A key that does not begin with `runtime.connections.` is not read as two fields. -/
theorem sscanf_CONNECTIONS_KEY_rejects (key_name : String)
    (h : ∀ rest, key_name.data ≠ CONNECTIONS_TRACE_KEY.data ++ rest) :
    (sscanf_CONNECTIONS_KEY key_name).result ≠ 2 := by
  unfold sscanf_CONNECTIONS_KEY
  cases hm : match_literal CONNECTIONS_TRACE_KEY.data key_name.data with
  | eof => simp
  | mismatch => simp
  | ok rest => exact absurd (match_literal_ok _ _ _ hm) (h rest)

/-- Claim C8.  A ring-fault notification whose key is not read by `FAULTY_KEY_SCAN_FORMAT` as
two fields (`sscanf` does not return 2), or whose second field is not exactly `faulty`, and a
peer-connection notification whose key is not read by `CONNECTIONS_KEY_SCAN_FORMAT` as two
fields, or whose second field is not exactly `name`, are ignored: the handler returns the
world it was given, so no channel read and no store request is made, the handle and the timer
are unchanged, and nothing is reported to the caller.  In particular this holds for every key
that does not begin with the traced key text, and for every ring-fault key whose ring id
field begins with a character that is not a digit, a sign or white space. -/
theorem C8_malformed_keys_ignored (c t : Nat) (event : cmap_track_event) (key_name : String)
    (nv ov : cmap_notify_value) (w : World) :
    (((sscanf_FAULTY_KEY key_name).result ≠ 2 ∨
        (sscanf_FAULTY_KEY key_name).tmp_key ≠ "faulty") →
      _cs_cmap_rrp_faulty_key_changed c t event key_name nv ov w = w) ∧
    (((sscanf_CONNECTIONS_KEY key_name).result ≠ 2 ∨
        (sscanf_CONNECTIONS_KEY key_name).tmp_key ≠ "name") →
      _cs_cmap_connections_key_changed c t event key_name nv ov w = w) ∧
    ((∀ rest, key_name.data ≠ "runtime.totem.pg.mrp.rrp.".data ++ rest) →
      _cs_cmap_rrp_faulty_key_changed c t event key_name nv ov w = w) ∧
    (∀ ch rest, key_name.data = "runtime.totem.pg.mrp.rrp.".data ++ ch :: rest →
      isspace ch = false → isdigit ch = false → ch ≠ '-' → ch ≠ '+' →
      _cs_cmap_rrp_faulty_key_changed c t event key_name nv ov w = w) ∧
    ((∀ rest, key_name.data ≠ "runtime.connections.".data ++ rest) →
      _cs_cmap_connections_key_changed c t event key_name nv ov w = w) := by
  have hf : ((sscanf_FAULTY_KEY key_name).result ≠ 2 ∨
        (sscanf_FAULTY_KEY key_name).tmp_key ≠ "faulty") →
      _cs_cmap_rrp_faulty_key_changed c t event key_name nv ov w = w := by
    intro h
    unfold _cs_cmap_rrp_faulty_key_changed
    by_cases h1 : (sscanf_FAULTY_KEY key_name).result ≠ 2
    · simp [h1]
    · have h2 : (sscanf_FAULTY_KEY key_name).tmp_key ≠ "faulty" := by
        rcases h with h | h
        · exact absurd h h1
        · exact h
      simp [h2]
  have hc : ((sscanf_CONNECTIONS_KEY key_name).result ≠ 2 ∨
        (sscanf_CONNECTIONS_KEY key_name).tmp_key ≠ "name") →
      _cs_cmap_connections_key_changed c t event key_name nv ov w = w := by
    intro h
    unfold _cs_cmap_connections_key_changed
    by_cases h1 : (sscanf_CONNECTIONS_KEY key_name).result ≠ 2
    · simp [h1]
    · have h2 : (sscanf_CONNECTIONS_KEY key_name).tmp_key ≠ "name" := by
        rcases h with h | h
        · exact absurd h h1
        · exact h
      simp [h2]
  refine ⟨hf, hc, ?_, ?_, ?_⟩
  · intro h
    exact hf (Or.inl ((sscanf_FAULTY_KEY_rejects key_name).1 h))
  · intro ch rest hkey hsp hdg hminus hplus
    apply hf
    left
    rw [(sscanf_FAULTY_KEY_rejects key_name).2 ch rest hkey hsp hdg hminus hplus]
    decide
  · intro h
    exact hc (Or.inl (sscanf_CONNECTIONS_KEY_rejects key_name h))

/-- Claim C8 at the keys of the spec: `runtime.totem.pg.mrp.rrp.notanumber.faulty` is not
read as two fields, `runtime.totem.pg.mrp.rrp.0.enabled` and `runtime.connections.7.pid` have
the wrong last field; each is ignored while Tracking. -/
theorem C8_malformed_keys_ignored_witness :
    (sscanf_FAULTY_KEY "runtime.totem.pg.mrp.rrp.notanumber.faulty").result = 0 ∧
    _cs_cmap_rrp_faulty_key_changed 1 1 cmap_track_event.CMAP_TRACK_MODIFY
      "runtime.totem.pg.mrp.rrp.notanumber.faulty" byte_value byte_value w_tracking_three
      = w_tracking_three ∧
    _cs_cmap_rrp_faulty_key_changed 1 1 cmap_track_event.CMAP_TRACK_MODIFY
      "runtime.totem.pg.mrp.rrp.0.enabled" byte_value byte_value w_tracking_three
      = w_tracking_three ∧
    _cs_cmap_connections_key_changed 1 2 cmap_track_event.CMAP_TRACK_DELETE
      "runtime.connections.7.pid" no_value pacemakerd_name w_tracking_three
      = w_tracking_three :=
  ⟨by decide,
   (C8_malformed_keys_ignored 1 1 cmap_track_event.CMAP_TRACK_MODIFY
      "runtime.totem.pg.mrp.rrp.notanumber.faulty" byte_value byte_value
      w_tracking_three).2.2.2.1 'n' "otanumber.faulty".data rfl (by decide) (by decide)
      (by decide) (by decide),
   (C8_malformed_keys_ignored 1 1 cmap_track_event.CMAP_TRACK_MODIFY
      "runtime.totem.pg.mrp.rrp.0.enabled" byte_value byte_value
      w_tracking_three).1 (Or.inr (by decide)),
   (C8_malformed_keys_ignored 1 2 cmap_track_event.CMAP_TRACK_DELETE
      "runtime.connections.7.pid" no_value pacemakerd_name
      w_tracking_three).2.1 (Or.inr (by decide))⟩

/-! ## Convergence of the published value -/

/-- The published value after a non-empty list of transitions of ring `r`, each re-read with
success within the retry bound and each with a value that fits, is the value of the last
transition. -/
theorem deliver_last (c t r : Nat) (name : String) :
    ∀ (trs : List Transition) (last : Transition) (w : World),
      r < UINT_RANGE →
      (∀ n, w.ans_cfg_init n = cs_error_t.CS_OK) →
      (∀ n, (w.ans_ring_status_get n).1 = cs_error_t.CS_OK ∧
            r < (w.ans_ring_status_get n).2.length ∧
            (w.ans_ring_status_get n).2.length ≤ UINT_RANGE ∧
            ring_name (w.ans_ring_status_get n).2 r = name) →
      reads_follow (trs ++ [last]) w.ans_cmap_get_uint8 →
      (∀ n, w.ans_attrd n = pcmk_ok) →
      (∀ tr, tr ∈ trs ++ [last] →
        (ATTR_VALUE_FORMAT name (state_of_faulty tr.byte)).length < MAX_LENGTH) →
      (deliver c t (FAULTY_KEY_MAKE_FORMAT r) (trs ++ [last]) w).attrs (ATTR_NAME_FORMAT r)
        = some (ATTR_VALUE_FORMAT name (state_of_faulty last.byte)) := by
  intro trs
  induction trs with
  | nil =>
    intro last w hr hcfg hsnap hreads hstore hfit
    obtain ⟨s1, s2, s3, s4⟩ := hsnap 0
    obtain ⟨q1, q2, q3, -⟩ := hreads
    have hsn : w.ans_ring_status_get 0 = (cs_error_t.CS_OK, (w.ans_ring_status_get 0).2) := by
      rw [← s1]
    have hf := hfit last (by simp)
    rw [← s4] at hf
    simp only [List.nil_append, deliver]
    rw [faulty_handler_publishes c t last.event last.new_value last.old_value w
      (w.ans_ring_status_get 0).2 r last.retries last.byte (hcfg 0) hsn s2 s3 q1 q2 q3 hf]
    have hst : (after_name_lookup (after_reads (last.retries + 1)
        (retry_calls w.cmap_handle (FAULTY_KEY_MAKE_FORMAT r) last.retries) w)).ans_attrd 0
        = pcmk_ok := hstore 0
    simp [attrd_update_delegate, hst, s4]
  | cons tr rest ih =>
    intro last w hr hcfg hsnap hreads hstore hfit
    obtain ⟨s1, s2, s3, s4⟩ := hsnap 0
    obtain ⟨q1, q2, q3, q4⟩ := hreads
    have hsn : w.ans_ring_status_get 0 = (cs_error_t.CS_OK, (w.ans_ring_status_get 0).2) := by
      rw [← s1]
    have hf := hfit tr (by simp)
    rw [← s4] at hf
    simp only [List.cons_append, deliver]
    rw [faulty_handler_publishes c t tr.event tr.new_value tr.old_value w
      (w.ans_ring_status_get 0).2 r tr.retries tr.byte (hcfg 0) hsn s2 s3 q1 q2 q3 hf]
    apply ih last _ hr
    · intro n
      exact hcfg (n + 1)
    · intro n
      exact hsnap (n + 1)
    · exact q4
    · intro n
      exact hstore (n + 1)
    · intro tr2 htr2
      exact hfit tr2 (List.mem_cons_of_mem tr htr2)

set_option maxRecDepth 100000 in
/-- Claim C9 as stated fails: ring 0 keeps the 245-character interface name `name245`, the
store accepts every update and no re-read fails; after the transitions to byte 0 and then to
byte 1 the published value is still `<name> is UP`, because `<name> is FAULTY` has 255
characters and is not sent. -/
theorem C9_counterexample :
    reads_follow [modify_to 0 0, modify_to 0 1] w_name245.ans_cmap_get_uint8 ∧
    (deliver 1 1 "runtime.totem.pg.mrp.rrp.0.faulty" [modify_to 0 0, modify_to 0 1]
      w_name245).attrs "ringnumber_0" = some (name245 ++ " is UP") ∧
    (deliver 1 1 "runtime.totem.pg.mrp.rrp.0.faulty" [modify_to 0 0, modify_to 0 1]
      w_name245).attrs "ringnumber_0" ≠ some (name245 ++ " is " ++ state_text 1) := by
  refine ⟨⟨by decide, by decide, rfl, by decide, by decide, rfl, trivial⟩, ?_, ?_⟩
  · decide
  · decide

/-- Claim C9, amended.  While Tracking (and in any other state), for a ring `r` whose
interface name stays `name`, and a non-empty finite sequence of fault-byte transitions of `r`,
each delivered as a change event on `runtime.totem.pg.mrp.rrp.<r>.faulty` and each re-read
after at most `CMAP_MAX_RETRIES` transient failures, with every store update accepted and
every value `<name> is <state>` shorter than 255 characters, the value published for
`ringnumber_<r>` after the last event is `<name> is UP` if the last byte is 0,
`<name> is FAULTY` if it is 1 and `<name> is UNKOWN` otherwise. -/
theorem C9_convergence (c t r : Nat) (name : String) (trs : List Transition)
    (last : Transition) (w : World)
    (hcfg : ∀ n, w.ans_cfg_init n = cs_error_t.CS_OK)
    (hsnap : ∀ n, (w.ans_ring_status_get n).1 = cs_error_t.CS_OK ∧
                  r < (w.ans_ring_status_get n).2.length ∧
                  (w.ans_ring_status_get n).2.length ≤ UINT_RANGE ∧
                  ring_name (w.ans_ring_status_get n).2 r = name)
    (hreads : reads_follow (trs ++ [last]) w.ans_cmap_get_uint8)
    (hstore : ∀ n, w.ans_attrd n = pcmk_ok)
    (hfit : ∀ tr, tr ∈ trs ++ [last] → (name ++ " is " ++ state_text tr.byte).length < 255) :
    (deliver c t ("runtime.totem.pg.mrp.rrp." ++ toString r ++ ".faulty") (trs ++ [last])
        w).attrs ("ringnumber_" ++ toString r)
      = some (name ++ " is " ++ state_text last.byte) := by
  have hr : r < UINT_RANGE := by
    have := hsnap 0
    omega
  have hkey : "runtime.totem.pg.mrp.rrp." ++ toString r ++ ".faulty" = FAULTY_KEY_MAKE_FORMAT r := by
    unfold FAULTY_KEY_MAKE_FORMAT FAULTY_TRACE_KEY
    rw [fmt_u_eq r hr]
  have hname : "ringnumber_" ++ toString r = ATTR_NAME_FORMAT r := by
    unfold ATTR_NAME_FORMAT
    rw [fmt_u_eq r hr]
  rw [hkey, hname]
  exact deliver_last c t r name trs last w hr hcfg hsnap hreads hstore
    (fun tr htr => by
      have := hfit tr htr
      simp only [ATTR_VALUE_FORMAT, state_of_faulty_eq, MAX_LENGTH]
      exact this)

/-- Claim C9, amended, on ring 1 of `three_rings`: the transitions to byte 1 (after two
transient failures), to byte 0 and to byte 2 (after ten transient failures) leave
`ringnumber_1` at `eth1 is UNKOWN`. -/
theorem C9_convergence_witness :
    (deliver 1 1 "runtime.totem.pg.mrp.rrp.1.faulty"
        [modify_to 2 1, modify_to 0 0, modify_to 10 2] w_flapping).attrs "ringnumber_1"
      = some "eth1 is UNKOWN" :=
  C9_convergence 1 1 1 "eth1" [modify_to 2 1, modify_to 0 0] (modify_to 10 2) w_flapping
    (fun _ => rfl)
    (fun _ => ⟨rfl, (by decide : 1 < three_rings.length),
      (by decide : three_rings.length ≤ UINT_RANGE), rfl⟩)
    ⟨by decide, by decide, rfl, by decide, by decide, rfl, by decide, by decide, rfl, trivial⟩
    (fun _ => rfl) (by decide)

/-! ## Applying one observation twice -/

/-- Claim C10 as stated fails: on an empty store, when the store refuses the first request
and accepts the second, applying the observation (ring 0, `eth0`, `UP`) once leaves the store
empty, while applying it twice publishes `ringnumber_0`. -/
theorem C10_counterexample :
    (_update_attr_iface 0 "eth0" "UP" MAX_LENGTH w_store_refuses_first).2.attrs "ringnumber_0"
      = none ∧
    (_update_attr_iface 0 "eth0" "UP" MAX_LENGTH
      (_update_attr_iface 0 "eth0" "UP" MAX_LENGTH w_store_refuses_first).2).2.attrs
        "ringnumber_0" = some "eth0 is UP" := by
  decide

/-- Claim C10, amended.  For every store content and every observation (ring id, interface
name, state text), the only request `_update_attr_iface` can send is the update of
`ATTR_NAME_FORMAT` of the ring id to `ATTR_VALUE_FORMAT` of the name and the text, a function
of the observation only; and unless the store refuses the first request and accepts the
second, applying the observation twice leaves the same store content as applying it once. -/
theorem C10_idempotent_update (iface_no : Nat) (interface_name state : String) (w : World) :
    ((_update_attr_iface iface_no interface_name state MAX_LENGTH w).2.trace = w.trace ∨
     (_update_attr_iface iface_no interface_name state MAX_LENGTH w).2.trace
       = w.trace ++ [Call.attrd_update_delegate 'U' (ATTR_NAME_FORMAT iface_no)
                      (some (ATTR_VALUE_FORMAT interface_name state))]) ∧
    ((w.ans_attrd 0 ≠ pcmk_ok → w.ans_attrd 1 ≠ pcmk_ok) →
      (_update_attr_iface iface_no interface_name state MAX_LENGTH
        (_update_attr_iface iface_no interface_name state MAX_LENGTH w).2).2.attrs
      = (_update_attr_iface iface_no interface_name state MAX_LENGTH w).2.attrs) := by
  by_cases hfit : (ATTR_VALUE_FORMAT interface_name state).length < MAX_LENGTH
  · constructor
    · right
      rw [update_attr_iface_fits iface_no interface_name state w hfit]
      rfl
    · intro h
      rw [update_attr_iface_fits iface_no interface_name state _ hfit,
        update_attr_iface_fits iface_no interface_name state w hfit]
      by_cases h0 : w.ans_attrd 0 = pcmk_ok
      · by_cases h1 : w.ans_attrd 1 = pcmk_ok
        · funext n
          simp only [attrd_update_delegate, later, h0, h1, if_true]
          by_cases hn : n = ATTR_NAME_FORMAT iface_no
          · simp [hn]
          · simp [hn]
        · simp [attrd_update_delegate, later, h0, h1]
      · have h1 := h h0
        simp [attrd_update_delegate, later, h0, h1]
  · constructor
    · left
      rw [update_attr_iface_too_long iface_no interface_name state w hfit]
    · intro _
      rw [update_attr_iface_too_long iface_no interface_name state w hfit,
        update_attr_iface_too_long iface_no interface_name state w hfit]

/-- Claim C10, amended, on the store holding the three attributes of `three_rings`, with a
store that accepts every request: applying (ring 1, `eth1`, `UP`) twice gives the same content
as applying it once. -/
theorem C10_idempotent_update_witness :
    (_update_attr_iface 1 "eth1" "UP" MAX_LENGTH
        (_update_attr_iface 1 "eth1" "UP" MAX_LENGTH w_tracking_three).2).2.attrs
      = (_update_attr_iface 1 "eth1" "UP" MAX_LENGTH w_tracking_three).2.attrs :=
  (C10_idempotent_update 1 "eth1" "UP" w_tracking_three).2 (fun h => absurd rfl h)

/-! ## Making and scanning keys -/

theorem toString_nat_inj (n m : Nat) (h : toString n = toString m) : n = m := by
  have hd : Nat.toDigits 10 n = Nat.toDigits 10 m := by
    have := congrArg String.data h
    exact this
  have hn := (toDigits_spec n).2.2
  have hm := (toDigits_spec m).2.2
  rw [hd] at hn
  rw [← hn, hm]

theorem ATTR_NAME_FORMAT_inj (n m : Nat) (hn : n < UINT_RANGE) (hm : m < UINT_RANGE)
    (h : ATTR_NAME_FORMAT n = ATTR_NAME_FORMAT m) : n = m := by
  unfold ATTR_NAME_FORMAT at h
  rw [fmt_u_eq n hn, fmt_u_eq m hm] at h
  have hd := congrArg String.data h
  rw [String.data_append, String.data_append] at hd
  have hd2 := List.append_cancel_left hd
  exact toString_nat_inj n m (String.ext hd2)

theorem FAULTY_KEY_MAKE_FORMAT_inj (n m : Nat) (hn : n < UINT_RANGE) (hm : m < UINT_RANGE)
    (h : FAULTY_KEY_MAKE_FORMAT n = FAULTY_KEY_MAKE_FORMAT m) : n = m := by
  have h1 := (sscanf_FAULTY_KEY_made n).2.1
  have h2 := (sscanf_FAULTY_KEY_made m).2.1
  rw [h, h2, Nat.mod_eq_of_lt hn, Nat.mod_eq_of_lt hm] at h1
  exact h1.symm

/-- Claim C16.  For every 32-bit unsigned ring id `n`, the key made with
`FAULTY_KEY_MAKE_FORMAT` is `runtime.totem.pg.mrp.rrp.<n>.faulty`; it is shorter than 255
characters, so the test after `snprintf` passes (the branch "Failed to copy string" is not
taken) and the key buffer holds it whole; `FAULTY_KEY_SCAN_FORMAT` reads it as exactly two
fields, the ring id `n` and the text `faulty`, so the handler does not ignore it and, when
the re-read ends in `CS_OK`, sends the state of ring `n`; and a different ring id gives a
different key and a different attribute name `ringnumber_<n>`. -/
theorem C16_key_round_trip (n : Nat) (hn : n < UINT_RANGE) :
    FAULTY_KEY_MAKE_FORMAT n = "runtime.totem.pg.mrp.rrp." ++ toString n ++ ".faulty" ∧
    (FAULTY_KEY_MAKE_FORMAT n).length < 255 ∧
    len_ok (snprintf_len (FAULTY_KEY_MAKE_FORMAT n)) MAX_LENGTH = true ∧
    snprintf_buf CMAP_KEYNAME_MAXLEN (FAULTY_KEY_MAKE_FORMAT n) = FAULTY_KEY_MAKE_FORMAT n ∧
    (sscanf_FAULTY_KEY (FAULTY_KEY_MAKE_FORMAT n)).result = 2 ∧
    (sscanf_FAULTY_KEY (FAULTY_KEY_MAKE_FORMAT n)).field1 = n ∧
    (sscanf_FAULTY_KEY (FAULTY_KEY_MAKE_FORMAT n)).tmp_key = "faulty" ∧
    (∀ (c t : Nat) (event : cmap_track_event) (nv ov : cmap_notify_value) (w : World),
      (cmap_get_uint8_retry w.cmap_handle (FAULTY_KEY_MAKE_FORMAT n) CMAP_MAX_RETRIES w).1.1
        = cs_error_t.CS_OK →
      _cs_cmap_rrp_faulty_key_changed c t event (FAULTY_KEY_MAKE_FORMAT n) nv ov w
        = (_send_attr_iface n
            (state_of_faulty (cmap_get_uint8_retry w.cmap_handle (FAULTY_KEY_MAKE_FORMAT n)
              CMAP_MAX_RETRIES w).1.2)
            MAX_LENGTH
            (cmap_get_uint8_retry w.cmap_handle (FAULTY_KEY_MAKE_FORMAT n)
              CMAP_MAX_RETRIES w).2).2) ∧
    ATTR_NAME_FORMAT n = "ringnumber_" ++ toString n ∧
    (∀ m, m < UINT_RANGE → m ≠ n →
      FAULTY_KEY_MAKE_FORMAT m ≠ FAULTY_KEY_MAKE_FORMAT n ∧
      ATTR_NAME_FORMAT m ≠ ATTR_NAME_FORMAT n) := by
  obtain ⟨p1, p2, p3⟩ := sscanf_FAULTY_KEY_made n
  have hlen := FAULTY_KEY_MAKE_FORMAT_length n
  refine ⟨?_, hlen, (len_ok_iff _ _ MAX_LENGTH_le).mpr hlen, snprintf_buf_eq _ _ hlen, p1,
    by rw [p2, Nat.mod_eq_of_lt hn], p3, ?_, ?_, ?_⟩
  · unfold FAULTY_KEY_MAKE_FORMAT FAULTY_TRACE_KEY
    rw [fmt_u_eq n hn]
  · intro c t event nv ov w hok
    have h := faulty_handler_unfold c t event (FAULTY_KEY_MAKE_FORMAT n) nv ov w p1 p3 hok
    rw [p2, Nat.mod_eq_of_lt hn] at h
    exact h
  · unfold ATTR_NAME_FORMAT
    rw [fmt_u_eq n hn]
  · intro m hm hne
    exact ⟨fun h => hne (FAULTY_KEY_MAKE_FORMAT_inj m n hm hn h),
      fun h => hne (ATTR_NAME_FORMAT_inj m n hm hn h)⟩

/-- Claim C16 at the largest ring id, 4294967295: the key has 42 characters and is read back
as ring 4294967295 with the text `faulty`; ring 7 has another key and another name. -/
theorem C16_key_round_trip_witness :
    FAULTY_KEY_MAKE_FORMAT 4294967295 = "runtime.totem.pg.mrp.rrp.4294967295.faulty" ∧
    (sscanf_FAULTY_KEY (FAULTY_KEY_MAKE_FORMAT 4294967295)).field1 = 4294967295 ∧
    (sscanf_FAULTY_KEY (FAULTY_KEY_MAKE_FORMAT 4294967295)).tmp_key = "faulty" ∧
    ATTR_NAME_FORMAT 7 ≠ ATTR_NAME_FORMAT 4294967295 :=
  ⟨by decide,
   (C16_key_round_trip 4294967295 (by decide)).2.2.2.2.2.1,
   (C16_key_round_trip 4294967295 (by decide)).2.2.2.2.2.2.1,
   ((C16_key_round_trip 4294967295 (by decide)).2.2.2.2.2.2.2.2.2 7 (by decide)
      (by decide)).2⟩

/-! ## Arming the timer -/

/-- With the timer armed the peer-connection handler returns the world it was given, whatever
the notification. -/
theorem connections_handler_armed (c t : Nat) (event : cmap_track_event) (key_name : String)
    (nv ov : cmap_notify_value) (w : World) (h : w.w_timer.timer_id ≠ 0) :
    _cs_cmap_connections_key_changed c t event key_name nv ov w = w := by
  unfold _cs_cmap_connections_key_changed
  simp only [h, if_false]
  split
  · rfl
  · split
    · rfl
    · split
      · rfl
      · split
        · split <;> rfl
        · rfl

/-- Claim C14.  Arming is idempotent and duplicate departure signals are ignored:
`ifcheckd_init` called while the timer is armed returns the world unchanged (same timer id,
same other fields, no call to GLib, hence no second timer), and a peer-connection
notification received while the timer is armed, the departure of Pacemaker included, returns
the world unchanged (no store or channel call); when the timer is not armed `ifcheckd_init`
makes exactly one call `g_timeout_add_seconds`, stores its id, which is not 0, and changes
nothing else; calling it again changes nothing. -/
theorem C14_arming_idempotent (w : World) :
    (w.w_timer.timer_id ≠ 0 → ifcheckd_init w = w) ∧
    (w.w_timer.timer_id ≠ 0 →
      ∀ (c t : Nat) (event : cmap_track_event) (key_name : String)
        (nv ov : cmap_notify_value),
        _cs_cmap_connections_key_changed c t event key_name nv ov w = w) ∧
    (w.w_timer.timer_id = 0 →
      (ifcheckd_init w).trace = w.trace ++ [Call.g_timeout_add_seconds w.w_timer.seconds] ∧
      (ifcheckd_init w).w_timer.timer_id = w.ans_timeout_add 0 + 1 ∧
      (ifcheckd_init w).w_timer.timer_id ≠ 0 ∧
      (ifcheckd_init w).w_timer.seconds = w.w_timer.seconds ∧
      (ifcheckd_init w).cmap_handle = w.cmap_handle ∧
      (ifcheckd_init w).cmap_source = w.cmap_source ∧
      (ifcheckd_init w).attrs = w.attrs) ∧
    ifcheckd_init (ifcheckd_init w) = ifcheckd_init w := by
  refine ⟨?_, ?_, ?_, ?_⟩
  · intro h
    unfold ifcheckd_init
    simp [h]
  · intro h c t event key_name nv ov
    exact connections_handler_armed c t event key_name nv ov w h
  · intro h
    unfold ifcheckd_init
    simp [h, g_timeout_add_seconds]
  · have h := (ifcheckd_init_armed w).1
    generalize ifcheckd_init w = v at h
    unfold ifcheckd_init
    simp [h]

/-- Claim C14 on a process just started (timer armed with id 1): a second `ifcheckd_init`
and the departure of Pacemaker both leave the world as it is; on a fresh world the first
`ifcheckd_init` makes one call to GLib. -/
theorem C14_arming_idempotent_witness :
    ifcheckd_init w_started = w_started ∧
    _cs_cmap_connections_key_changed 1 2 cmap_track_event.CMAP_TRACK_DELETE
      "runtime.connections.7.name" no_value pacemakerd_name w_started = w_started ∧
    (ifcheckd_init w_three_rings).trace = [Call.g_timeout_add_seconds 1] :=
  ⟨(C14_arming_idempotent w_started).1 (by decide),
   (C14_arming_idempotent w_started).2.1 (by decide) 1 2 cmap_track_event.CMAP_TRACK_DELETE
     "runtime.connections.7.name" no_value pacemakerd_name,
   ((C14_arming_idempotent w_three_rings).2.2.1 rfl).1⟩

/-! ## What the program leaves untouched -/

theorem delete_calls_append (a b : List Call) :
    delete_calls (a ++ b) = delete_calls a ++ delete_calls b := by
  simp [delete_calls]

theorem delete_calls_retry_calls (handle : Nat) (key : String) (k : Nat) :
    delete_calls (retry_calls handle key k) = [] := by
  induction k with
  | zero => simp [retry_calls, delete_calls]
  | succ k ih =>
    have h : retry_calls handle key (k + 1)
        = [Call.cmap_get_uint8 handle key, Call.sleep 1] ++ retry_calls handle key k := rfl
    rw [h, delete_calls_append, ih]
    simp [delete_calls]

theorem untouched_refl (w : World) : untouched w w := ⟨rfl, rfl, rfl, rfl⟩

theorem untouched_trans (a b c : World) (h1 : untouched a b) (h2 : untouched b c) :
    untouched a c :=
  ⟨h2.1.trans h1.1, h2.2.1.trans h1.2.1, h2.2.2.1.trans h1.2.2.1, h2.2.2.2.trans h1.2.2.2⟩

/-- A call that only logs something other than a store request, and consumes answers. -/
theorem untouched_of_fields (w w1 : World) (calls : List Call)
    (h1 : w1.cmap_handle = w.cmap_handle) (h2 : w1.cmap_source = w.cmap_source)
    (h3 : w1.w_timer = w.w_timer) (h4 : w1.trace = w.trace ++ calls)
    (h5 : delete_calls calls = []) : untouched w w1 := by
  refine ⟨h1, h2, h3, ?_⟩
  rw [h4, delete_calls_append, h5, List.append_nil]

theorem untouched_snd (w v : World) (b : Bool) (p : Bool × World) (hp : p = (b, v))
    (h : untouched w v) : untouched w p.2 := by
  subst hp
  exact h

theorem untouched_retry (handle : Nat) (key : String) (left : Nat) (w : World) :
    untouched w (cmap_get_uint8_retry handle key left w).2 := by
  obtain ⟨k, -, -, -, heq⟩ := retry_total handle key left w
  rw [heq]
  exact untouched_of_fields w _ (retry_calls handle key k) rfl rfl rfl rfl
    (delete_calls_retry_calls handle key k)

theorem untouched_update (i : Nat) (name state : String) (size : Nat) (w : World) :
    untouched w (_update_attr_iface i name state size w).2 := by
  have hu : untouched w (attrd_update_delegate 'U' (ATTR_NAME_FORMAT i)
      (some (ATTR_VALUE_FORMAT name state)) w).2 :=
    untouched_of_fields w _
      [Call.attrd_update_delegate 'U' (ATTR_NAME_FORMAT i)
        (some (ATTR_VALUE_FORMAT name state))] rfl rfl rfl rfl (by simp [delete_calls])
  by_cases h1 : len_ok (snprintf_len (ATTR_NAME_FORMAT i)) size = false
  · have h : _update_attr_iface i name state size w = (false, w) := by
      unfold _update_attr_iface
      simp [h1]
    rw [h]
    exact untouched_refl w
  · by_cases h2 : len_ok (snprintf_len (ATTR_VALUE_FORMAT name state)) size = false
    · have h : _update_attr_iface i name state size w = (false, w) := by
        unfold _update_attr_iface
        simp [h1, h2]
      rw [h]
      exact untouched_refl w
    · have h : _update_attr_iface i name state size w
          = (decide (w.ans_attrd 0 = pcmk_ok),
             (attrd_update_delegate 'U' (ATTR_NAME_FORMAT i)
              (some (ATTR_VALUE_FORMAT name state)) w).2) := by
        unfold _update_attr_iface
        simp only [h1, h2, if_false]
        by_cases hrc : w.ans_attrd 0 = pcmk_ok
        · simp [attrd_update_delegate, hrc]
        · simp [attrd_update_delegate, hrc]
      rw [h]
      exact hu

/-- The four ways one round of the loop of `_attr_iface_init` can end. -/
theorem init_loop_cases (handle2 size : Nat) (ring : String × String)
    (rest : List (String × String)) (i : Nat) (w : World) :
    _attr_iface_init_loop handle2 size (ring :: rest) i w = (false, w) ∨
    _attr_iface_init_loop handle2 size (ring :: rest) i w
      = (false, (cmap_get_uint8_retry handle2
          (snprintf_buf CMAP_KEYNAME_MAXLEN (FAULTY_KEY_MAKE_FORMAT i))
          CMAP_MAX_RETRIES w).2) ∨
    _attr_iface_init_loop handle2 size (ring :: rest) i w
      = (false, (_update_attr_iface i ring.1
          (state_of_faulty (cmap_get_uint8_retry handle2
            (snprintf_buf CMAP_KEYNAME_MAXLEN (FAULTY_KEY_MAKE_FORMAT i))
            CMAP_MAX_RETRIES w).1.2)
          size
          (cmap_get_uint8_retry handle2
            (snprintf_buf CMAP_KEYNAME_MAXLEN (FAULTY_KEY_MAKE_FORMAT i))
            CMAP_MAX_RETRIES w).2).2) ∨
    _attr_iface_init_loop handle2 size (ring :: rest) i w
      = _attr_iface_init_loop handle2 size rest (i + 1)
          (_update_attr_iface i ring.1
            (state_of_faulty (cmap_get_uint8_retry handle2
              (snprintf_buf CMAP_KEYNAME_MAXLEN (FAULTY_KEY_MAKE_FORMAT i))
              CMAP_MAX_RETRIES w).1.2)
            size
            (cmap_get_uint8_retry handle2
              (snprintf_buf CMAP_KEYNAME_MAXLEN (FAULTY_KEY_MAKE_FORMAT i))
              CMAP_MAX_RETRIES w).2).2 := by
  rw [_attr_iface_init_loop]
  by_cases c1 : len_ok (snprintf_len (FAULTY_KEY_MAKE_FORMAT i)) size = false
  · left
    simp only [c1, if_true]
  · by_cases c2 : (cmap_get_uint8_retry handle2
        (snprintf_buf CMAP_KEYNAME_MAXLEN (FAULTY_KEY_MAKE_FORMAT i))
        CMAP_MAX_RETRIES w).1.1 = cs_error_t.CS_OK
    · by_cases c3 : len_ok (snprintf_len (state_of_faulty (cmap_get_uint8_retry handle2
          (snprintf_buf CMAP_KEYNAME_MAXLEN (FAULTY_KEY_MAKE_FORMAT i))
          CMAP_MAX_RETRIES w).1.2)) size = false
      · right; left
        simp only [c1, c2, c3, Bool.true_eq_false, if_false, if_true, ne_eq,
          not_true_eq_false]
      · by_cases c4 : (_update_attr_iface i ring.1
            (state_of_faulty (cmap_get_uint8_retry handle2
              (snprintf_buf CMAP_KEYNAME_MAXLEN (FAULTY_KEY_MAKE_FORMAT i))
              CMAP_MAX_RETRIES w).1.2)
            size
            (cmap_get_uint8_retry handle2
              (snprintf_buf CMAP_KEYNAME_MAXLEN (FAULTY_KEY_MAKE_FORMAT i))
              CMAP_MAX_RETRIES w).2).1 = false
        · right; right; left
          simp only [c1, c2, c3, c4, Bool.true_eq_false, if_false, if_true, ne_eq,
            not_true_eq_false]
        · right; right; right
          simp only [c1, c2, c3, c4, Bool.true_eq_false, if_false, if_true, ne_eq,
            not_true_eq_false]
    · right; left
      simp only [c1, c2, Bool.true_eq_false, if_false, if_true, ne_eq,
        not_false_eq_true]

theorem untouched_init_loop (handle2 size : Nat) :
    ∀ (rings : List (String × String)) (i : Nat) (w : World),
      untouched w (_attr_iface_init_loop handle2 size rings i w).2 := by
  intro rings
  induction rings with
  | nil => intro i w; exact untouched_refl w
  | cons ring rest ih =>
    intro i w
    have hr := untouched_retry handle2 (snprintf_buf CMAP_KEYNAME_MAXLEN
      (FAULTY_KEY_MAKE_FORMAT i)) CMAP_MAX_RETRIES w
    have hu := untouched_update i ring.1
      (state_of_faulty (cmap_get_uint8_retry handle2
        (snprintf_buf CMAP_KEYNAME_MAXLEN (FAULTY_KEY_MAKE_FORMAT i)) CMAP_MAX_RETRIES w).1.2)
      size
      (cmap_get_uint8_retry handle2
        (snprintf_buf CMAP_KEYNAME_MAXLEN (FAULTY_KEY_MAKE_FORMAT i)) CMAP_MAX_RETRIES w).2
    have hru := untouched_trans _ _ _ hr hu
    have hcases := init_loop_cases handle2 size ring rest i w
    rcases hcases with h | h | h | h
    · exact untouched_snd _ _ _ _ h (untouched_refl w)
    · exact untouched_snd _ _ _ _ h hr
    · exact untouched_snd _ _ _ _ h hru
    · rw [h]; exact untouched_trans _ _ _ hru (ih (i + 1) _)

theorem untouched_ring_status_free (b : Bool) (v : World) :
    untouched v (_corosync_cfg_ring_status_free b v) := by
  cases b
  · exact ⟨rfl, rfl, rfl, rfl⟩
  · exact untouched_refl v

theorem untouched_attr_iface_init (w : World) : untouched w (_attr_iface_init w).2 := by
  unfold _attr_iface_init
  dsimp only
  split
  · exact untouched_of_fields w _ [Call.cfg_init] rfl rfl rfl rfl (by decide)
  · have h2 : untouched w ( cmap_initialize ( corosync_cfg_initialize w).2).2 :=
      untouched_of_fields w _ [Call.cfg_init, Call.cmap_init] rfl rfl rfl
        (by simp [ cmap_initialize, corosync_cfg_initialize]) (by decide)
    split
    · exact untouched_trans _ _ _ h2
        (untouched_of_fields _ _ [Call.cfg_finalize] rfl rfl rfl rfl (by decide))
    · have h3 : untouched w (corosync_cfg_ring_status_get
          ( cmap_initialize ( corosync_cfg_initialize w).2).2).2 :=
        untouched_trans _ _ _ h2
          (untouched_of_fields _ _ [Call.ring_status_get] rfl rfl rfl rfl (by decide))
      have hfin : ∀ (b : Bool) (v : World), untouched v
          (cmap_finalize (( cmap_initialize ( corosync_cfg_initialize w).2).1.2)
            (corosync_cfg_finalize (_corosync_cfg_ring_status_free b v))) := fun b v =>
        untouched_trans _ _ _ (untouched_ring_status_free b v)
          (untouched_of_fields _ _
            [Call.cfg_finalize,
             Call.cmap_finalize (( cmap_initialize ( corosync_cfg_initialize w).2).1.2)]
            rfl rfl rfl (by simp [cmap_finalize, corosync_cfg_finalize])
            (by simp [delete_calls]))
      split
      · exact untouched_trans _ _ _ h3 (hfin _ _)
      · exact untouched_trans _ _ _
          (untouched_trans _ _ _ h3 (untouched_init_loop _ _ _ _ _)) (hfin _ _)

/-! ## Staying where the sources determine the behaviour -/

theorem calm_refl (w : World) : calm w w := ⟨rfl, rfl⟩

theorem calm_trans (a b c : World) (h1 : calm a b) (h2 : calm b c) : calm a c :=
  ⟨h2.1.trans h1.1, h2.2.trans h1.2⟩

theorem calm_snd (w v : World) (b : Bool) (p : Bool × World) (hp : p = (b, v))
    (h : calm w v) : calm w p.2 := by
  subst hp
  exact h

theorem calm_retry (handle : Nat) (key : String) (left : Nat) (w : World) :
    calm w (cmap_get_uint8_retry handle key left w).2 := by
  obtain ⟨k, -, -, -, heq⟩ := retry_total handle key left w
  rw [heq]
  exact ⟨rfl, rfl⟩

/-- The two ways `_update_attr_iface` can end: nothing sent, or one request sent. -/
theorem update_attr_iface_cases (i : Nat) (name state : String) (size : Nat) (w : World) :
    _update_attr_iface i name state size w = (false, w) ∨
    _update_attr_iface i name state size w
      = (decide (w.ans_attrd 0 = pcmk_ok),
         (attrd_update_delegate 'U' (ATTR_NAME_FORMAT i)
          (some (ATTR_VALUE_FORMAT name state)) w).2) := by
  by_cases h1 : len_ok (snprintf_len (ATTR_NAME_FORMAT i)) size = false
  · left
    unfold _update_attr_iface
    simp [h1]
  · by_cases h2 : len_ok (snprintf_len (ATTR_VALUE_FORMAT name state)) size = false
    · left
      unfold _update_attr_iface
      simp [h1, h2]
    · right
      unfold _update_attr_iface
      simp only [h1, h2, if_false]
      by_cases hrc : w.ans_attrd 0 = pcmk_ok
      · simp [attrd_update_delegate, hrc]
      · simp [attrd_update_delegate, hrc]

theorem calm_update (i : Nat) (name state : String) (size : Nat) (w : World) :
    calm w (_update_attr_iface i name state size w).2 := by
  rcases update_attr_iface_cases i name state size w with h | h
  · exact calm_snd _ _ _ _ h (calm_refl w)
  · exact calm_snd _ _ _ _ h ⟨rfl, rfl⟩

theorem calm_init_loop (handle2 size : Nat) :
    ∀ (rings : List (String × String)) (i : Nat) (w : World),
      calm w (_attr_iface_init_loop handle2 size rings i w).2 := by
  intro rings
  induction rings with
  | nil => intro i w; exact calm_refl w
  | cons ring rest ih =>
    intro i w
    have hr := calm_retry handle2 (snprintf_buf CMAP_KEYNAME_MAXLEN
      (FAULTY_KEY_MAKE_FORMAT i)) CMAP_MAX_RETRIES w
    have hu := calm_update i ring.1
      (state_of_faulty (cmap_get_uint8_retry handle2
        (snprintf_buf CMAP_KEYNAME_MAXLEN (FAULTY_KEY_MAKE_FORMAT i)) CMAP_MAX_RETRIES w).1.2)
      size
      (cmap_get_uint8_retry handle2
        (snprintf_buf CMAP_KEYNAME_MAXLEN (FAULTY_KEY_MAKE_FORMAT i)) CMAP_MAX_RETRIES w).2
    have hru := calm_trans _ _ _ hr hu
    rcases init_loop_cases handle2 size ring rest i w with h | h | h | h
    · exact calm_snd _ _ _ _ h (calm_refl w)
    · exact calm_snd _ _ _ _ h hr
    · exact calm_snd _ _ _ _ h hru
    · rw [h]; exact calm_trans _ _ _ hru (ih (i + 1) _)

theorem never_unassigned_later (w v : World) (h : never_unassigned w)
    (hs : v.ans_ring_status_get = w.ans_ring_status_get ∨
      v.ans_ring_status_get = later w.ans_ring_status_get) : never_unassigned v := by
  intro k
  rcases hs with hs | hs
  · rw [hs]; exact h k
  · rw [hs]; exact h (k + 1)

theorem stays_defined_refl (w : World) : stays_defined w w := fun h => ⟨h, rfl⟩

theorem stays_defined_trans (a b c : World) (h1 : stays_defined a b)
    (h2 : stays_defined b c) : stays_defined a c := fun h =>
  ⟨(h2 (h1 h).1).1, (h2 (h1 h).1).2.trans (h1 h).2⟩

theorem stays_defined_of_calm (w v : World) (h : calm w v) : stays_defined w v := fun hn =>
  ⟨never_unassigned_later w v hn (Or.inl h.2), h.1⟩

theorem stays_defined_snd (w v : World) (b : Bool) (p : Bool × World) (hp : p = (b, v))
    (h : stays_defined w v) : stays_defined w p.2 := by
  subst hp
  exact h

/-- As long as no snapshot read fails, `_attr_iface_init` frees only what was assigned. -/
theorem attr_iface_init_stays_defined (w : World) :
    stays_defined w (_attr_iface_init w).2 := by
  intro hn
  by_cases h1 : w.ans_cfg_init 0 = cs_error_t.CS_OK
  · by_cases h2 : (w.ans_cmap_init 0).1 = cs_error_t.CS_OK
    · have hsnap : w.ans_ring_status_get 0
          = (cs_error_t.CS_OK, (w.ans_ring_status_get 0).2) := Prod.ext (hn 0) rfl
      have e := attr_iface_init_opened w _ h1 h2 hsnap
      have hl := calm_init_loop ((w.ans_cmap_init 0).2 + 1) MAX_LENGTH
        (w.ans_ring_status_get 0).2 0
        (corosync_cfg_ring_status_get ( cmap_initialize ( corosync_cfg_initialize w).2).2).2
      refine stays_defined_snd w _ _ _ e ?_ hn
      intro _
      refine ⟨never_unassigned_later w _ hn (Or.inr ?_), ?_⟩
      · exact hl.2
      · exact hl.1
    · have e : _attr_iface_init w
          = (false, corosync_cfg_finalize ( cmap_initialize ( corosync_cfg_initialize w).2).2) := by
        unfold _attr_iface_init
        simp [ corosync_cfg_initialize, cmap_initialize, h1, h2]
      exact stays_defined_snd w _ _ _ e (stays_defined_of_calm _ _ ⟨rfl, rfl⟩) hn
  · have e : _attr_iface_init w = (false, ( corosync_cfg_initialize w).2) := by
      unfold _attr_iface_init
      simp [ corosync_cfg_initialize, h1]
    exact stays_defined_snd w _ _ _ e (stays_defined_of_calm _ _ ⟨rfl, rfl⟩) hn

/-- As long as no snapshot read fails, `_attr_iface_finalize` frees only what was
assigned. -/
theorem attr_iface_finalize_stays_defined (w : World) :
    stays_defined w (_attr_iface_finalize w).2 := by
  intro hn
  refine ⟨?_, attr_iface_finalize_defined w (fun _ => hn 0)⟩
  apply never_unassigned_later w _ hn
  unfold _attr_iface_finalize
  by_cases hcfg : w.ans_cfg_init 0 = cs_error_t.CS_OK
  · right
    have hsnap := hn 0
    simp only [ corosync_cfg_initialize, hcfg, corosync_cfg_ring_status_get, hsnap, ne_eq,
      not_true_eq_false, if_false, corosync_cfg_finalize, _corosync_cfg_ring_status_free,
      decide_True, if_true]
    exact (finalize_loop_calm _ _ _).2
  · left
    simp [ corosync_cfg_initialize, hcfg]

theorem ifcheckd_finalize_stays_defined (w : World) :
    stays_defined w (ifcheckd_finalize w) := by
  intro hn
  obtain ⟨a1, a2⟩ := attr_iface_finalize_stays_defined w hn
  exact ⟨a1, a2⟩

theorem ifcheckd_init_calm (w : World) : calm w (ifcheckd_init w) := by
  unfold ifcheckd_init
  split
  · exact calm_refl w
  · exact ⟨rfl, rfl⟩

theorem cs_cmap_destroy_stays_defined (w : World) :
    stays_defined w (_cs_cmap_destroy w) := by
  unfold _cs_cmap_destroy
  exact stays_defined_trans _ _ _ (ifcheckd_finalize_stays_defined w)
    (stays_defined_of_calm _ _ (ifcheckd_init_calm _))

/-! ## Connecting the channel -/

/-- The callback `_cs_cmap_destroy` leaves an armed timer as it is. -/
theorem cs_cmap_destroy_armed (v : World) (h : v.w_timer.timer_id ≠ 0) :
    (_cs_cmap_destroy v).w_timer = v.w_timer := by
  obtain ⟨-, -, f3, -⟩ := attr_iface_finalize_frame v
  have hf : (ifcheckd_finalize v).w_timer = v.w_timer := by
    simp only [ifcheckd_finalize, cmap_finalize]
    exact f3
  have hi : ifcheckd_init (ifcheckd_finalize v) = ifcheckd_finalize v := by
    unfold ifcheckd_init
    rw [if_pos (by rw [hf]; exact h)]
  unfold _cs_cmap_destroy
  rw [hi, hf]

/-- Function `_cs_cmap_init` answers TRUE exactly when `cmap_initialize`, `cmap_fd_get`,
`mainloop_add_fd` and both `cmap_track_add` succeed; it then holds the new handle.  When it
answers FALSE the handle is 0, or what the library left in it if `cmap_initialize` itself
failed.  It leaves an armed timer as it is.  Unless a subscription fails and the main loop runs the destroy callback
inside `mainloop_del_fd`, it touches neither the timer record nor the store. -/
theorem cs_cmap_init_spec (w : World) :
    ((_cs_cmap_init w).1 = true ↔
      ((w.ans_cmap_init 0).1 = cs_error_t.CS_OK ∧
       (w.ans_cmap_fd_get 0).1 = cs_error_t.CS_OK ∧
       w.ans_mainloop_add_fd 0 ≠ none ∧
       w.ans_cmap_track_add 0 = cs_error_t.CS_OK ∧
       w.ans_cmap_track_add 1 = cs_error_t.CS_OK)) ∧
    ((_cs_cmap_init w).1 = true →
      (_cs_cmap_init w).2.cmap_handle = (w.ans_cmap_init 0).2 + 1) ∧
    ((_cs_cmap_init w).1 = false →
      (_cs_cmap_init w).2.cmap_handle = 0 ∨
      ((w.ans_cmap_init 0).1 ≠ cs_error_t.CS_OK ∧
       (_cs_cmap_init w).2.cmap_handle = (w.ans_cmap_init 0).2)) ∧
    (w.w_timer.timer_id ≠ 0 → (_cs_cmap_init w).2.w_timer = w.w_timer) ∧
    (((w.ans_cmap_init 0).1 ≠ cs_error_t.CS_OK ∨
      (w.ans_cmap_fd_get 0).1 ≠ cs_error_t.CS_OK ∨
      w.ans_mainloop_add_fd 0 = none ∨
      w.ans_mainloop_del_fd 0 = false) →
      (_cs_cmap_init w).2.w_timer = w.w_timer ∧
      (_cs_cmap_init w).2.attrs = w.attrs ∧
      store_calls (_cs_cmap_init w).2.trace = store_calls w.trace ∧
      (_cs_cmap_init w).2.undefined = w.undefined) := by
  unfold _cs_cmap_init
  by_cases h1 : (w.ans_cmap_init 0).1 = cs_error_t.CS_OK
  · by_cases h2 : (w.ans_cmap_fd_get 0).1 = cs_error_t.CS_OK
    · by_cases h3 : w.ans_mainloop_add_fd 0 = none
      · simp [ cmap_initialize, cmap_fd_get, mainloop_add_fd, cmap_finalize, h1, h2, h3,
          store_calls]
      · by_cases h4 : w.ans_cmap_track_add 0 = cs_error_t.CS_OK
        · by_cases h5 : w.ans_cmap_track_add 1 = cs_error_t.CS_OK
          · simp [ cmap_initialize, cmap_fd_get, mainloop_add_fd, cmap_track_add,
              cmap_finalize, later, h1, h2, h3, h4, h5, store_calls]
          · by_cases h6 : w.ans_mainloop_del_fd 0 = true
            · simp only [ cmap_initialize, cmap_fd_get, mainloop_add_fd, cmap_track_add,
                cmap_finalize, mainloop_del_fd, later, h1, h2, h3, h4, h5, h6, ne_eq,
                not_true_eq_false, not_false_eq_true, if_true, if_false]
              refine ⟨by simp, by simp, by simp, ?_, by simp⟩
              intro ht
              exact cs_cmap_destroy_armed _ ht
            · simp [ cmap_initialize, cmap_fd_get, mainloop_add_fd, cmap_track_add,
                cmap_finalize, mainloop_del_fd, later, h1, h2, h3, h4, h5, h6, store_calls]
        · by_cases h6 : w.ans_mainloop_del_fd 0 = true
          · simp only [ cmap_initialize, cmap_fd_get, mainloop_add_fd, cmap_track_add,
              cmap_finalize, mainloop_del_fd, later, h1, h2, h3, h4, h6, ne_eq,
              not_true_eq_false, not_false_eq_true, if_true, if_false]
            refine ⟨by simp, by simp, by simp, ?_, by simp⟩
            intro ht
            exact cs_cmap_destroy_armed _ ht
          · simp [ cmap_initialize, cmap_fd_get, mainloop_add_fd, cmap_track_add,
              cmap_finalize, mainloop_del_fd, later, h1, h2, h3, h4, h6, store_calls]
    · simp [ cmap_initialize, cmap_fd_get, cmap_finalize, h1, h2, store_calls]
  · simp [ cmap_initialize, h1, store_calls]

/-- As long as no snapshot read fails, `_cs_cmap_init` frees only what was assigned, also
when the main loop runs `_cs_cmap_destroy` inside `mainloop_del_fd`. -/
theorem cs_cmap_init_stays_defined (w : World) :
    stays_defined w (_cs_cmap_init w).2 := by
  unfold _cs_cmap_init
  by_cases h1 : (w.ans_cmap_init 0).1 = cs_error_t.CS_OK
  · by_cases h2 : (w.ans_cmap_fd_get 0).1 = cs_error_t.CS_OK
    · by_cases h3 : w.ans_mainloop_add_fd 0 = none
      · simp [ cmap_initialize, cmap_fd_get, mainloop_add_fd, cmap_finalize, h1, h2, h3,
          stays_defined, never_unassigned]
      · by_cases h4 : w.ans_cmap_track_add 0 = cs_error_t.CS_OK
        · by_cases h5 : w.ans_cmap_track_add 1 = cs_error_t.CS_OK
          · simp [ cmap_initialize, cmap_fd_get, mainloop_add_fd, cmap_track_add,
              cmap_finalize, later, h1, h2, h3, h4, h5, stays_defined, never_unassigned]
          · by_cases h6 : w.ans_mainloop_del_fd 0 = true
            · simp only [ cmap_initialize, cmap_fd_get, mainloop_add_fd, cmap_track_add,
                cmap_finalize, mainloop_del_fd, later, h1, h2, h3, h4, h5, h6, ne_eq,
                not_true_eq_false, not_false_eq_true, if_true, if_false, stays_defined,
                never_unassigned]
              intro hn
              exact cs_cmap_destroy_stays_defined _ hn
            · simp [ cmap_initialize, cmap_fd_get, mainloop_add_fd, cmap_track_add,
                cmap_finalize, mainloop_del_fd, later, h1, h2, h3, h4, h5, h6, stays_defined,
                never_unassigned]
        · by_cases h6 : w.ans_mainloop_del_fd 0 = true
          · simp only [ cmap_initialize, cmap_fd_get, mainloop_add_fd, cmap_track_add,
              cmap_finalize, mainloop_del_fd, later, h1, h2, h3, h4, h6, ne_eq,
              not_true_eq_false, not_false_eq_true, if_true, if_false, stays_defined,
              never_unassigned]
            intro hn
            exact cs_cmap_destroy_stays_defined _ hn
          · simp [ cmap_initialize, cmap_fd_get, mainloop_add_fd, cmap_track_add,
              cmap_finalize, mainloop_del_fd, later, h1, h2, h3, h4, h6, stays_defined,
              never_unassigned]
    · simp [ cmap_initialize, cmap_fd_get, cmap_finalize, h1, h2, stays_defined,
        never_unassigned]
  · simp [ cmap_initialize, h1, stays_defined, never_unassigned]

/-! ## The timer callback -/

/-- When the snapshot reader cannot be opened (`corosync_cfg_initialize` or its own
`cmap_initialize` fails), `_attr_iface_init` answers FALSE at once, without a request to the
store and without a call on the channel of the engine. -/
theorem attr_iface_init_no_snapshot (w : World)
    (h : w.ans_cfg_init 0 ≠ cs_error_t.CS_OK ∨ (w.ans_cmap_init 0).1 ≠ cs_error_t.CS_OK) :
    (_attr_iface_init w).1 = false ∧
    store_calls (_attr_iface_init w).2.trace = store_calls w.trace ∧
    channel_calls (_attr_iface_init w).2.trace = channel_calls w.trace ∧
    (_attr_iface_init w).2.attrs = w.attrs ∧
    (_attr_iface_init w).2.undefined = w.undefined := by
  unfold _attr_iface_init
  by_cases h1 : w.ans_cfg_init 0 = cs_error_t.CS_OK
  · by_cases h2 : (w.ans_cmap_init 0).1 = cs_error_t.CS_OK
    · rcases h with h | h
      · exact absurd h1 h
      · exact absurd h2 h
    · simp [ corosync_cfg_initialize, cmap_initialize, corosync_cfg_finalize, h1, h2,
        store_calls, channel_calls]
  · simp [ corosync_cfg_initialize, h1, store_calls, channel_calls]

theorem regular_attr_init_push_failed (w : World) (ha : (_attr_iface_init w).1 = false) :
    _regular_attr_init w = (true, (_attr_iface_init w).2) := by
  unfold _regular_attr_init
  simp [ha]

theorem regular_attr_init_connected (w : World) (ha : (_attr_iface_init w).1 = true)
    (h0 : (_attr_iface_init w).2.cmap_handle = 0)
    (hc : (_cs_cmap_init (_attr_iface_init w).2).1 = true) :
    _regular_attr_init w
      = (false, { (_cs_cmap_init (_attr_iface_init w).2).2 with
                    w_timer := { (_cs_cmap_init (_attr_iface_init w).2).2.w_timer with
                                   timer_id := 0 } }) := by
  unfold _regular_attr_init
  simp [ha, h0, hc]

theorem regular_attr_init_connect_failed (w : World) (ha : (_attr_iface_init w).1 = true)
    (h0 : (_attr_iface_init w).2.cmap_handle = 0)
    (hc : (_cs_cmap_init (_attr_iface_init w).2).1 = false) :
    _regular_attr_init w = (true, (_cs_cmap_init (_attr_iface_init w).2).2) := by
  unfold _regular_attr_init
  simp [ha, h0, hc]

theorem regular_attr_init_handle_held (w : World) (ha : (_attr_iface_init w).1 = true)
    (h0 : (_attr_iface_init w).2.cmap_handle ≠ 0) :
    _regular_attr_init w
      = (false, { (_attr_iface_init w).2 with
                    w_timer := { (_attr_iface_init w).2.w_timer with timer_id := 0 } }) := by
  unfold _regular_attr_init
  simp [ha, h0]

/-- As long as no snapshot read fails, the timer callback frees only what was assigned. -/
theorem regular_attr_init_stays_defined (w : World) :
    stays_defined w (_regular_attr_init w).2 := by
  have hA := attr_iface_init_stays_defined w
  have hC := cs_cmap_init_stays_defined (_attr_iface_init w).2
  by_cases ha : (_attr_iface_init w).1 = false
  · exact stays_defined_snd w _ _ _ (regular_attr_init_push_failed w ha) hA
  · have ha1 : (_attr_iface_init w).1 = true := by
      cases hb : (_attr_iface_init w).1
      · exact absurd hb ha
      · rfl
    by_cases hh : (_attr_iface_init w).2.cmap_handle = 0
    · by_cases hc : (_cs_cmap_init (_attr_iface_init w).2).1 = true
      · exact stays_defined_snd w _ _ _ (regular_attr_init_connected w ha1 hh hc)
          (stays_defined_trans _ _ _ (stays_defined_trans _ _ _ hA hC)
            (stays_defined_of_calm _ _ ⟨rfl, rfl⟩))
      · have hc0 : (_cs_cmap_init (_attr_iface_init w).2).1 = false := by
          cases hb : (_cs_cmap_init (_attr_iface_init w).2).1
          · rfl
          · exact absurd hb hc
        exact stays_defined_snd w _ _ _ (regular_attr_init_connect_failed w ha1 hh hc0)
          (stays_defined_trans _ _ _ hA hC)
    · exact stays_defined_snd w _ _ _ (regular_attr_init_handle_held w ha1 hh)
        (stays_defined_trans _ _ _ hA (stays_defined_of_calm _ _ ⟨rfl, rfl⟩))

/-- The timer callback away from the unassigned free.  For a firing of the periodic timer
(the timer is armed: `w_timer.timer_id` is not 0) while Disconnected (`cmap_handle` = 0), in
a run where no `corosync_cfg_ring_status_get` fails (a failure sends the program to `out_free`
with locals never assigned, and nothing is stated about it), the callback
`_regular_attr_init` answers FALSE (GLib removes the timer) if and only if the
snapshot read and push succeeded (`_attr_iface_init` TRUE) and the connection succeeded
(`cmap_initialize`, `cmap_fd_get`, `mainloop_add_fd`) together with both prefix
subscriptions (`cmap_track_add`); it then sets `w_timer.timer_id` to 0 and holds a handle
(Tracking).  In every other case it answers TRUE and the timer record is unchanged, so the
timer stays armed for the next tick, and the handle is 0, provided that a failing
`cmap_initialize` left 0 in `cmap_handle` (the failure path of `_cs_cmap_init` does not reset
it).  If the snapshot reader cannot be opened it sends nothing to the store, makes no call on
the channel of the engine and does not run `_cs_cmap_init` at all.  Throughout, the program
frees only what was assigned. -/
theorem regular_attr_init_retry (w : World) (h0 : w.cmap_handle = 0)
    (ht : w.w_timer.timer_id ≠ 0) (hsafe : never_unassigned w) :
    ((_regular_attr_init w).1 = false ↔
      ((_attr_iface_init w).1 = true ∧
       ((_attr_iface_init w).2.ans_cmap_init 0).1 = cs_error_t.CS_OK ∧
       ((_attr_iface_init w).2.ans_cmap_fd_get 0).1 = cs_error_t.CS_OK ∧
       (_attr_iface_init w).2.ans_mainloop_add_fd 0 ≠ none ∧
       (_attr_iface_init w).2.ans_cmap_track_add 0 = cs_error_t.CS_OK ∧
       (_attr_iface_init w).2.ans_cmap_track_add 1 = cs_error_t.CS_OK)) ∧
    ((_regular_attr_init w).1 = false →
      (_regular_attr_init w).2.w_timer.timer_id = 0 ∧
      (_regular_attr_init w).2.cmap_handle ≠ 0) ∧
    ((_regular_attr_init w).1 = true →
      (_regular_attr_init w).2.w_timer = w.w_timer ∧
      ((((_attr_iface_init w).2.ans_cmap_init 0).1 ≠ cs_error_t.CS_OK →
          ((_attr_iface_init w).2.ans_cmap_init 0).2 = 0) →
        (_regular_attr_init w).2.cmap_handle = 0)) ∧
    ((w.ans_cfg_init 0 ≠ cs_error_t.CS_OK ∨ (w.ans_cmap_init 0).1 ≠ cs_error_t.CS_OK) →
      _regular_attr_init w = (true, (_attr_iface_init w).2) ∧
      store_calls (_regular_attr_init w).2.trace = store_calls w.trace ∧
      channel_calls (_regular_attr_init w).2.trace = channel_calls w.trace ∧
      (_regular_attr_init w).2.attrs = w.attrs ∧
      (_regular_attr_init w).2.cmap_handle = 0 ∧
      (_regular_attr_init w).2.w_timer = w.w_timer) ∧
    (_regular_attr_init w).2.undefined = w.undefined := by
  obtain ⟨u1, -, u3, -⟩ := untouched_attr_iface_init w
  have ha0 : (_attr_iface_init w).2.cmap_handle = 0 := by rw [u1, h0]
  have hta : (_attr_iface_init w).2.w_timer.timer_id ≠ 0 := by rw [u3]; exact ht
  obtain ⟨c1, c2, c3, c4, -⟩ := cs_cmap_init_spec (_attr_iface_init w).2
  have hdef := (regular_attr_init_stays_defined w hsafe).2
  have hfour : (w.ans_cfg_init 0 ≠ cs_error_t.CS_OK ∨
        (w.ans_cmap_init 0).1 ≠ cs_error_t.CS_OK) →
      _regular_attr_init w = (true, (_attr_iface_init w).2) ∧
      store_calls (_regular_attr_init w).2.trace = store_calls w.trace ∧
      channel_calls (_regular_attr_init w).2.trace = channel_calls w.trace ∧
      (_regular_attr_init w).2.attrs = w.attrs ∧
      (_regular_attr_init w).2.cmap_handle = 0 ∧
      (_regular_attr_init w).2.w_timer = w.w_timer := by
    intro h
    obtain ⟨n1, n2, n3, n4, -⟩ := attr_iface_init_no_snapshot w h
    have e := regular_attr_init_push_failed w n1
    rw [e]
    exact ⟨rfl, n2, n3, n4, ha0, u3⟩
  refine ⟨?_, ?_, ?_, hfour, hdef⟩
  · by_cases ha : (_attr_iface_init w).1 = false
    · rw [regular_attr_init_push_failed w ha]
      constructor
      · intro h; simp at h
      · intro h; rw [ha] at h; simp at h
    · have ha1 : (_attr_iface_init w).1 = true := by
        cases hb : (_attr_iface_init w).1
        · exact absurd hb ha
        · rfl
      by_cases hc : (_cs_cmap_init (_attr_iface_init w).2).1 = true
      · rw [regular_attr_init_connected w ha1 ha0 hc]
        constructor
        · intro _; exact ⟨ha1, c1.mp hc⟩
        · intro _; rfl
      · have hc0 : (_cs_cmap_init (_attr_iface_init w).2).1 = false := by
          cases hb : (_cs_cmap_init (_attr_iface_init w).2).1
          · rfl
          · exact absurd hb hc
        rw [regular_attr_init_connect_failed w ha1 ha0 hc0]
        constructor
        · intro h; simp at h
        · intro h; exact absurd (c1.mpr h.2) hc
  · by_cases ha : (_attr_iface_init w).1 = false
    · rw [regular_attr_init_push_failed w ha]
      intro h; simp at h
    · have ha1 : (_attr_iface_init w).1 = true := by
        cases hb : (_attr_iface_init w).1
        · exact absurd hb ha
        · rfl
      by_cases hc : (_cs_cmap_init (_attr_iface_init w).2).1 = true
      · rw [regular_attr_init_connected w ha1 ha0 hc]
        intro _
        refine ⟨rfl, ?_⟩
        show (_cs_cmap_init (_attr_iface_init w).2).2.cmap_handle ≠ 0
        rw [c2 hc]
        exact Nat.succ_ne_zero _
      · have hc0 : (_cs_cmap_init (_attr_iface_init w).2).1 = false := by
          cases hb : (_cs_cmap_init (_attr_iface_init w).2).1
          · rfl
          · exact absurd hb hc
        rw [regular_attr_init_connect_failed w ha1 ha0 hc0]
        intro h; simp at h
  · by_cases ha : (_attr_iface_init w).1 = false
    · rw [regular_attr_init_push_failed w ha]
      intro _
      exact ⟨u3, fun _ => ha0⟩
    · have ha1 : (_attr_iface_init w).1 = true := by
        cases hb : (_attr_iface_init w).1
        · exact absurd hb ha
        · rfl
      by_cases hc : (_cs_cmap_init (_attr_iface_init w).2).1 = true
      · rw [regular_attr_init_connected w ha1 ha0 hc]
        intro h; simp at h
      · have hc0 : (_cs_cmap_init (_attr_iface_init w).2).1 = false := by
          cases hb : (_cs_cmap_init (_attr_iface_init w).2).1
          · rfl
          · exact absurd hb hc
        rw [regular_attr_init_connect_failed w ha1 ha0 hc0]
        intro _
        refine ⟨(c4 hta).trans u3, ?_⟩
        intro hleft
        rcases c3 hc0 with h | h
        · exact h
        · exact h.2.trans (hleft h.1)

/-- Three firings of the timer in a process just started: with corosync
answering, the callback answers FALSE, clears the timer id and holds handle 1; with corosync
away it sends nothing to the store and leaves the timer armed; when the `cmap_initialize` of
the connection fails and leaves 0 in `cmap_handle`, the world is Disconnected with the timer
armed. -/
theorem regular_attr_init_retry_examples :
    ((_regular_attr_init w_started).2.w_timer.timer_id = 0 ∧
     (_regular_attr_init w_started).2.cmap_handle ≠ 0) ∧
    store_calls (_regular_attr_init w_started_down).2.trace = store_calls w_started_down.trace ∧
    ((_regular_attr_init w_connect_refused).1 = true ∧
     (_regular_attr_init w_connect_refused).2.w_timer = w_connect_refused.w_timer ∧
     (_regular_attr_init w_connect_refused).2.cmap_handle = 0) :=
  ⟨(regular_attr_init_retry w_started (by decide) (by decide) (fun _ => rfl)).2.1 (by decide),
   ((regular_attr_init_retry w_started_down (by decide) (by decide) (fun _ => rfl)).2.2.2.1
      (Or.inl (by decide))).2.1,
   by decide,
   ((regular_attr_init_retry w_connect_refused (by decide) (by decide) (fun _ => rfl)).2.2.1
      (by decide)).1,
   ((regular_attr_init_retry w_connect_refused (by decide) (by decide) (fun _ => rfl)).2.2.1
      (by decide)).2 (fun _ => by decide)⟩

/-- Claim C11 fails on the code by a slip.  The timer fires in a process just started
(Disconnected, timer armed, nothing freed so far); `corosync_cfg_initialize` and
`cmap_initialize` succeed and `corosync_cfg_ring_status_get` answers an error: the snapshot
read fails.  `_attr_iface_init` sets `rc = FALSE` and goes on to `out_free`, where it passes
the never-assigned `interface_count`, `interface_names` and `interface_status` to
`_corosync_cfg_ring_status_free`: from there on the sources do not determine what the process
does, so it is not established that the engine remains Disconnected with the timer armed. -/
theorem C11_unassigned_free :
    w_snapshot_refused.cmap_handle = 0 ∧
    w_snapshot_refused.w_timer.timer_id = 1 ∧
    w_snapshot_refused.undefined = false ∧
    w_snapshot_refused.ans_cfg_init 0 = cs_error_t.CS_OK ∧
    (w_snapshot_refused.ans_cmap_init 0).1 = cs_error_t.CS_OK ∧
    (w_snapshot_refused.ans_ring_status_get 0).1 ≠ cs_error_t.CS_OK ∧
    (_attr_iface_init w_snapshot_refused).1 = false ∧
    (_regular_attr_init w_snapshot_refused).2.trace
      = [Call.g_timeout_add_seconds 1, Call.cfg_init, Call.cmap_init, Call.ring_status_get,
         Call.cfg_finalize, Call.cmap_finalize 1] ∧
    (_regular_attr_init w_snapshot_refused).2.undefined = true := by
  decide

/-! ## A failed connection after the push -/

/-- What the model does when the main loop runs the destroy callback of the channel while
`mainloop_del_fd` removes the source (this is not determined by the sources): in a process
just started, the push publishes the three attributes, the first subscription is refused,
`mainloop_del_fd` runs `_cs_cmap_destroy`, and its cleanup deletes the three attributes that
were just pushed. -/
theorem regular_attr_init_destroy_run :
    w_track_refused_destroy.cmap_handle = 0 ∧
    (_attr_iface_init w_track_refused_destroy).1 = true ∧
    (_attr_iface_init w_track_refused_destroy).2.attrs "ringnumber_1"
      = some "eth1 is FAULTY" ∧
    (_cs_cmap_init (_attr_iface_init w_track_refused_destroy).2).1 = false ∧
    delete_calls (_regular_attr_init w_track_refused_destroy).2.trace
      = [Call.attrd_update_delegate 'D' "ringnumber_0" none,
         Call.attrd_update_delegate 'D' "ringnumber_1" none,
         Call.attrd_update_delegate 'D' "ringnumber_2" none] ∧
    (_regular_attr_init w_track_refused_destroy).2.attrs "ringnumber_0" = none ∧
    (_regular_attr_init w_track_refused_destroy).2.attrs "ringnumber_1" = none ∧
    (_regular_attr_init w_track_refused_destroy).2.attrs "ringnumber_2" = none := by
  decide

/-! ## Never stuck -/

theorem get_interface_name_world (r size : Nat) (w : World) :
    (_get_interface_name r size w).2 = ( corosync_cfg_initialize w).2 ∨
    (_get_interface_name r size w).2
      = corosync_cfg_finalize (_corosync_cfg_ring_status_free
          (decide ((w.ans_ring_status_get 0).1 = cs_error_t.CS_OK))
          (corosync_cfg_ring_status_get ( corosync_cfg_initialize w).2).2) := by
  unfold _get_interface_name
  by_cases hcfg : w.ans_cfg_init 0 = cs_error_t.CS_OK
  · right
    simp [ corosync_cfg_initialize, hcfg, corosync_cfg_ring_status_get]
  · left
    simp [ corosync_cfg_initialize, hcfg]

theorem untouched_get_interface_name (r size : Nat) (w : World) :
    untouched w (_get_interface_name r size w).2 := by
  rcases get_interface_name_world r size w with h | h
  · rw [h]
    exact untouched_of_fields w _ [Call.cfg_init] rfl rfl rfl rfl (by simp [delete_calls])
  · rw [h]
    exact untouched_trans w (corosync_cfg_ring_status_get ( corosync_cfg_initialize w).2).2 _
      (untouched_of_fields w _ [Call.cfg_init, Call.ring_status_get] rfl rfl rfl
        (by simp [ corosync_cfg_initialize, corosync_cfg_ring_status_get])
        (by simp [delete_calls]))
      (untouched_trans _
        (_corosync_cfg_ring_status_free
          (decide ((w.ans_ring_status_get 0).1 = cs_error_t.CS_OK))
          (corosync_cfg_ring_status_get ( corosync_cfg_initialize w).2).2) _
        (untouched_ring_status_free _ _)
        (untouched_of_fields _ _ [Call.cfg_finalize] rfl rfl rfl rfl (by simp [delete_calls])))

theorem untouched_send_attr_iface (i : Nat) (state : String) (size : Nat) (w : World) :
    untouched w (_send_attr_iface i state size w).2 := by
  have hg := untouched_get_interface_name i size w
  have hu := untouched_update i (_get_interface_name i size w).1.2 state size
    (_get_interface_name i size w).2
  have hcases :
      _send_attr_iface i state size w = (false, (_get_interface_name i size w).2) ∨
      _send_attr_iface i state size w
        = (false, (_update_attr_iface i (_get_interface_name i size w).1.2 state size
            (_get_interface_name i size w).2).2) ∨
      _send_attr_iface i state size w
        = (true, (_update_attr_iface i (_get_interface_name i size w).1.2 state size
            (_get_interface_name i size w).2).2) := by
    unfold _send_attr_iface
    by_cases c1 : (_get_interface_name i size w).1.1 = false
    · left
      rw [if_pos c1]
    · by_cases c2 : (_update_attr_iface i (_get_interface_name i size w).1.2 state size
          (_get_interface_name i size w).2).1 = false
      · right; left
        rw [if_neg c1, if_pos c2]
      · right; right
        rw [if_neg c1, if_neg c2]
  rcases hcases with h | h | h
  · exact untouched_snd _ _ _ _ h hg
  · exact untouched_snd _ _ _ _ h (untouched_trans _ _ _ hg hu)
  · exact untouched_snd _ _ _ _ h (untouched_trans _ _ _ hg hu)

theorem untouched_faulty_handler (c t : Nat) (event : cmap_track_event) (key_name : String)
    (nv ov : cmap_notify_value) (w : World) :
    untouched w (_cs_cmap_rrp_faulty_key_changed c t event key_name nv ov w) := by
  have hr := untouched_retry w.cmap_handle key_name CMAP_MAX_RETRIES w
  have hs : ∀ state, untouched w (_cs_rrp_faulty_event (sscanf_FAULTY_KEY key_name).field1
      state (cmap_get_uint8_retry w.cmap_handle key_name CMAP_MAX_RETRIES w).2) := fun state =>
    untouched_trans _ _ _ hr (untouched_send_attr_iface _ state MAX_LENGTH _)
  unfold _cs_cmap_rrp_faulty_key_changed
  by_cases c1 : (sscanf_FAULTY_KEY key_name).result ≠ 2
  · rw [if_pos c1]
    exact untouched_refl w
  · by_cases c2 : (sscanf_FAULTY_KEY key_name).tmp_key ≠ "faulty"
    · rw [if_neg c1, if_pos c2]
      exact untouched_refl w
    · by_cases c3 : (cmap_get_uint8_retry w.cmap_handle key_name CMAP_MAX_RETRIES w).1.1
          ≠ cs_error_t.CS_OK
      · rw [if_neg c1, if_neg c2, if_pos c3]
        exact hr
      · rw [if_neg c1, if_neg c2, if_neg c3]
        split
        · exact hs _
        · split
          · exact hs _
          · exact hs _

/-- Every callback keeps the property that a world without a channel handle has the timer
armed. -/
theorem dispatch_never_stuck (e : Event) (w : World)
    (h : w.w_timer.timer_id = 0 → w.cmap_handle ≠ 0) :
    (dispatch e w).w_timer.timer_id = 0 → (dispatch e w).cmap_handle ≠ 0 := by
  cases e with
  | timer_fired =>
    unfold dispatch
    by_cases ht : w.w_timer.timer_id = 0
    · rw [if_pos ht]
      exact h
    · rw [if_neg ht]
      obtain ⟨u1, -, u3, -⟩ := untouched_attr_iface_init w
      by_cases ha : (_attr_iface_init w).1 = false
      · rw [regular_attr_init_push_failed w ha]
        intro h2
        rw [u3] at h2
        exact absurd h2 ht
      · have ha1 : (_attr_iface_init w).1 = true := by
          cases hb : (_attr_iface_init w).1
          · exact absurd hb ha
          · rfl
        by_cases hh : (_attr_iface_init w).2.cmap_handle = 0
        · obtain ⟨-, c2, -, c4, -⟩ := cs_cmap_init_spec (_attr_iface_init w).2
          by_cases hc : (_cs_cmap_init (_attr_iface_init w).2).1 = true
          · rw [regular_attr_init_connected w ha1 hh hc]
            intro _
            show (_cs_cmap_init (_attr_iface_init w).2).2.cmap_handle ≠ 0
            rw [c2 hc]
            exact Nat.succ_ne_zero _
          · have hc0 : (_cs_cmap_init (_attr_iface_init w).2).1 = false := by
              cases hb : (_cs_cmap_init (_attr_iface_init w).2).1
              · rfl
              · exact absurd hb hc
            rw [regular_attr_init_connect_failed w ha1 hh hc0]
            intro h2
            have h3 : (_cs_cmap_init (_attr_iface_init w).2).2.w_timer.timer_id = 0 := h2
            rw [c4 (by rw [u3]; exact ht), u3] at h3
            exact absurd h3 ht
        · rw [regular_attr_init_handle_held w ha1 hh]
          intro _
          exact hh
  | ring_fault c t event key_name nv ov =>
    obtain ⟨u1, -, u3, -⟩ := untouched_faulty_handler c t event key_name nv ov w
    unfold dispatch
    intro h2
    rw [u3] at h2
    rw [u1]
    exact h h2
  | peer_connection c t event key_name nv ov =>
    unfold dispatch
    by_cases ht : w.w_timer.timer_id = 0
    · have hcases : _cs_cmap_connections_key_changed c t event key_name nv ov w = w ∨
          _cs_cmap_connections_key_changed c t event key_name nv ov w = ifcheckd_init w := by
        unfold _cs_cmap_connections_key_changed
        simp only [ht, if_true]
        split
        · left; rfl
        · split
          · left; rfl
          · split
            · left; rfl
            · split
              · split
                · right; rfl
                · left; rfl
              · left; rfl
      rcases hcases with hw | hw
      · simp only [hw]
        exact h
      · simp only [hw]
        intro h2
        exact absurd h2 (ifcheckd_init_armed w).1
    · simp only [connections_handler_armed c t event key_name nv ov w ht]
      exact h
  | channel_lost =>
    unfold dispatch _cs_cmap_destroy
    intro h2
    exact absurd h2 (ifcheckd_init_armed (ifcheckd_finalize w)).1

theorem run_events_never_stuck :
    ∀ (events : List Event) (w : World),
      (w.w_timer.timer_id = 0 → w.cmap_handle ≠ 0) →
      (run_events events w).w_timer.timer_id = 0 → (run_events events w).cmap_handle ≠ 0 := by
  intro events
  induction events with
  | nil => intro w h; exact h
  | cons e rest ih =>
    intro w h
    exact ih (dispatch e w) (dispatch_never_stuck e w h)

/-- Claim C15.  In every state reached from the start of `main` (timer id 0, handle 0, then
`ifcheckd_init`) by any sequence of timer firings, ring-fault notifications, peer-connection
notifications and channel-loss callbacks, the engine is never stuck: if the periodic timer is
not armed (`w_timer.timer_id` = 0) a channel handle is held (`cmap_handle` is not 0), that is,
every state without a channel handle has the timer armed. -/
theorem C15_never_stuck (w0 : World) (events : List Event) :
    ((run_events events (main_start w0)).w_timer.timer_id = 0 →
      (run_events events (main_start w0)).cmap_handle ≠ 0) ∧
    ((run_events events (main_start w0)).cmap_handle = 0 →
      (run_events events (main_start w0)).w_timer.timer_id ≠ 0) := by
  have hstart : (main_start w0).w_timer.timer_id = 0 → (main_start w0).cmap_handle ≠ 0 := by
    intro h
    exact absurd h (ifcheckd_init_armed _).1
  have h := run_events_never_stuck events (main_start w0) hstart
  exact ⟨h, fun h0 ht => h ht h0⟩

/-- Claim C15 on two runs of the started process.  After the timer fired and connected,
the timer is disarmed and a handle is held; after the channel was then lost, no handle is held
and the timer is armed again. -/
theorem C15_never_stuck_witness :
    ((run_events [Event.timer_fired] (main_start w_three_rings)).w_timer.timer_id = 0 ∧
      (run_events [Event.timer_fired] (main_start w_three_rings)).cmap_handle ≠ 0) ∧
    ((run_events [Event.timer_fired, Event.channel_lost]
        (main_start w_three_rings)).cmap_handle = 0 ∧
      (run_events [Event.timer_fired, Event.channel_lost]
        (main_start w_three_rings)).w_timer.timer_id ≠ 0) :=
  ⟨⟨by rfl, (C15_never_stuck w_three_rings [Event.timer_fired]).1 (by rfl)⟩,
   ⟨by rfl, (C15_never_stuck w_three_rings [Event.timer_fired, Event.channel_lost]).2
      (by rfl)⟩⟩

/-! ## Shutdown -/

/-- Function `ifcheckd_finalize` clears the handle and leaves the timer record as it was.
When the snapshot can be read and the store accepts every delete, it deletes
`ringnumber_<i>` for every ring of the snapshot in increasing order, then finalizes. -/
theorem ifcheckd_finalize_clears (w : World) :
    (ifcheckd_finalize w).cmap_handle = 0 ∧
    (ifcheckd_finalize w).w_timer = w.w_timer ∧
    (∀ rings : List (String × String),
      w.ans_cfg_init 0 = cs_error_t.CS_OK →
      w.ans_ring_status_get 0 = (cs_error_t.CS_OK, rings) →
      rings.length ≤ UINT_RANGE →
      (∀ j, j < rings.length → w.ans_attrd j = pcmk_ok) →
      (ifcheckd_finalize w).trace
        = w.trace ++ [Call.cfg_init, Call.ring_status_get] ++
          (List.range rings.length).map
            (fun i => Call.attrd_update_delegate 'D' ("ringnumber_" ++ toString i) none) ++
          [Call.cfg_finalize, Call.cmap_finalize w.cmap_handle] ∧
      (∀ i, i < rings.length →
        (ifcheckd_finalize w).attrs ("ringnumber_" ++ toString i) = none)) := by
  obtain ⟨f1, f2, f3, f4⟩ := attr_iface_finalize_frame w
  refine ⟨rfl, ?_, ?_⟩
  · simp only [ifcheckd_finalize, cmap_finalize]
    exact f3
  · intro rings hcfg hsnap hcount hstore
    have hfin : _attr_iface_finalize w
        = ((_attr_iface_finalize_loop MAX_LENGTH rings 0
              (corosync_cfg_ring_status_get ( corosync_cfg_initialize w).2).2).1,
           corosync_cfg_finalize (_attr_iface_finalize_loop MAX_LENGTH rings 0
              (corosync_cfg_ring_status_get ( corosync_cfg_initialize w).2).2).2) := by
      unfold _attr_iface_finalize
      simp [ corosync_cfg_initialize, corosync_cfg_ring_status_get, hcfg, hsnap,
        _corosync_cfg_ring_status_free]
    obtain ⟨l1, l2, l3, l4⟩ := finalize_loop_all rings 0
      (corosync_cfg_ring_status_get ( corosync_cfg_initialize w).2).2
      (fun j hj => hstore j hj)
    have hmap : (List.range rings.length).map (fun j => delete_call (0 + j))
        = (List.range rings.length).map
            (fun i => Call.attrd_update_delegate 'D' ("ringnumber_" ++ toString i) none) := by
      apply List.map_congr_left
      intro i hi
      have hi2 : i < UINT_RANGE := by
        have := List.mem_range.mp hi
        omega
      simp [delete_call, ATTR_NAME_FORMAT, fmt_u_eq i hi2]
    constructor
    · simp only [ifcheckd_finalize, cmap_finalize]
      rw [f1, hfin]
      simp only [corosync_cfg_finalize, l2, hmap]
      simp [ corosync_cfg_initialize, corosync_cfg_ring_status_get]
    · intro i hi
      have hi2 : i < UINT_RANGE := by omega
      simp only [ifcheckd_finalize, cmap_finalize]
      rw [hfin]
      simp only [corosync_cfg_finalize]
      have := l4 i hi
      simpa [ATTR_NAME_FORMAT, fmt_u_eq i hi2] using this

/-- Claim C13, amended.  Unless `corosync_cfg_ring_status_get` fails after
`corosync_cfg_initialize` succeeded (then `_attr_iface_finalize` goes to `out_free` with its
locals never assigned, and nothing is stated), a shutdown request, whatever the signal, the
state of the main loop and the state of the engine, ends the process after exactly one
`ifcheckd_finalize`, which frees only what was assigned; a process that has exited handles no
further event.  The channel handle is released (`cmap_handle` is 0 at the end).  The timer is not disarmed: the record `w_timer`, and so the timer id, is left as
it was.  The attributes are cleared on a best-effort basis: when the snapshot can be read and
the store accepts every delete, `ringnumber_<i>` is deleted for every ring `i` of the current
snapshot, in increasing order and before `cmap_finalize`, so that none of them remains
published. -/
theorem C13_shutdown (nsig : Int) (loop_running : Bool) (w : World)
    (hsafe : w.ans_cfg_init 0 = cs_error_t.CS_OK →
      (w.ans_ring_status_get 0).1 = cs_error_t.CS_OK) :
    _ifcheckd_shutdown nsig loop_running w = Proc.exited (ifcheckd_finalize w) ∧
    (∀ e : Event, proc_dispatch e (_ifcheckd_shutdown nsig loop_running w)
      = _ifcheckd_shutdown nsig loop_running w) ∧
    (proc_world (_ifcheckd_shutdown nsig loop_running w)).cmap_handle = 0 ∧
    (proc_world (_ifcheckd_shutdown nsig loop_running w)).w_timer = w.w_timer ∧
    (proc_world (_ifcheckd_shutdown nsig loop_running w)).undefined = w.undefined ∧
    (∀ rings : List (String × String),
      w.ans_cfg_init 0 = cs_error_t.CS_OK →
      w.ans_ring_status_get 0 = (cs_error_t.CS_OK, rings) →
      rings.length ≤ UINT_RANGE →
      (∀ j, j < rings.length → w.ans_attrd j = pcmk_ok) →
      (proc_world (_ifcheckd_shutdown nsig loop_running w)).trace
        = w.trace ++ [Call.cfg_init, Call.ring_status_get] ++
          (List.range rings.length).map
            (fun i => Call.attrd_update_delegate 'D' ("ringnumber_" ++ toString i) none) ++
          [Call.cfg_finalize, Call.cmap_finalize w.cmap_handle] ∧
      (∀ i, i < rings.length →
        (proc_world (_ifcheckd_shutdown nsig loop_running w)).attrs
          ("ringnumber_" ++ toString i) = none)) := by
  have hs : _ifcheckd_shutdown nsig loop_running w = Proc.exited (ifcheckd_finalize w) := by
    unfold _ifcheckd_shutdown main_end
    cases loop_running <;> rfl
  obtain ⟨c1, c2, c3⟩ := ifcheckd_finalize_clears w
  have c4 : (ifcheckd_finalize w).undefined = w.undefined := by
    simp only [ifcheckd_finalize, cmap_finalize]
    exact attr_iface_finalize_defined w hsafe
  rw [hs]
  exact ⟨rfl, fun _ => rfl, c1, c2, c4, c3⟩

/-- Claim C13, amended, at a concrete world: SIGTERM while Tracking with the three attributes
published and corosync answering.  The three attributes are deleted, then the handle is
released, and the process is gone. -/
theorem C13_shutdown_witness :
    (proc_world (_ifcheckd_shutdown 15 true w_tracking_three)).trace
      = [Call.cfg_init, Call.ring_status_get,
         Call.attrd_update_delegate 'D' "ringnumber_0" none,
         Call.attrd_update_delegate 'D' "ringnumber_1" none,
         Call.attrd_update_delegate 'D' "ringnumber_2" none,
         Call.cfg_finalize, Call.cmap_finalize 1] ∧
    (proc_world (_ifcheckd_shutdown 15 true w_tracking_three)).attrs "ringnumber_2" = none ∧
    (proc_world (_ifcheckd_shutdown 15 true w_tracking_three)).cmap_handle = 0 := by
  have h := (C13_shutdown 15 true w_tracking_three (fun _ => rfl)).2.2.2.2.2 three_rings rfl
    rfl (by decide) (fun _ _ => rfl)
  exact ⟨by rw [h.1]; decide, h.2 2 (by decide),
    (C13_shutdown 15 true w_tracking_three (fun _ => rfl)).2.2.1⟩

/-- Claim C13 as stated fails.  The process was started, the timer fired and published the
three attributes, corosync went away and the channel was lost (`w_after_loss`: no handle,
timer armed with id 1, attributes still published).  SIGTERM then ends the process without a
single delete sent to the store, with the attributes still published and with the timer id
still 1, not 0. -/
theorem C13_counterexample :
    w_after_loss.w_timer.timer_id = 1 ∧
    w_after_loss.attrs "ringnumber_0" = some "eth0 is UP" ∧
    delete_calls (proc_world (_ifcheckd_shutdown 15 true w_after_loss)).trace = [] ∧
    (proc_world (_ifcheckd_shutdown 15 true w_after_loss)).attrs "ringnumber_0"
      = some "eth0 is UP" ∧
    (proc_world (_ifcheckd_shutdown 15 true w_after_loss)).attrs "ringnumber_1"
      = some "eth1 is FAULTY" ∧
    (proc_world (_ifcheckd_shutdown 15 true w_after_loss)).attrs "ringnumber_2"
      = some "eth2 is UNKOWN" ∧
    (proc_world (_ifcheckd_shutdown 15 true w_after_loss)).w_timer.timer_id = 1 ∧
    (proc_world (_ifcheckd_shutdown 15 true w_after_loss)).cmap_handle = 0 := by
  decide

end Ifcheckd
